import Mathlib

/-!
# Binary core dump writer and image verifier (`components/espcoredump/src/core_dump_common.c`)

A shallow embedding of `esp_core_dump_write_binary` and its helpers, and of
`esp_core_dump_image_get`.

* `uint32_t` values are natural numbers; every arithmetic step that can wrap
  is reduced modulo `2 ^ 32` explicitly.
* `esp_err_t` is an integer, `ESP_OK = 0`, `ESP_FAIL = -1`.
* The static array `tasks` is seen through its base pointer as a map from
  (signed) indices to task headers: an index in `[0, capacity)` addresses the
  array, any other index addresses the memory next to it.  The indices the
  writer uses are recorded, so that index safety is a statement about the run.
* A pointer into `tasks` handed to the sink is the index together with the
  header it points to; a pointer to raw memory is its address.
* The sink (`core_dump_write_config_t`) is a state machine over its private
  data `priv`; the calls the writer makes are recorded in order, each with the
  code the hook returned.
* What the file uses but does not define (sizes, constants, the port layer's
  helpers) is a field of `Port`; the sentinel and the second name of the
  interrupt-context query are modelled from the spec.
-/

namespace CoreDump

/-! ## Machine words and status codes -/

/-- The modulus of `uint32_t` arithmetic. -/
def U32 : Nat := 4294967296

abbrev esp_err_t := Int

def ESP_OK : esp_err_t := 0

def ESP_FAIL : esp_err_t := -1

/-- Modelled from the spec: the sentinel held by `curr_task_index` while no
fault task has been identified; it is declared outside this file, as `(-1)`,
and is not an index of the task array. -/
def COREDUMP_CURR_TASK_NOT_FOUND : Int := -1

/-! ## Records -/

structure core_dump_task_header_t where
  tcb_addr : Nat
  stack_start : Nat
  stack_end : Nat
deriving DecidableEq, Repr

structure core_dump_mem_seg_header_t where
  start : Nat
  size : Nat
deriving DecidableEq, Repr

structure core_dump_header_t where
  data_len : Nat
  version : Nat
  tasks_num : Nat
  mem_segs_num : Nat
  tcb_sz : Nat
deriving DecidableEq, Repr

/-- What `esp_core_dump_get_stack` hands back: its return value and the two
out-parameters. -/
structure stack_info where
  paddr : Nat
  vaddr : Nat
  len : Nat
deriving DecidableEq, Repr

/-- What `esp_core_dump_check_task` hands back: its return value
(`tcb_is_valid`) and the two out-parameters. -/
structure task_check where
  tcb_is_valid : Bool
  is_current_task : Bool
  stack_is_valid : Bool
deriving DecidableEq, Repr

/-- The declarations `core_dump_common.c` uses and does not define. -/
structure Port where
  COREDUMP_TCB_SIZE : Nat
  COREDUMP_VERSION : Nat
  sizeof_core_dump_header_t : Nat
  sizeof_core_dump_task_header_t : Nat
  sizeof_core_dump_mem_seg_header_t : Nat
  esp_core_dump_get_stack : core_dump_task_header_t → stack_info
  esp_core_dump_check_task : Nat → core_dump_task_header_t → task_check
  esp_core_dump_mem_seg_is_sane : Nat → Nat → Bool
  xPortInterruptedFromISRContext : Bool
  esp_core_dump_get_isr_stack_end : Nat

/-- Modelled from the spec: `esp_core_dump_in_isr_context` is declared outside
this file; the spec has one interrupt-context query ("is this an interrupt
context fault", no side effects), so it gives the answer of
`xPortInterruptedFromISRContext`. -/
def Port.esp_core_dump_in_isr_context (P : Port) : Bool :=
  P.xPortInterruptedFromISRContext

/-! ## Length helpers (lines 25-38) -/

def esp_core_dump_get_tcb_len (P : Port) : Nat :=
  if P.COREDUMP_TCB_SIZE % 4 ≠ 0 then
    ((P.COREDUMP_TCB_SIZE / 4 + 1) * 4) % U32
  else
    P.COREDUMP_TCB_SIZE % U32

def esp_core_dump_get_stack_len (stack_start stack_end : Nat) : Nat :=
  let len := (stack_end % U32 + U32 - stack_start % U32) % U32
  -- `~(sizeof(uint32_t) - 1)` is `0xFFFFFFFC`
  Nat.land ((len + 4 - 1) % U32) 4294967292

/-- The padded stack length of a task record, as both passes compute it:
`esp_core_dump_get_stack` followed by
`esp_core_dump_get_stack_len(stk_vaddr, stk_vaddr+stk_len)`. -/
def task_stack_len (P : Port) (task : core_dump_task_header_t) : Nat :=
  let stk := P.esp_core_dump_get_stack task
  esp_core_dump_get_stack_len stk.vaddr ((stk.vaddr + stk.len) % U32)

/-! ## The sink -/

/-- The `data` argument of the `write` hook. -/
inductive Payload where
  | hdr (h : core_dump_header_t)
  | task (index : Int) (t : core_dump_task_header_t)
  | seg (s : core_dump_mem_seg_header_t)
  | mem (addr : Nat)
deriving DecidableEq, Repr

/-- One call of a sink hook, with its arguments and the code it returned. -/
inductive Call where
  | prepare (data_len : Nat) (ret : esp_err_t)
  | start (ret : esp_err_t)
  | write (data : Payload) (len : Nat) (ret : esp_err_t)
  | end_ (ret : esp_err_t)
deriving DecidableEq, Repr

/-- The hooks of `core_dump_write_config_t` over private data `σ`.  The
optional hooks are `none` when the pointer is `NULL`.  `prepare` receives
`&data_len` and hands back the value it leaves there. -/
structure core_dump_write_config_t (σ : Type) where
  prepare : Option (σ → Nat → esp_err_t × σ × Nat)
  start : Option (σ → esp_err_t × σ)
  write : σ → Payload → Nat → esp_err_t × σ
  end_ : Option (σ → esp_err_t × σ)

/-- The sink's private data and the calls made so far, oldest first. -/
structure SinkState (σ : Type) where
  priv : σ
  calls : List Call

/-- The statement `err = write_cfg->write(write_cfg->priv, data, len)`. -/
def sink_write {σ : Type} (w : core_dump_write_config_t σ) (st : SinkState σ)
    (data : Payload) (len : Nat) : esp_err_t × SinkState σ :=
  let r := w.write st.priv data len
  (r.1, { priv := r.2, calls := st.calls ++ [Call.write data len r.1] })

/-- The statement `if (write_cfg->start) err = write_cfg->start(write_cfg->priv)`;
an absent hook leaves nothing to fail. -/
def sink_start {σ : Type} (w : core_dump_write_config_t σ) (st : SinkState σ) :
    esp_err_t × SinkState σ :=
  match w.start with
  | none => (ESP_OK, st)
  | some f =>
    let r := f st.priv
    (r.1, { priv := r.2, calls := st.calls ++ [Call.start r.1] })

/-- The statement `if (write_cfg->end) err = write_cfg->end(write_cfg->priv)`;
with no hook `err` keeps the value `prev` it had. -/
def sink_end {σ : Type} (w : core_dump_write_config_t σ) (prev : esp_err_t)
    (st : SinkState σ) : esp_err_t × SinkState σ :=
  match w.end_ with
  | none => (prev, st)
  | some f =>
    let r := f st.priv
    (r.1, { priv := r.2, calls := st.calls ++ [Call.end_ r.1] })

/-- The statement
`if (write_cfg->prepare) err = write_cfg->prepare(write_cfg->priv, &data_len)`:
the code, the sink state and the value of `data_len` afterwards. -/
def sink_prepare {σ : Type} (w : core_dump_write_config_t σ) (st : SinkState σ)
    (data_len : Nat) : esp_err_t × SinkState σ × Nat :=
  match w.prepare with
  | none => (ESP_OK, st, data_len)
  | some f =>
    let r := f st.priv data_len
    (r.1, { priv := r.2.1, calls := st.calls ++ [Call.prepare data_len r.1] }, r.2.2 % U32)

/-! ## `esp_core_dump_save_task` (lines 40-74) -/

def esp_core_dump_save_task {σ : Type} (P : Port) (w : core_dump_write_config_t σ)
    (st : SinkState σ) (tasks : Int → core_dump_task_header_t) (index : Int) :
    esp_err_t × SinkState σ :=
  let task := tasks index
  let stk := P.esp_core_dump_get_stack task
  let stk_len := esp_core_dump_get_stack_len stk.vaddr ((stk.vaddr + stk.len) % U32)
  let r1 := sink_write w st (Payload.task index task) P.sizeof_core_dump_task_header_t
  if r1.1 ≠ ESP_OK then r1 else
  let r2 := sink_write w r1.2 (Payload.mem task.tcb_addr) (esp_core_dump_get_tcb_len P)
  if r2.1 ≠ ESP_OK then r2 else
  let r3 := sink_write w r2.2 (Payload.mem stk.paddr) stk_len
  if r3.1 ≠ ESP_OK then r3 else
  (ESP_OK, r3.2)

/-! ## `esp_core_dump_save_mem_segment` (lines 76-102) -/

def esp_core_dump_save_mem_segment {σ : Type} (P : Port) (w : core_dump_write_config_t σ)
    (st : SinkState σ) (seg : core_dump_mem_seg_header_t) : esp_err_t × SinkState σ :=
  if !P.esp_core_dump_mem_seg_is_sane seg.start seg.size then (ESP_FAIL, st) else
  let r1 := sink_write w st (Payload.seg seg) P.sizeof_core_dump_mem_seg_header_t
  if r1.1 ≠ ESP_OK then r1 else
  let r2 := sink_write w r1.2 (Payload.mem seg.start) seg.size
  if r2.1 ≠ ESP_OK then r2 else
  (ESP_OK, r2.2)

/-! ## `esp_core_dump_write_binary`: the size pre-pass (lines 108-159) -/

/-- The variables the verification loop (lines 117-138) updates, and the
indices it has used on `tasks`. -/
structure VerifyState where
  bad_tasks_num : Nat
  curr_task_index : Int
  data_len : Nat
  idx : List Int

/-- One iteration of the verification loop, for `task_id`.  The counter
`write_cfg->bad_tasks_num` is a `uint32_t` field (the structure is declared
outside this file), so `bad_tasks_num++` wraps at `2^32`. -/
def verify_task (P : Port) (frame : Nat) (tasks : Int → core_dump_task_header_t)
    (s : VerifyState) (task_id : Nat) : VerifyState :=
  let chk := P.esp_core_dump_check_task frame (tasks task_id)
  let d1 := (s.data_len + task_stack_len P (tasks task_id)) % U32
  { bad_tasks_num :=
      if !chk.tcb_is_valid || !chk.stack_is_valid then (s.bad_tasks_num + 1) % U32
      else s.bad_tasks_num
    curr_task_index := if chk.is_current_task then (task_id : Int) else s.curr_task_index
    data_len :=
      (d1 + (esp_core_dump_get_tcb_len P + P.sizeof_core_dump_task_header_t) % U32) % U32
    idx := s.idx ++ [(task_id : Int)] }

/-- The verification loop: `for (task_id = 0; task_id < task_num; task_id++)`. -/
def verify_tasks (P : Port) (frame : Nat) (tasks : Int → core_dump_task_header_t)
    (task_num : Nat) (bad_tasks_num : Nat) : VerifyState :=
  (List.range task_num).foldl (verify_task P frame tasks)
    { bad_tasks_num := bad_tasks_num
      curr_task_index := COREDUMP_CURR_TASK_NOT_FOUND
      data_len := 0
      idx := [] }

/-- The state at line 160, when the size pre-pass is over. -/
structure PrePass where
  tasks : Int → core_dump_task_header_t
  bad_tasks_num : Nat
  curr_task_index : Int
  data_len : Nat
  interrupted_task_stack : core_dump_mem_seg_header_t
  idx : List Int

/-- Lines 117-159.  `tasks` is the task array as the snapshot provider left it
and `task_num` the count it returned; `bad_tasks_num` is the counter's value on
entry.  Outside interrupt context `interrupted_task_stack` is never
assigned and never read; it is given the value zero here. -/
def size_precompute (P : Port) (frame : Nat) (tasks : Int → core_dump_task_header_t)
    (task_num : Nat) (bad_tasks_num : Nat) : PrePass :=
  let v := verify_tasks P frame tasks task_num bad_tasks_num
  -- lines 152-156: they run after the block of lines 140-150, which indexes
  -- `tasks` with the value the loop left in `curr_task_index`
  let curr := if v.curr_task_index = COREDUMP_CURR_TASK_NOT_FOUND then 0 else v.curr_task_index
  -- lines 140-150
  if P.esp_core_dump_in_isr_context then
    let t := tasks v.curr_task_index
    let seg : core_dump_mem_seg_header_t :=
      { start := t.stack_start
        size := esp_core_dump_get_stack_len t.stack_start t.stack_end }
    let d1 := (v.data_len + P.sizeof_core_dump_mem_seg_header_t) % U32
    let t1 : core_dump_task_header_t :=
      { t with stack_start := frame % U32, stack_end := P.esp_core_dump_get_isr_stack_end % U32 }
    let d2 := (d1 + esp_core_dump_get_stack_len t1.stack_start t1.stack_end) % U32
    { tasks := Function.update tasks v.curr_task_index t1
      bad_tasks_num := v.bad_tasks_num
      curr_task_index := curr
      data_len := (d2 + P.sizeof_core_dump_header_t) % U32
      interrupted_task_stack := seg
      idx := v.idx ++ [v.curr_task_index] }
  else
    { tasks := tasks
      bad_tasks_num := v.bad_tasks_num
      curr_task_index := curr
      data_len := (v.data_len + P.sizeof_core_dump_header_t) % U32
      interrupted_task_stack := { start := 0, size := 0 }
      idx := v.idx }

/-! ## `esp_core_dump_write_binary`: the write pass (lines 163-237) -/

/-- The header of lines 181-189, for the value `data_len` holds after the
`prepare` hook. -/
def make_header (P : Port) (task_num : Nat) (data_len : Nat) : core_dump_header_t :=
  { data_len := data_len
    version := P.COREDUMP_VERSION
    tasks_num := task_num
    mem_segs_num := if P.xPortInterruptedFromISRContext then 1 else 0
    tcb_sz := esp_core_dump_get_tcb_len P }

/-- The loop of lines 204-216 over the task ids still to visit; `err` is the
value the variable holds on entry. -/
def save_other_tasks {σ : Type} (P : Port) (w : core_dump_write_config_t σ)
    (tasks : Int → core_dump_task_header_t) (curr_task_index : Int) :
    List Nat → esp_err_t → SinkState σ → esp_err_t × SinkState σ
  | [], err, st => (err, st)
  | task_id :: rest, err, st =>
    if (task_id : Int) = curr_task_index then
      save_other_tasks P w tasks curr_task_index rest err st
    else
      let r := esp_core_dump_save_task P w st tasks task_id
      if r.1 ≠ ESP_OK then r
      else save_other_tasks P w tasks curr_task_index rest r.1 r.2

/-- What a run of the writer leaves behind. -/
structure WriteResult (σ : Type) where
  err : esp_err_t
  priv : σ
  bad_tasks_num : Nat
  tasks : Int → core_dump_task_header_t
  calls : List Call
  idx : List Int

/-- The index of `tasks` behind a `write` call that was handed a pointer into
the array. -/
def Call.task_index : Call → Option Int
  | Call.write (Payload.task i _) _ _ => some i
  | _ => none

/-- Lines 163-237, from the state the pre-pass left. -/
def write_pass {σ : Type} (P : Port) (w : core_dump_write_config_t σ) (priv : σ)
    (task_num : Nat) (pp : PrePass) : esp_err_t × SinkState σ :=
  let r0 := sink_prepare w { priv := priv, calls := [] } pp.data_len
  if r0.1 ≠ ESP_OK then (r0.1, r0.2.1) else
  let r1 := sink_start w r0.2.1
  if r1.1 ≠ ESP_OK then r1 else
  let hdr := make_header P task_num r0.2.2
  let r2 := sink_write w r1.2 (Payload.hdr hdr) P.sizeof_core_dump_header_t
  if r2.1 ≠ ESP_OK then r2 else
  let r3 := esp_core_dump_save_task P w r2.2 pp.tasks pp.curr_task_index
  if r3.1 ≠ ESP_OK then r3 else
  let r4 := save_other_tasks P w pp.tasks pp.curr_task_index (List.range task_num) r3.1 r3.2
  if r4.1 ≠ ESP_OK then r4 else
  let r5 :=
    if P.xPortInterruptedFromISRContext then
      esp_core_dump_save_mem_segment P w r4.2 pp.interrupted_task_stack
    else r4
  if r5.1 ≠ ESP_OK then r5 else
  let r6 := sink_end w r5.1 r5.2
  if r6.1 ≠ ESP_OK then r6 else
  (r6.1, r6.2)

/-- The function `esp_core_dump_write_binary(frame, write_cfg)`.  `tasks` and
`task_num` are what `esp_core_dump_get_tasks_snapshot` left in the static
array and returned; `priv` and `bad_tasks_num` are the fields of `write_cfg`
on entry.  `idx` lists every index used on `tasks`: those of the pre-pass,
then those of the records handed to `esp_core_dump_save_task`. -/
def esp_core_dump_write_binary {σ : Type} (P : Port) (frame : Nat)
    (w : core_dump_write_config_t σ) (priv : σ) (bad_tasks_num : Nat)
    (tasks : Int → core_dump_task_header_t) (task_num : Nat) : WriteResult σ :=
  let pp := size_precompute P frame tasks task_num bad_tasks_num
  let r := write_pass P w priv task_num pp
  { err := r.1
    priv := r.2.priv
    bad_tasks_num := pp.bad_tasks_num
    tasks := pp.tasks
    calls := r.2.calls
    idx := pp.idx ++ r.2.calls.filterMap Call.task_index }

/-! ## Reading a run -/

/-- The code a recorded call returned. -/
def Call.ret : Call → esp_err_t
  | Call.prepare _ r => r
  | Call.start r => r
  | Call.write _ _ r => r
  | Call.end_ r => r

/-- The same call with another return code. -/
def Call.with_ret : Call → esp_err_t → Call
  | Call.prepare d _, e => Call.prepare d e
  | Call.start _, e => Call.start e
  | Call.write d n _, e => Call.write d n e
  | Call.end_ _, e => Call.end_ e

/-- Issue the hook call `c` describes (its recorded return code is ignored)
and record it with the code the sink returns. -/
def perform {σ : Type} (w : core_dump_write_config_t σ) (c : Call) (st : SinkState σ) :
    esp_err_t × SinkState σ :=
  match c with
  | Call.prepare d _ => ((sink_prepare w st d).1, (sink_prepare w st d).2.1)
  | Call.start _ => sink_start w st
  | Call.write d n _ => sink_write w st d n
  | Call.end_ _ => sink_end w ESP_OK st

/-- Issue the calls of a list in order, stopping at the first that fails. -/
def exec {σ : Type} (w : core_dump_write_config_t σ) :
    List Call → SinkState σ → esp_err_t × SinkState σ
  | [], st => (ESP_OK, st)
  | c :: rest, st =>
    if (perform w c st).1 ≠ ESP_OK then perform w c st
    else exec w rest (perform w c st).2

/-- The hook a call goes to is present in the sink. -/
def Present {σ : Type} (w : core_dump_write_config_t σ) : Call → Prop
  | Call.prepare _ _ => w.prepare.isSome = true
  | Call.start _ => w.start.isSome = true
  | Call.write _ _ _ => True
  | Call.end_ _ => w.end_.isSome = true

/-- The three `write` calls of `esp_core_dump_save_task` on `tasks[index]`,
each recorded as succeeding. -/
def task_calls (P : Port) (tasks : Int → core_dump_task_header_t) (index : Int) : List Call :=
  [ Call.write (Payload.task index (tasks index)) P.sizeof_core_dump_task_header_t ESP_OK,
    Call.write (Payload.mem (tasks index).tcb_addr) (esp_core_dump_get_tcb_len P) ESP_OK,
    Call.write (Payload.mem (P.esp_core_dump_get_stack (tasks index)).paddr)
      (task_stack_len P (tasks index)) ESP_OK ]

/-- The task ids the loop of lines 204-216 does not skip, in the order it
visits them. -/
def other_task_ids (curr_task_index : Int) (task_num : Nat) : List Nat :=
  (List.range task_num).filter (fun (task_id : Nat) => decide ((task_id : Int) ≠ curr_task_index))

/-- The two `write` calls of `esp_core_dump_save_mem_segment`, each recorded as
succeeding. -/
def seg_calls (P : Port) (seg : core_dump_mem_seg_header_t) : List Call :=
  [ Call.write (Payload.seg seg) P.sizeof_core_dump_mem_seg_header_t ESP_OK,
    Call.write (Payload.mem seg.start) seg.size ESP_OK ]

/-- The `prepare` call, when the hook is present. -/
def prepare_calls {σ : Type} (w : core_dump_write_config_t σ) (data_len : Nat) : List Call :=
  if w.prepare.isSome then [Call.prepare data_len ESP_OK] else []

/-- The `start` call, when the hook is present. -/
def start_calls {σ : Type} (w : core_dump_write_config_t σ) : List Call :=
  if w.start.isSome then [Call.start ESP_OK] else []

/-- The `end` call, when the hook is present. -/
def end_calls {σ : Type} (w : core_dump_write_config_t σ) : List Call :=
  if w.end_.isSome then [Call.end_ ESP_OK] else []

/-- The calls for the task records: the fault task's, then the others'. -/
def record_calls (P : Port) (task_num : Nat) (pp : PrePass) : List Call :=
  task_calls P pp.tasks pp.curr_task_index ++
    (other_task_ids pp.curr_task_index task_num).flatMap
      (fun (task_id : Nat) => task_calls P pp.tasks (task_id : Int))

/-- The calls from `start` to the last task record, for the header length
`data_len`. -/
def body_calls {σ : Type} (P : Port) (w : core_dump_write_config_t σ) (task_num : Nat)
    (pp : PrePass) (data_len : Nat) : List Call :=
  start_calls w ++
    Call.write (Payload.hdr (make_header P task_num data_len)) P.sizeof_core_dump_header_t ESP_OK ::
      record_calls P task_num pp

/-- The calls after the last task record: the memory segment in interrupt
context, then `end`. -/
def tail_calls {σ : Type} (P : Port) (w : core_dump_write_config_t σ) (pp : PrePass) :
    List Call :=
  (if P.xPortInterruptedFromISRContext then seg_calls P pp.interrupted_task_stack else []) ++
    end_calls w

/-- The value `data_len` holds after the `prepare` step of a run. -/
def prepared_len {σ : Type} (w : core_dump_write_config_t σ) (priv : σ) (pp : PrePass) : Nat :=
  (sink_prepare w { priv := priv, calls := [] } pp.data_len).2.2

/-- The calls of a run in which every hook succeeds and the memory segment, if
any, passes its check. -/
def ideal_calls {σ : Type} (P : Port) (w : core_dump_write_config_t σ) (priv : σ)
    (task_num : Nat) (pp : PrePass) : List Call :=
  prepare_calls w pp.data_len ++ body_calls P w task_num pp (prepared_len w priv pp) ++
    tail_calls P w pp

/-- The memory segment is due and fails `esp_core_dump_mem_seg_is_sane`. -/
def seg_rejected (P : Port) (pp : PrePass) : Bool :=
  P.xPortInterruptedFromISRContext &&
    !P.esp_core_dump_mem_seg_is_sane pp.interrupted_task_stack.start
      pp.interrupted_task_stack.size

/-- The check `esp_core_dump_check_task` marks `tasks[i]` as the current task. -/
def is_flagged (P : Port) (frame : Nat) (tasks : Int → core_dump_task_header_t) (i : Nat) :
    Bool :=
  (P.esp_core_dump_check_task frame (tasks i)).is_current_task

/-- The test of line 122 on `tasks[i]`: the TCB or the stack is reported
invalid. -/
def is_bad (P : Port) (frame : Nat) (tasks : Int → core_dump_task_header_t) (i : Nat) : Bool :=
  !(P.esp_core_dump_check_task frame (tasks i)).tcb_is_valid ||
    !(P.esp_core_dump_check_task frame (tasks i)).stack_is_valid

/-- How many of the first `n` tasks fail the test of line 122. -/
def bad_count (P : Port) (frame : Nat) (tasks : Int → core_dump_task_header_t) (n : Nat) : Nat :=
  (List.range n).countP (is_bad P frame tasks)

/-- The bytes of one task record: header, TCB block, padded stack. -/
def record_len (P : Port) (t : core_dump_task_header_t) : Nat :=
  P.sizeof_core_dump_task_header_t + esp_core_dump_get_tcb_len P + task_stack_len P t

/-- The bytes of the records of the first `n` tasks of an array. -/
def records_len (P : Port) (tasks : Int → core_dump_task_header_t) (n : Nat) : Nat :=
  ((List.range n).map (fun (i : Nat) => record_len P (tasks (i : Int)))).sum

/-- The call went to the `write` hook. -/
def Call.is_write : Call → Bool
  | Call.write _ _ _ => true
  | _ => false

/-- Every hook of the sink succeeds, whatever its state and arguments. -/
def AllOk {σ : Type} (w : core_dump_write_config_t σ) : Prop :=
  (∀ f, w.prepare = some f → ∀ s d, (f s d).1 = ESP_OK) ∧
  (∀ f, w.start = some f → ∀ s, (f s).1 = ESP_OK) ∧
  (∀ s d n, (w.write s d n).1 = ESP_OK) ∧
  (∀ f, w.end_ = some f → ∀ s, (f s).1 = ESP_OK)

/-! ## Example inputs -/

/-- A port for the examples: headers of 20, 12 and 8 bytes, a 10-byte TCB, a
task is the current one when its TCB address is 7, a TCB is valid when its
address is not 0, a stack is valid when it does not end before it starts, and a
memory segment is sane up to 4096 bytes. -/
def example_port (in_isr : Bool) : Port :=
  { COREDUMP_TCB_SIZE := 10
    COREDUMP_VERSION := 1
    sizeof_core_dump_header_t := 20
    sizeof_core_dump_task_header_t := 12
    sizeof_core_dump_mem_seg_header_t := 8
    esp_core_dump_get_stack := fun t =>
      { paddr := t.stack_start
        vaddr := t.stack_start
        len := (t.stack_end % U32 + U32 - t.stack_start % U32) % U32 }
    esp_core_dump_check_task := fun _ t =>
      { tcb_is_valid := decide (t.tcb_addr ≠ 0)
        is_current_task := decide (t.tcb_addr = 7)
        stack_is_valid := decide (t.stack_start ≤ t.stack_end) }
    esp_core_dump_mem_seg_is_sane := fun _ size => decide (size ≤ 4096)
    xPortInterruptedFromISRContext := in_isr
    esp_core_dump_get_isr_stack_end := 5000 }

/-- A task array whose entry 1 is the current task and whose entry 2 has a
stack that ends before it starts. -/
def example_tasks : Int → core_dump_task_header_t := fun i =>
  if i = 0 then { tcb_addr := 5, stack_start := 100, stack_end := 205 }
  else if i = 1 then { tcb_addr := 7, stack_start := 300, stack_end := 405 }
  else if i = 2 then { tcb_addr := 9, stack_start := 700, stack_end := 600 }
  else { tcb_addr := 0, stack_start := 0, stack_end := 0 }

/-- A task array in which no entry is the current task. -/
def unflagged_tasks : Int → core_dump_task_header_t := fun i =>
  if i = 0 then { tcb_addr := 5, stack_start := 100, stack_end := 204 }
  else if i = 1 then { tcb_addr := 6, stack_start := 300, stack_end := 400 }
  else { tcb_addr := 0, stack_start := 0, stack_end := 0 }

/-- A sink with every hook present and succeeding. -/
def example_sink : core_dump_write_config_t Unit :=
  { prepare := some (fun s d => (ESP_OK, s, d))
    start := some (fun s => (ESP_OK, s))
    write := fun s _ _ => (ESP_OK, s)
    end_ := some (fun s => (ESP_OK, s)) }

/-- A sink whose `prepare` hook adds the 4 bytes of a trailing checksum to the
length it is handed. -/
def checksum_sink : core_dump_write_config_t Unit :=
  { prepare := some (fun s d => (ESP_OK, s, d + 4))
    start := some (fun s => (ESP_OK, s))
    write := fun s _ _ => (ESP_OK, s)
    end_ := some (fun s => (ESP_OK, s)) }

/-- A sink that counts its `write` calls and fails the third with code 261. -/
def failing_sink : core_dump_write_config_t Nat :=
  { prepare := some (fun s d => (ESP_OK, s, d))
    start := some (fun s => (ESP_OK, s))
    write := fun s _ _ => (if s = 2 then 261 else ESP_OK, s + 1)
    end_ := some (fun s => (ESP_OK, s)) }

/-- A task array whose entry 0 is the current task, with a stack of 8192
bytes. -/
def wide_tasks : Int → core_dump_task_header_t := fun i =>
  if i = 0 then { tcb_addr := 7, stack_start := 4096, stack_end := 12288 }
  else { tcb_addr := 0, stack_start := 0, stack_end := 0 }

/-- A task check that reports every TCB and every stack invalid, and the task
whose TCB address is 7 as the current one. -/
def strict_check : Nat → core_dump_task_header_t → task_check := fun _ t =>
  { tcb_is_valid := false
    is_current_task := decide (t.tcb_addr = 7)
    stack_is_valid := false }

/-- The memory segment header handed to a `write` call, if that is what the
call wrote. -/
def Call.seg_header : Call → Option core_dump_mem_seg_header_t
  | Call.write (Payload.seg s) _ _ => some s
  | _ => none

/-- The core dump header handed to a `write` call, if that is what the call
wrote. -/
def Call.header : Call → Option core_dump_header_t
  | Call.write (Payload.hdr h) _ _ => some h
  | _ => none

/-- The byte length handed to a `write` call; the other hooks take no bytes. -/
def Call.len : Call → Nat
  | Call.write _ n _ => n
  | _ => 0

/-- The sum of the byte lengths passed to the `write` hook over a run. -/
def bytes_written (calls : List Call) : Nat :=
  (calls.map Call.len).sum

/-- A snapshot of five tasks: entry 1 is the current task and entry 2, alone,
has a stack that ends before it starts. -/
def five_tasks : Int → core_dump_task_header_t := fun i =>
  if i = 0 then { tcb_addr := 5, stack_start := 100, stack_end := 205 }
  else if i = 1 then { tcb_addr := 7, stack_start := 300, stack_end := 405 }
  else if i = 2 then { tcb_addr := 9, stack_start := 700, stack_end := 600 }
  else if i = 3 then { tcb_addr := 11, stack_start := 800, stack_end := 900 }
  else if i = 4 then { tcb_addr := 13, stack_start := 1000, stack_end := 1100 }
  else { tcb_addr := 0, stack_start := 0, stack_end := 0 }

/-! ## `esp_core_dump_image_get` (lines 269-349)

The partition is seen through the pointer `core_data` that
`esp_partition_mmap` hands back: `data i` is the byte at `core_data + i`, for
`0 ≤ i < size` a byte of the partition and for any other `i` the memory next
to the mapping.  Both mappings start at offset 0 of the partition.  The two
output pointers are distinct cells; `none` is the `NULL` pointer.  `size_t` is
32 bits wide. -/

/-- Modelled from the spec: the status codes of the verifier are distinct
values ("each is a distinct reported condition"); they are declared outside
this file, with the values of `esp_err.h`. -/
def ESP_ERR_INVALID_ARG : esp_err_t := 258

/-- Modelled from the spec: see `ESP_ERR_INVALID_ARG`. -/
def ESP_ERR_INVALID_SIZE : esp_err_t := 260

/-- Modelled from the spec: see `ESP_ERR_INVALID_ARG`. -/
def ESP_ERR_NOT_FOUND : esp_err_t := 261

/-- Modelled from the spec: see `ESP_ERR_INVALID_ARG`. -/
def ESP_ERR_INVALID_CRC : esp_err_t := 265

/-- The fields of `esp_partition_t` the function reads. -/
structure esp_partition_t where
  address : Nat
  size : Nat
deriving DecidableEq, Repr

/-- The build-time choice between `CONFIG_ESP32_COREDUMP_CHECKSUM_CRC32` and
`CONFIG_ESP32_COREDUMP_CHECKSUM_SHA256`. -/
inductive checksum_mode where
  | crc32
  | sha256
deriving DecidableEq, Repr

/-- What `esp_partition_mmap` hands back: its return value and the handle it
stores through `out_handle`. -/
structure mmap_result where
  err : esp_err_t
  handle : Nat
deriving DecidableEq, Repr

/-- The declarations `esp_core_dump_image_get` uses and does not define, and
the content of the flash.  `esp_partition_mmap` is given the number of
mappings requested before, the offset and the size. -/
structure Flash where
  checksum : checksum_mode
  COREDUMP_SHA256_LEN : Nat
  esp_partition_find_first : Option esp_partition_t
  esp_partition_mmap : Nat → Nat → Nat → mmap_result
  data : Int → Nat
  crc32_le : Nat → (Int → Nat) → Nat → Nat
  esp_core_dump_sha : (Int → Nat) → Nat → Nat → Nat

/-- A call of `esp_partition_mmap` (with the code and handle it returned) or
of `spi_flash_munmap`. -/
inductive MapCall where
  | mmap (offset size : Nat) (ret : esp_err_t) (handle : Nat)
  | munmap (handle : Nat)
deriving DecidableEq, Repr

/-- The 32-bit word at `mem + off`, on the little-endian target. -/
def read_u32 (mem : Int → Nat) (off : Int) : Nat :=
  mem off % 256 + 256 * (mem (off + 1) % 256) + 65536 * (mem (off + 2) % 256) +
    16777216 * (mem (off + 3) % 256)

/-- The test `memcmp(p, q, n) != 0` on the bytes at `mem + off` and the bytes
of `out`. -/
def memcmp_ne (mem : Int → Nat) (off : Int) (out : Nat → Nat) (n : Nat) : Bool :=
  (List.range n).any (fun (i : Nat) => decide (mem (off + (i : Int)) % 256 ≠ out i % 256))

/-- What a call of `esp_core_dump_image_get` leaves behind: its return value,
the cells behind the two output pointers, the mapping calls in order, and, when
the checksum step is reached, the length handed to the checksum function and
the offset from `core_data` of the stored checksum field. -/
structure ImageResult where
  err : esp_err_t
  out_addr : Option Nat
  out_size : Option Nat
  maps : List MapCall
  checksum_len : Option Nat
  checksum_field : Option Int

/-- Lines 313-344 for the declared size `d`: the length handed to the checksum
function (in `size_t` arithmetic), the offset of the stored field, and whether
the stored and the computed checksum differ. -/
def checksum_step (F : Flash) (d : Nat) : Nat × Int × Bool :=
  match F.checksum with
  | checksum_mode.crc32 =>
    let len := (d % U32 + U32 - 4) % U32
    let crc : Int := (d : Int) - 4
    let cur_crc := F.crc32_le 0 F.data len
    (len, crc, decide (read_u32 F.data crc ≠ cur_crc))
  | checksum_mode.sha256 =>
    let len := (d % U32 + U32 - F.COREDUMP_SHA256_LEN % U32) % U32
    let sha256_ptr : Int := (d : Int) - (F.COREDUMP_SHA256_LEN : Int)
    let sha_output := F.esp_core_dump_sha F.data len
    (len, sha256_ptr, memcmp_ne F.data sha256_ptr sha_output F.COREDUMP_SHA256_LEN)

/-- The function `esp_core_dump_image_get(out_addr, out_size)`; the arguments
are the cells behind the two pointers on entry. -/
def esp_core_dump_image_get (F : Flash) (out_addr out_size : Option Nat) : ImageResult :=
  let unchanged (err : esp_err_t) (maps : List MapCall) : ImageResult :=
    { err := err, out_addr := out_addr, out_size := out_size, maps := maps,
      checksum_len := none, checksum_field := none }
  if out_addr = none ∨ out_size = none then unchanged ESP_ERR_INVALID_ARG [] else
  match F.esp_partition_find_first with
  | none => unchanged ESP_ERR_NOT_FOUND []
  | some core_part =>
    if core_part.size < 4 then unchanged ESP_ERR_INVALID_SIZE [] else
    let m1 := F.esp_partition_mmap 0 0 4
    let c1 := MapCall.mmap 0 4 m1.err m1.handle
    if m1.err ≠ ESP_OK then unchanged m1.err [c1] else
    -- `*out_size = *dw; spi_flash_munmap(core_data_handle);`
    let d := read_u32 F.data 0
    let c2 := MapCall.munmap m1.handle
    if d < 4 ∨ d > core_part.size then
      { err := ESP_ERR_INVALID_SIZE, out_addr := out_addr, out_size := some d,
        maps := [c1, c2], checksum_len := none, checksum_field := none }
    else
    let m2 := F.esp_partition_mmap 1 0 d
    let c3 := MapCall.mmap 0 d m2.err m2.handle
    if m2.err ≠ ESP_OK then
      { err := m2.err, out_addr := out_addr, out_size := some d,
        maps := [c1, c2, c3], checksum_len := none, checksum_field := none }
    else
    let cs := checksum_step F d
    let c4 := MapCall.munmap m2.handle
    if cs.2.2 then
      { err := ESP_ERR_INVALID_CRC, out_addr := out_addr, out_size := some d,
        maps := [c1, c2, c3, c4], checksum_len := some cs.1, checksum_field := some cs.2.1 }
    else
      { err := ESP_OK, out_addr := some core_part.address, out_size := some d,
        maps := [c1, c2, c3, c4], checksum_len := some cs.1, checksum_field := some cs.2.1 }

/-! ## The checksum -/

/-- Modelled from the spec: one bit of the 32-bit cyclic checksum `crc32_le`,
whose implementation is outside this file; it is taken as the usual CRC-32
computed least significant bit first, with the polynomial `0xEDB88320`. -/
def crc32_bit (c : Nat) : Nat :=
  if c % 2 = 1 then (c / 2) ^^^ 3988292384 else c / 2

/-- Modelled from the spec: the checksum register after one more byte. -/
def crc32_byte (c b : Nat) : Nat :=
  Nat.iterate crc32_bit 8 (c ^^^ (b % 256))

/-- Modelled from the spec: the checksum register after the first `n` bytes of
`buf`, from the value `c`. -/
def crc32_state (buf : Int → Nat) (c : Nat) : Nat → Nat
  | 0 => c
  | n + 1 => crc32_byte (crc32_state buf c n) (buf (n : Int))

/-- Modelled from the spec: `crc32_le(crc, buf, len)`, the 32-bit cyclic
checksum of `len` bytes; the register starts from the complement of `crc` and
its complement is returned. -/
def crc32_le_model (crc : Nat) (buf : Int → Nat) (len : Nat) : Nat :=
  crc32_state buf ((crc % U32) ^^^ 4294967295) len ^^^ 4294967295

/-! ## Example images -/

/-- A flash for the examples: a core dump partition of `size` bytes at address
`0x110000` holding `data`, mappings that succeed with handles 1, 2, ..., the
checksum of `crc32_le_model`, and a digest function that returns zeros. -/
def example_flash (mode : checksum_mode) (size : Nat) (data : Int → Nat) : Flash :=
  { checksum := mode
    COREDUMP_SHA256_LEN := 32
    esp_partition_find_first := some { address := 1114112, size := size }
    esp_partition_mmap := fun k _ _ => { err := ESP_OK, handle := k + 1 }
    data := data
    crc32_le := crc32_le_model
    esp_core_dump_sha := fun _ _ _ => 0 }

/-- An image of 12 bytes: the size word, the bytes `31 32 33 34`, and their
CRC-32 `0x882AF599` in the last four bytes. -/
def example_image : Int → Nat := fun i =>
  if i = 0 then 12
  else if i = 4 then 49 else if i = 5 then 50 else if i = 6 then 51 else if i = 7 then 52
  else if i = 8 then 153 else if i = 9 then 245 else if i = 10 then 42 else if i = 11 then 136
  else 0

/-- A partition content whose first word is `d`, below 256, and all other bytes
zero. -/
def declared_only (d : Nat) : Int → Nat := fun i => if i = 0 then d else 0

/-- The mapping discipline of a sequence of calls, from the handle held on
entry (`none` when no mapping is held): a mapping is established only while
none is held, `spi_flash_munmap` is given the handle that is held, and nothing
is held at the end. -/
def map_discipline : Option Nat → List MapCall → Bool
  | held, [] => held.isNone
  | held, MapCall.mmap _ _ ret h :: rest =>
    if ret = ESP_OK then held.isNone && map_discipline (some h) rest
    else map_discipline held rest
  | held, MapCall.munmap h :: rest => decide (held = some h) && map_discipline none rest

/-- A snapshot of three tasks in which entries 0 and 2 are both flagged as the
current task (TCB address 7). -/
def twice_flagged_tasks : Int → core_dump_task_header_t := fun i =>
  if i = 0 then { tcb_addr := 7, stack_start := 100, stack_end := 200 }
  else if i = 1 then { tcb_addr := 5, stack_start := 300, stack_end := 400 }
  else if i = 2 then { tcb_addr := 7, stack_start := 500, stack_end := 600 }
  else { tcb_addr := 0, stack_start := 0, stack_end := 0 }

/-- A flash for the examples: a core dump partition of 64 bytes whose first
word declares 12 bytes, and mappings that all fail with `code`. -/
def failing_map_flash (code : esp_err_t) : Flash :=
  { checksum := checksum_mode.crc32
    COREDUMP_SHA256_LEN := 32
    esp_partition_find_first := some { address := 1114112, size := 64 }
    esp_partition_mmap := fun _ _ _ => { err := code, handle := 0 }
    data := example_image
    crc32_le := crc32_le_model
    esp_core_dump_sha := fun _ _ _ => 0 }

/-! ## Lemmas -/

theorem perform_calls {σ : Type} (w : core_dump_write_config_t σ) (c : Call)
    (st : SinkState σ) (h : Present w c) :
    (perform w c st).2.calls = st.calls ++ [c.with_ret (perform w c st).1] := by
  cases c with
  | prepare d r =>
    simp only [Present] at h
    obtain ⟨f, hf⟩ := Option.isSome_iff_exists.mp h
    simp [perform, sink_prepare, hf, Call.with_ret]
  | start r =>
    simp only [Present] at h
    obtain ⟨f, hf⟩ := Option.isSome_iff_exists.mp h
    simp [perform, sink_start, hf, Call.with_ret]
  | write d n r => simp [perform, sink_write, Call.with_ret]
  | end_ r =>
    simp only [Present] at h
    obtain ⟨f, hf⟩ := Option.isSome_iff_exists.mp h
    simp [perform, sink_end, hf, Call.with_ret]

theorem exec_append {σ : Type} (w : core_dump_write_config_t σ) (a b : List Call)
    (st : SinkState σ) :
    exec w (a ++ b) st =
      if (exec w a st).1 ≠ ESP_OK then exec w a st else exec w b (exec w a st).2 := by
  induction a generalizing st with
  | nil => simp [exec]
  | cons c rest ih =>
    simp only [List.cons_append, exec]
    by_cases h : (perform w c st).1 = ESP_OK
    · simp [h, ih]
    · simp [h]

/-- How a run of `exec` ends: either every call was made and succeeded, or the
run stopped right after the first call that failed, with that call's code. -/
theorem exec_cases {σ : Type} (w : core_dump_write_config_t σ) (reqs : List Call)
    (hp : ∀ c ∈ reqs, Present w c) (hok : ∀ c ∈ reqs, c.ret = ESP_OK) (st : SinkState σ) :
    ((exec w reqs st).1 = ESP_OK ∧ (exec w reqs st).2.calls = st.calls ++ reqs) ∨
    ((exec w reqs st).1 ≠ ESP_OK ∧ ∃ pre c post, reqs = pre ++ c :: post ∧
      (exec w reqs st).2.calls = st.calls ++ pre ++ [c.with_ret (exec w reqs st).1]) := by
  induction reqs generalizing st with
  | nil => left; simp [exec]
  | cons c rest ih =>
    have hc : Present w c := hp c (List.mem_cons_self _ _)
    have hcr : c.ret = ESP_OK := hok c (List.mem_cons_self _ _)
    have hp2 : ∀ c ∈ rest, Present w c := fun x hx => hp x (List.mem_cons_of_mem _ hx)
    have hok2 : ∀ c ∈ rest, c.ret = ESP_OK := fun x hx => hok x (List.mem_cons_of_mem _ hx)
    by_cases h : (perform w c st).1 = ESP_OK
    · have hcalls := perform_calls w c st hc
      have hself : c.with_ret ESP_OK = c := by
        cases c <;> simp_all [Call.with_ret, Call.ret]
      rw [h, hself] at hcalls
      have he : exec w (c :: rest) st = exec w rest (perform w c st).2 := by
        simp [exec, h]
      rw [he]
      rcases ih hp2 hok2 (perform w c st).2 with ⟨h1, h2⟩ | ⟨h1, pre, c2, post, h2, h3⟩
      · left
        refine ⟨h1, ?_⟩
        rw [h2, hcalls]; simp
      · right
        refine ⟨h1, c :: pre, c2, post, ?_, ?_⟩
        · simp [h2]
        · rw [h3, hcalls]; simp
    · right
      have he : exec w (c :: rest) st = perform w c st := by
        simp [exec, h]
      rw [he]
      refine ⟨h, [], c, rest, by simp, ?_⟩
      rw [perform_calls w c st hc]; simp

theorem save_task_eq_exec {σ : Type} (P : Port) (w : core_dump_write_config_t σ)
    (st : SinkState σ) (tasks : Int → core_dump_task_header_t) (index : Int) :
    esp_core_dump_save_task P w st tasks index = exec w (task_calls P tasks index) st := by
  simp only [esp_core_dump_save_task, task_calls, exec, perform, task_stack_len]

theorem save_other_tasks_eq_exec {σ : Type} (P : Port) (w : core_dump_write_config_t σ)
    (tasks : Int → core_dump_task_header_t) (curr : Int) (ids : List Nat) (st : SinkState σ) :
    save_other_tasks P w tasks curr ids ESP_OK st =
      exec w ((ids.filter (fun (task_id : Nat) => decide ((task_id : Int) ≠ curr))).flatMap
        (fun (task_id : Nat) => task_calls P tasks (task_id : Int))) st := by
  induction ids generalizing st with
  | nil => simp [save_other_tasks, exec]
  | cons id rest ih =>
    by_cases h : (id : Int) = curr
    · simp [save_other_tasks, h, ih]
    · simp only [save_other_tasks, h, if_false, ne_eq, not_false_eq_true, decide_True,
        List.filter_cons_of_pos, List.flatMap_cons, exec_append]
      rw [save_task_eq_exec]
      split
      · rfl
      · rename_i h2
        simp only [ne_eq, not_not] at h2
        rw [h2, ih]

theorem save_mem_segment_eq_exec {σ : Type} (P : Port) (w : core_dump_write_config_t σ)
    (st : SinkState σ) (seg : core_dump_mem_seg_header_t)
    (h : P.esp_core_dump_mem_seg_is_sane seg.start seg.size = true) :
    esp_core_dump_save_mem_segment P w st seg = exec w (seg_calls P seg) st := by
  simp only [esp_core_dump_save_mem_segment, h, seg_calls, exec, perform]
  simp only [Bool.not_true, Bool.false_eq_true, if_false]

theorem exec_singleton {σ : Type} (w : core_dump_write_config_t σ) (c : Call)
    (st : SinkState σ) : exec w [c] st = perform w c st := by
  simp only [exec]
  split
  · rfl
  · rename_i h
    simp only [ne_eq, not_not] at h
    exact Prod.ext h.symm rfl

theorem exec_cons {σ : Type} (w : core_dump_write_config_t σ) (c : Call) (rest : List Call)
    (st : SinkState σ) :
    exec w (c :: rest) st =
      if (perform w c st).1 ≠ ESP_OK then perform w c st else exec w rest (perform w c st).2 := by
  rfl

theorem exec_start_calls {σ : Type} (w : core_dump_write_config_t σ) (st : SinkState σ) :
    exec w (start_calls w) st = sink_start w st := by
  unfold start_calls
  cases h : w.start with
  | none => simp [exec, sink_start, h]
  | some f => simp [exec_singleton, perform]

theorem exec_end_calls {σ : Type} (w : core_dump_write_config_t σ) (st : SinkState σ) :
    exec w (end_calls w) st = sink_end w ESP_OK st := by
  unfold end_calls
  cases h : w.end_ with
  | none => simp [exec, sink_end, h]
  | some f => simp [exec_singleton, perform]

theorem save_other_tasks_range {σ : Type} (P : Port) (w : core_dump_write_config_t σ)
    (tasks : Int → core_dump_task_header_t) (curr : Int) (task_num : Nat) (st : SinkState σ) :
    save_other_tasks P w tasks curr (List.range task_num) ESP_OK st =
      exec w ((other_task_ids curr task_num).flatMap
        (fun (task_id : Nat) => task_calls P tasks (task_id : Int))) st :=
  save_other_tasks_eq_exec P w tasks curr (List.range task_num) st

theorem write_pass_eq {σ : Type} (P : Port) (w : core_dump_write_config_t σ) (priv : σ)
    (task_num : Nat) (pp : PrePass) :
    write_pass P w priv task_num pp =
      if (sink_prepare w { priv := priv, calls := [] } pp.data_len).1 ≠ ESP_OK then
        ((sink_prepare w { priv := priv, calls := [] } pp.data_len).1,
         (sink_prepare w { priv := priv, calls := [] } pp.data_len).2.1)
      else if seg_rejected P pp = true then
        if (exec w (body_calls P w task_num pp (prepared_len w priv pp))
            (sink_prepare w { priv := priv, calls := [] } pp.data_len).2.1).1 ≠ ESP_OK then
          exec w (body_calls P w task_num pp (prepared_len w priv pp))
            (sink_prepare w { priv := priv, calls := [] } pp.data_len).2.1
        else
          (ESP_FAIL, (exec w (body_calls P w task_num pp (prepared_len w priv pp))
            (sink_prepare w { priv := priv, calls := [] } pp.data_len).2.1).2)
      else
        exec w (body_calls P w task_num pp (prepared_len w priv pp) ++ tail_calls P w pp)
          (sink_prepare w { priv := priv, calls := [] } pp.data_len).2.1 := by
  unfold write_pass
  simp only [prepared_len]
  generalize sink_prepare w { priv := priv, calls := [] } pp.data_len = r0
  by_cases h0 : r0.1 = ESP_OK
  swap
  · simp [h0]
  simp only [h0, ne_eq, not_true_eq_false, if_false]
  simp only [body_calls, record_calls, tail_calls, exec_append, exec_cons, exec_start_calls,
    perform, List.append_assoc]
  by_cases h1 : (sink_start w r0.2.1).1 = ESP_OK
  swap
  · simp [h1]
  simp only [h1, ne_eq, not_true_eq_false, if_false]
  generalize (sink_start w r0.2.1).2 = s1
  by_cases h2 : (sink_write w s1 (Payload.hdr (make_header P task_num r0.2.2))
      P.sizeof_core_dump_header_t).1 = ESP_OK
  swap
  · simp [h2]
  simp only [h2, ne_eq, not_true_eq_false, if_false]
  generalize (sink_write w s1 (Payload.hdr (make_header P task_num r0.2.2))
      P.sizeof_core_dump_header_t).2 = s2
  rw [save_task_eq_exec]
  by_cases h3 : (exec w (task_calls P pp.tasks pp.curr_task_index) s2).1 = ESP_OK
  swap
  · simp [h3]
  simp only [h3, ne_eq, not_true_eq_false, if_false]
  generalize (exec w (task_calls P pp.tasks pp.curr_task_index) s2).2 = s3
  rw [save_other_tasks_range]
  generalize (other_task_ids pp.curr_task_index task_num).flatMap
    (fun (task_id : Nat) => task_calls P pp.tasks (task_id : Int)) = others
  generalize exec w others s3 = r4
  by_cases h4 : r4.1 = ESP_OK
  swap
  · simp [h4]
  simp only [h4, ne_eq, not_true_eq_false, if_false]
  by_cases hi : P.xPortInterruptedFromISRContext = true
  · by_cases hs : P.esp_core_dump_mem_seg_is_sane pp.interrupted_task_stack.start
        pp.interrupted_task_stack.size = true
    · simp only [hi, if_true, save_mem_segment_eq_exec P w r4.2 _ hs, seg_rejected, hs,
        Bool.not_true, Bool.and_false, Bool.false_eq_true, if_false, exec_end_calls]
      by_cases h5 : (exec w (seg_calls P pp.interrupted_task_stack) r4.2).1 = ESP_OK
      · simp only [h5, ne_eq, not_true_eq_false, if_false]
        split
        · rfl
        · rfl
      · simp [h5]
    · simp only [Bool.not_eq_true] at hs
      simp [hi, seg_rejected, hs, esp_core_dump_save_mem_segment, ESP_FAIL, ESP_OK]
  · simp only [Bool.not_eq_true] at hi
    simp only [hi, seg_rejected, Bool.false_and, Bool.false_eq_true, if_false, exec, h4,
      exec_end_calls, ne_eq, not_true_eq_false]
    split
    · rfl
    · rfl

theorem sink_prepare_cases {σ : Type} (w : core_dump_write_config_t σ) (priv : σ) (dl : Nat) :
    ((sink_prepare w { priv := priv, calls := [] } dl).1 = ESP_OK ∧
      (sink_prepare w { priv := priv, calls := [] } dl).2.1.calls = prepare_calls w dl) ∨
    ((sink_prepare w { priv := priv, calls := [] } dl).1 ≠ ESP_OK ∧
      prepare_calls w dl = [Call.prepare dl ESP_OK] ∧
      (sink_prepare w { priv := priv, calls := [] } dl).2.1.calls =
        [Call.prepare dl (sink_prepare w { priv := priv, calls := [] } dl).1]) := by
  unfold sink_prepare prepare_calls
  cases h : w.prepare with
  | none => left; simp
  | some f =>
    by_cases h1 : (f priv dl).1 = ESP_OK
    · left; simp [h1]
    · right; simp [h1]

theorem present_task_calls {σ : Type} (w : core_dump_write_config_t σ) (P : Port)
    (tasks : Int → core_dump_task_header_t) (i : Int) :
    ∀ c ∈ task_calls P tasks i, Present w c ∧ c.ret = ESP_OK := by
  intro c hc
  simp only [task_calls, List.mem_cons, List.mem_singleton, List.not_mem_nil, or_false] at hc
  rcases hc with h | h | h <;> subst h <;> simp [Present, Call.ret]

theorem present_record_calls {σ : Type} (w : core_dump_write_config_t σ) (P : Port)
    (task_num : Nat) (pp : PrePass) :
    ∀ c ∈ record_calls P task_num pp, Present w c ∧ c.ret = ESP_OK := by
  intro c hc
  simp only [record_calls, List.mem_append, List.mem_flatMap] at hc
  rcases hc with h | ⟨id, _, h⟩
  · exact present_task_calls w P _ _ c h
  · exact present_task_calls w P _ _ c h

theorem present_body_calls {σ : Type} (w : core_dump_write_config_t σ) (P : Port)
    (task_num : Nat) (pp : PrePass) (dl : Nat) :
    ∀ c ∈ body_calls P w task_num pp dl, Present w c ∧ c.ret = ESP_OK := by
  intro c hc
  simp only [body_calls, List.mem_append, List.mem_cons] at hc
  rcases hc with h | h | h
  · unfold start_calls at h
    split at h
    · simp only [List.mem_singleton] at h
      subst h
      simp_all [Present, Call.ret]
    · simp at h
  · subst h; simp [Present, Call.ret]
  · exact present_record_calls w P task_num pp c h

theorem present_tail_calls {σ : Type} (w : core_dump_write_config_t σ) (P : Port)
    (pp : PrePass) :
    ∀ c ∈ tail_calls P w pp, Present w c ∧ c.ret = ESP_OK := by
  intro c hc
  simp only [tail_calls, List.mem_append] at hc
  rcases hc with h | h
  · split at h
    · simp only [seg_calls, List.mem_cons, List.mem_singleton, List.not_mem_nil, or_false] at h
      rcases h with h | h <;> subst h <;> simp [Present, Call.ret]
    · simp at h
  · unfold end_calls at h
    split at h
    · simp only [List.mem_singleton] at h
      subst h
      simp_all [Present, Call.ret]
    · simp at h

/-- The three ways a run of the write pass ends: complete and successful;
stopped right after the first hook call that failed, with that call's code; or
stopped with `ESP_FAIL` after the last task record because the memory segment
was rejected. -/
theorem write_pass_cases {σ : Type} (P : Port) (w : core_dump_write_config_t σ) (priv : σ)
    (task_num : Nat) (pp : PrePass) :
    ((write_pass P w priv task_num pp).1 = ESP_OK ∧ seg_rejected P pp = false ∧
      (write_pass P w priv task_num pp).2.calls = ideal_calls P w priv task_num pp) ∨
    ((write_pass P w priv task_num pp).1 ≠ ESP_OK ∧
      ∃ pre c post, ideal_calls P w priv task_num pp = pre ++ c :: post ∧
        (write_pass P w priv task_num pp).2.calls =
          pre ++ [c.with_ret (write_pass P w priv task_num pp).1]) ∨
    (seg_rejected P pp = true ∧ (write_pass P w priv task_num pp).1 = ESP_FAIL ∧
      (write_pass P w priv task_num pp).2.calls =
        prepare_calls w pp.data_len ++
          body_calls P w task_num pp (prepared_len w priv pp)) := by
  rw [write_pass_eq]
  rcases sink_prepare_cases w priv pp.data_len with ⟨h0, hc0⟩ | ⟨h0, hp0, hc0⟩
  swap
  · right; left
    rw [if_pos h0]
    refine ⟨h0, [], Call.prepare pp.data_len ESP_OK,
      body_calls P w task_num pp (prepared_len w priv pp) ++ tail_calls P w pp, ?_, ?_⟩
    · simp [ideal_calls, hp0]
    · simp [hc0, Call.with_ret]
  rw [if_neg (not_not.mpr h0)]
  have hb := present_body_calls w P task_num pp (prepared_len w priv pp)
  have ht := present_tail_calls w P pp
  by_cases hs : seg_rejected P pp = true
  · rw [if_pos hs]
    rcases exec_cases w _ (fun c hc => (hb c hc).1) (fun c hc => (hb c hc).2)
      (sink_prepare w { priv := priv, calls := [] } pp.data_len).2.1 with
      ⟨h1, h2⟩ | ⟨h1, pre, c, post, h2, h3⟩
    · right; right
      rw [if_neg (not_not.mpr h1)]
      exact ⟨hs, rfl, by rw [h2, hc0]⟩
    · right; left
      rw [if_pos h1]
      refine ⟨h1, prepare_calls w pp.data_len ++ pre, c, post ++ tail_calls P w pp, ?_, ?_⟩
      · simp [ideal_calls, h2]
      · rw [h3, hc0]
  · rw [if_neg hs]
    simp only [Bool.not_eq_true] at hs
    have hall : ∀ c ∈ body_calls P w task_num pp (prepared_len w priv pp) ++ tail_calls P w pp,
        Present w c ∧ c.ret = ESP_OK := by
      intro c hc
      rcases List.mem_append.mp hc with h | h
      · exact hb c h
      · exact ht c h
    rcases exec_cases w _ (fun c hc => (hall c hc).1) (fun c hc => (hall c hc).2)
      (sink_prepare w { priv := priv, calls := [] } pp.data_len).2.1 with
      ⟨h1, h2⟩ | ⟨h1, pre, c, post, h2, h3⟩
    · left
      refine ⟨h1, hs, ?_⟩
      rw [h2, hc0]; simp [ideal_calls]
    · right; left
      refine ⟨h1, prepare_calls w pp.data_len ++ pre, c, post, ?_, ?_⟩
      · simp only [ideal_calls, List.append_assoc]; rw [h2]
      · rw [h3, hc0]

theorem verify_tasks_succ (P : Port) (frame : Nat) (tasks : Int → core_dump_task_header_t)
    (n bad : Nat) :
    verify_tasks P frame tasks (n + 1) bad =
      verify_task P frame tasks (verify_tasks P frame tasks n bad) n := by
  simp [verify_tasks, List.range_succ, List.foldl_append]

theorem verify_tasks_bad (P : Port) (frame : Nat) (tasks : Int → core_dump_task_header_t)
    (n bad : Nat) (hbad : bad < U32) :
    (verify_tasks P frame tasks n bad).bad_tasks_num =
      (bad + bad_count P frame tasks n) % U32 := by
  induction n with
  | zero => simp [verify_tasks, bad_count, Nat.mod_eq_of_lt hbad]
  | succ n ih =>
    rw [verify_tasks_succ]
    simp only [verify_task, bad_count, List.range_succ, List.countP_append, List.countP_cons,
      List.countP_nil] at ih ⊢
    rw [ih]
    by_cases h : is_bad P frame tasks n = true
    · have h' := h
      simp only [is_bad] at h'
      simp [h, h']
      simp only [U32]
      omega
    · have h' := h
      simp only [is_bad] at h'
      simp [h, h']

theorem verify_tasks_data_len (P : Port) (frame : Nat) (tasks : Int → core_dump_task_header_t)
    (n bad : Nat) :
    (verify_tasks P frame tasks n bad).data_len = records_len P tasks n % U32 := by
  induction n with
  | zero => simp [verify_tasks, records_len, U32]
  | succ n ih =>
    rw [verify_tasks_succ]
    simp only [verify_task, records_len, List.range_succ, List.map_append, List.sum_append,
      List.map_cons, List.map_nil, List.sum_cons, List.sum_nil, record_len] at ih ⊢
    rw [ih]
    simp only [U32]
    omega

theorem verify_tasks_idx (P : Port) (frame : Nat) (tasks : Int → core_dump_task_header_t)
    (n bad : Nat) :
    (verify_tasks P frame tasks n bad).idx = (List.range n).map (fun (i : Nat) => (i : Int)) := by
  induction n with
  | zero => simp [verify_tasks]
  | succ n ih =>
    rw [verify_tasks_succ]
    simp [verify_task, ih, List.range_succ]

/-- After the verification loop `curr_task_index` is the sentinel when no task
was flagged, and the highest flagged index otherwise. -/
theorem verify_tasks_curr (P : Port) (frame : Nat) (tasks : Int → core_dump_task_header_t)
    (n bad : Nat) :
    ((verify_tasks P frame tasks n bad).curr_task_index = COREDUMP_CURR_TASK_NOT_FOUND ∧
      ∀ i, i < n → is_flagged P frame tasks i = false) ∨
    (∃ c, c < n ∧ (verify_tasks P frame tasks n bad).curr_task_index = (c : Int) ∧
      is_flagged P frame tasks c = true ∧
      ∀ j, c < j → j < n → is_flagged P frame tasks j = false) := by
  induction n with
  | zero => left; simp [verify_tasks]
  | succ n ih =>
    rw [verify_tasks_succ]
    by_cases h : is_flagged P frame tasks n = true
    · right
      refine ⟨n, Nat.lt_succ_self n, ?_, h, ?_⟩
      · have h' := h
        simp only [is_flagged] at h'
        simp [verify_task, h']
      · intro j h1 h2; omega
    · simp only [Bool.not_eq_true] at h
      have hv : (verify_task P frame tasks (verify_tasks P frame tasks n bad) n).curr_task_index =
          (verify_tasks P frame tasks n bad).curr_task_index := by
        have h' := h
        simp only [is_flagged] at h'
        simp [verify_task, h']
      rw [hv]
      rcases ih with ⟨h1, h2⟩ | ⟨c, h1, h2, h3, h4⟩
      · left
        refine ⟨h1, ?_⟩
        intro i hi
        rcases Nat.lt_succ_iff_lt_or_eq.mp hi with h5 | h5
        · exact h2 i h5
        · rw [h5]; exact h
      · right
        refine ⟨c, Nat.lt_succ_of_lt h1, h2, h3, ?_⟩
        intro j hj1 hj2
        rcases Nat.lt_succ_iff_lt_or_eq.mp hj2 with h5 | h5
        · exact h4 j hj1 h5
        · rw [h5]; exact h

theorem with_ret_ret (c : Call) (e : esp_err_t) : (c.with_ret e).ret = e := by
  cases c <;> rfl

theorem with_ret_self (c : Call) (h : c.ret = ESP_OK) : c.with_ret ESP_OK = c := by
  cases c <;> simp_all [Call.with_ret, Call.ret]

theorem with_ret_with_ret (c : Call) (e e2 : esp_err_t) :
    (c.with_ret e).with_ret e2 = c.with_ret e2 := by
  cases c <;> rfl

theorem map_with_ret_self (l : List Call) (h : ∀ c ∈ l, c.ret = ESP_OK) :
    l.map (fun c => c.with_ret ESP_OK) = l := by
  induction l with
  | nil => rfl
  | cons c rest ih =>
    simp only [List.map_cons]
    rw [with_ret_self c (h c (List.mem_cons_self _ _)),
      ih (fun x hx => h x (List.mem_cons_of_mem _ hx))]

theorem ideal_calls_ok {σ : Type} (P : Port) (w : core_dump_write_config_t σ) (priv : σ)
    (task_num : Nat) (pp : PrePass) :
    ∀ c ∈ ideal_calls P w priv task_num pp, c.ret = ESP_OK := by
  intro c hc
  simp only [ideal_calls, List.mem_append] at hc
  rcases hc with (h | h) | h
  · unfold prepare_calls at h
    split at h
    · simp only [List.mem_singleton] at h
      subst h; rfl
    · simp at h
  · exact (present_body_calls w P task_num pp _ c h).2
  · exact (present_tail_calls w P pp c h).2

theorem head_calls_ok {σ : Type} (P : Port) (w : core_dump_write_config_t σ) (priv : σ)
    (task_num : Nat) (pp : PrePass) :
    ∀ c ∈ prepare_calls w pp.data_len ++ body_calls P w task_num pp (prepared_len w priv pp),
      c.ret = ESP_OK := by
  intro c hc
  apply ideal_calls_ok P w priv task_num pp c
  simp only [ideal_calls]
  exact List.mem_append_left _ hc

/-- Every recorded call but the last returned `ESP_OK`; a last call that
failed gave the writer its return code. -/
theorem calls_fail_last {σ : Type} (P : Port) (w : core_dump_write_config_t σ) (priv : σ)
    (task_num : Nat) (pp : PrePass) (pre : List Call) (c : Call) (post : List Call)
    (hcalls : (write_pass P w priv task_num pp).2.calls = pre ++ c :: post)
    (hfail : c.ret ≠ ESP_OK) :
    post = [] ∧ (write_pass P w priv task_num pp).1 = c.ret := by
  have hmem : c ∈ pre ++ c :: post := by simp
  rcases write_pass_cases P w priv task_num pp with ⟨_, _, h3⟩ | ⟨h1, pre2, c2, post2, h2, h3⟩ |
    ⟨_, _, h3⟩
  · rw [h3] at hcalls
    rw [← hcalls] at hmem
    exact absurd (ideal_calls_ok P w priv task_num pp c hmem) hfail
  · rw [h3] at hcalls
    have hpre2 : ∀ x ∈ pre2, x.ret = ESP_OK := by
      intro x hx
      apply ideal_calls_ok P w priv task_num pp x
      rw [h2]; simp [hx]
    rcases List.append_eq_append_iff.mp hcalls with ⟨a, ha1, ha2⟩ | ⟨a, ha1, ha2⟩
    · -- `pre = pre2 ++ a`, `[last] = a ++ c :: post`
      cases a with
      | nil =>
        simp only [List.nil_append, List.cons.injEq] at ha2
        obtain ⟨hc, hp⟩ := ha2
        refine ⟨hp.symm, ?_⟩
        rw [← hc, with_ret_ret]
      | cons x a2 =>
        simp only [List.cons_append, List.cons.injEq] at ha2
        have := ha2.2
        simp at this
    · -- `pre2 = pre ++ a`, `c :: post = a ++ [last]`
      cases a with
      | nil =>
        simp only [List.nil_append, List.cons.injEq] at ha2
        obtain ⟨hc, hp⟩ := ha2
        refine ⟨hp, ?_⟩
        rw [hc, with_ret_ret]
      | cons x a2 =>
        simp only [List.cons_append, List.cons.injEq] at ha2
        have hx : c ∈ pre2 := by rw [ha1, ha2.1]; simp
        exact absurd (hpre2 c hx) hfail
  · rw [h3] at hcalls
    rw [← hcalls] at hmem
    exact absurd (head_calls_ok P w priv task_num pp c hmem) hfail

theorem sink_prepare_ok {σ : Type} (w : core_dump_write_config_t σ) (h : AllOk w)
    (st : SinkState σ) (dl : Nat) : (sink_prepare w st dl).1 = ESP_OK := by
  unfold sink_prepare
  cases hp : w.prepare with
  | none => rfl
  | some f => exact h.1 f hp _ _

theorem perform_ok {σ : Type} (w : core_dump_write_config_t σ) (h : AllOk w) (c : Call)
    (st : SinkState σ) : (perform w c st).1 = ESP_OK := by
  cases c with
  | prepare d r => exact sink_prepare_ok w h st d
  | start r =>
    simp only [perform, sink_start]
    cases hp : w.start with
    | none => rfl
    | some f => exact h.2.1 f hp _
  | write d n r => exact h.2.2.1 _ _ _
  | end_ r =>
    simp only [perform, sink_end]
    cases hp : w.end_ with
    | none => rfl
    | some f => exact h.2.2.2 f hp _

theorem exec_ok {σ : Type} (w : core_dump_write_config_t σ) (h : AllOk w) (reqs : List Call)
    (st : SinkState σ) : (exec w reqs st).1 = ESP_OK := by
  induction reqs generalizing st with
  | nil => rfl
  | cons c rest ih =>
    rw [exec_cons, if_neg (not_not.mpr (perform_ok w h c st))]
    exact ih _

/-- With a sink that never fails the run is complete, or stops with `ESP_FAIL`
after the last task record because the memory segment was rejected. -/
theorem write_pass_all_ok {σ : Type} (P : Port) (w : core_dump_write_config_t σ) (h : AllOk w)
    (priv : σ) (task_num : Nat) (pp : PrePass) :
    (seg_rejected P pp = false ∧ (write_pass P w priv task_num pp).1 = ESP_OK ∧
      (write_pass P w priv task_num pp).2.calls = ideal_calls P w priv task_num pp) ∨
    (seg_rejected P pp = true ∧ (write_pass P w priv task_num pp).1 = ESP_FAIL ∧
      (write_pass P w priv task_num pp).2.calls =
        prepare_calls w pp.data_len ++
          body_calls P w task_num pp (prepared_len w priv pp)) := by
  have hcases := write_pass_cases P w priv task_num pp
  have heq := write_pass_eq P w priv task_num pp
  rw [if_neg (not_not.mpr (sink_prepare_ok w h _ _))] at heq
  by_cases hs : seg_rejected P pp = true
  · right
    rw [if_pos hs, if_neg (not_not.mpr (exec_ok w h _ _))] at heq
    have herr : (write_pass P w priv task_num pp).1 = ESP_FAIL := by rw [heq]
    rcases hcases with ⟨h1, _, _⟩ | ⟨_, pre, c, post, _, h3⟩ | ⟨_, _, h3⟩
    · rw [herr] at h1; exact absurd h1 (by decide)
    · -- the last recorded call would have failed
      exfalso
      have hb := present_body_calls w P task_num pp (prepared_len w priv pp)
      rcases exec_cases w _ (fun c hc => (hb c hc).1) (fun c hc => (hb c hc).2)
        (sink_prepare w { priv := priv, calls := [] } pp.data_len).2.1 with
        ⟨_, h5⟩ | ⟨h4, _⟩
      · rcases sink_prepare_cases w priv pp.data_len with ⟨_, hc0⟩ | ⟨h0, _, _⟩
        · have hcalls : (write_pass P w priv task_num pp).2.calls =
              prepare_calls w pp.data_len ++
                body_calls P w task_num pp (prepared_len w priv pp) := by
            rw [heq]; simp only; rw [h5, hc0]
          rw [hcalls] at h3
          have hmem : c.with_ret (write_pass P w priv task_num pp).1 ∈
              prepare_calls w pp.data_len ++
                body_calls P w task_num pp (prepared_len w priv pp) := by
            rw [h3]; simp
          have := head_calls_ok P w priv task_num pp _ hmem
          rw [with_ret_ret, herr] at this
          exact absurd this (by decide)
        · exact h0 (sink_prepare_ok w h _ _)
      · exact h4 (exec_ok w h _ _)
    · exact ⟨hs, herr, h3⟩
  · left
    simp only [Bool.not_eq_true] at hs
    rw [if_neg (by simp [hs])] at heq
    have herr : (write_pass P w priv task_num pp).1 = ESP_OK := by
      rw [heq]; exact exec_ok w h _ _
    rcases hcases with ⟨_, _, h3⟩ | ⟨h1, _⟩ | ⟨h1, _⟩
    · exact ⟨hs, herr, h3⟩
    · exact absurd herr h1
    · rw [hs] at h1; exact absurd h1 (by decide)

theorem size_precompute_curr (P : Port) (frame : Nat) (tasks : Int → core_dump_task_header_t)
    (n bad : Nat) :
    (size_precompute P frame tasks n bad).curr_task_index =
      if (verify_tasks P frame tasks n bad).curr_task_index = COREDUMP_CURR_TASK_NOT_FOUND
      then 0 else (verify_tasks P frame tasks n bad).curr_task_index := by
  unfold size_precompute
  simp only
  split <;> rfl

theorem size_precompute_bad (P : Port) (frame : Nat) (tasks : Int → core_dump_task_header_t)
    (n bad : Nat) (hbad : bad < U32) :
    (size_precompute P frame tasks n bad).bad_tasks_num =
      (bad + bad_count P frame tasks n) % U32 := by
  unfold size_precompute
  simp only
  split <;> exact verify_tasks_bad P frame tasks n bad hbad

/-- The index the write pass treats as the fault task's: the highest flagged
index, or `0` when no task was flagged. -/
theorem fault_index_cases (P : Port) (frame : Nat) (tasks : Int → core_dump_task_header_t)
    (n bad : Nat) :
    ((size_precompute P frame tasks n bad).curr_task_index = 0 ∧
      (verify_tasks P frame tasks n bad).curr_task_index = COREDUMP_CURR_TASK_NOT_FOUND ∧
      ∀ i, i < n → is_flagged P frame tasks i = false) ∨
    (∃ c, c < n ∧ (size_precompute P frame tasks n bad).curr_task_index = (c : Int) ∧
      (verify_tasks P frame tasks n bad).curr_task_index = (c : Int) ∧
      is_flagged P frame tasks c = true ∧
      ∀ j, c < j → j < n → is_flagged P frame tasks j = false) := by
  rw [size_precompute_curr]
  rcases verify_tasks_curr P frame tasks n bad with ⟨h1, h2⟩ | ⟨c, h1, h2, h3, h4⟩
  · left
    exact ⟨by rw [if_pos h1], h1, h2⟩
  · right
    refine ⟨c, h1, ?_, h2, h3, h4⟩
    rw [h2, if_neg]
    simp only [COREDUMP_CURR_TASK_NOT_FOUND]
    omega

theorem size_precompute_tasks_not_isr (P : Port) (frame : Nat)
    (tasks : Int → core_dump_task_header_t) (n bad : Nat)
    (h : P.xPortInterruptedFromISRContext = false) :
    (size_precompute P frame tasks n bad).tasks = tasks := by
  simp [size_precompute, Port.esp_core_dump_in_isr_context, h]

theorem size_precompute_tasks_isr (P : Port) (frame : Nat)
    (tasks : Int → core_dump_task_header_t) (n bad : Nat)
    (h : P.xPortInterruptedFromISRContext = true) :
    (size_precompute P frame tasks n bad).tasks =
      Function.update tasks (verify_tasks P frame tasks n bad).curr_task_index
        { tasks (verify_tasks P frame tasks n bad).curr_task_index with
          stack_start := frame % U32
          stack_end := P.esp_core_dump_get_isr_stack_end % U32 } := by
  simp [size_precompute, Port.esp_core_dump_in_isr_context, h]

theorem size_precompute_seg_isr (P : Port) (frame : Nat)
    (tasks : Int → core_dump_task_header_t) (n bad : Nat)
    (h : P.xPortInterruptedFromISRContext = true) :
    (size_precompute P frame tasks n bad).interrupted_task_stack =
      { start := (tasks (verify_tasks P frame tasks n bad).curr_task_index).stack_start
        size := esp_core_dump_get_stack_len
          (tasks (verify_tasks P frame tasks n bad).curr_task_index).stack_start
          (tasks (verify_tasks P frame tasks n bad).curr_task_index).stack_end } := by
  simp [size_precompute, Port.esp_core_dump_in_isr_context, h]

/-- The record at the fault index keeps its TCB address through the pre-pass. -/
theorem fault_record_tcb (P : Port) (frame : Nat) (tasks : Int → core_dump_task_header_t)
    (n bad : Nat) :
    ((size_precompute P frame tasks n bad).tasks
        (size_precompute P frame tasks n bad).curr_task_index).tcb_addr =
      (tasks (size_precompute P frame tasks n bad).curr_task_index).tcb_addr := by
  cases h : P.xPortInterruptedFromISRContext with
  | false => rw [size_precompute_tasks_not_isr P frame tasks n bad h]
  | true =>
    rw [size_precompute_tasks_isr P frame tasks n bad h]
    by_cases hc : (size_precompute P frame tasks n bad).curr_task_index =
        (verify_tasks P frame tasks n bad).curr_task_index
    · rw [hc]; simp
    · rw [Function.update_noteq hc]

/-- In a run with a sink that never fails, the calls begin with the optional
hooks, the header and the three writes of the fault task's record. -/
theorem calls_begin {σ : Type} (P : Port) (w : core_dump_write_config_t σ) (h : AllOk w)
    (priv : σ) (task_num : Nat) (pp : PrePass) :
    ∃ rest, (write_pass P w priv task_num pp).2.calls =
      (prepare_calls w pp.data_len ++ start_calls w) ++
        Call.write (Payload.hdr (make_header P task_num (prepared_len w priv pp)))
          P.sizeof_core_dump_header_t ESP_OK ::
        (task_calls P pp.tasks pp.curr_task_index ++ rest) := by
  rcases write_pass_all_ok P w h priv task_num pp with ⟨_, _, h3⟩ | ⟨_, _, h3⟩
  · refine ⟨(other_task_ids pp.curr_task_index task_num).flatMap
      (fun (task_id : Nat) => task_calls P pp.tasks (task_id : Int)) ++ tail_calls P w pp, ?_⟩
    rw [h3]
    simp [ideal_calls, body_calls, record_calls, List.append_assoc]
  · refine ⟨(other_task_ids pp.curr_task_index task_num).flatMap
      (fun (task_id : Nat) => task_calls P pp.tasks (task_id : Int)), ?_⟩
    rw [h3]
    simp [body_calls, record_calls, List.append_assoc]

theorem hooks_not_write {σ : Type} (w : core_dump_write_config_t σ) (dl : Nat) :
    ∀ c ∈ prepare_calls w dl ++ start_calls w, c.is_write = false := by
  intro c hc
  simp only [List.mem_append, prepare_calls, start_calls] at hc
  rcases hc with h | h
  · split at h
    · simp only [List.mem_singleton] at h
      subst h; rfl
    · simp at h
  · split at h
    · simp only [List.mem_singleton] at h
      subst h; rfl
    · simp at h

theorem other_task_ids_eq_erase (c n : Nat) :
    other_task_ids (c : Int) n = (List.range n).erase c := by
  rw [List.Nodup.erase_eq_filter (List.nodup_range n)]
  unfold other_task_ids
  apply List.filter_congr
  intro x _
  by_cases h : x = c
  · simp [h]
  · have : (x : Int) ≠ (c : Int) := by exact_mod_cast h
    simp [h, this]

/-- The fault index followed by the ids the second loop visits lists every
task of the snapshot exactly once. -/
theorem fault_first_perm (c n : Nat) (h : c < n) :
    List.Perm (c :: other_task_ids (c : Int) n) (List.range n) := by
  rw [other_task_ids_eq_erase]
  exact (List.perm_cons_erase (List.mem_range.mpr h)).symm

theorem task_index_task_calls (P : Port) (tasks : Int → core_dump_task_header_t) (i : Int) :
    (task_calls P tasks i).filterMap Call.task_index = [i] := by
  simp [task_calls, Call.task_index, List.filterMap_cons]

theorem task_index_record_calls (P : Port) (task_num : Nat) (pp : PrePass) :
    (record_calls P task_num pp).filterMap Call.task_index =
      pp.curr_task_index ::
        (other_task_ids pp.curr_task_index task_num).map (fun (i : Nat) => (i : Int)) := by
  unfold record_calls
  rw [List.filterMap_append, task_index_task_calls, List.filterMap_flatMap]
  simp only [task_index_task_calls, List.singleton_append, List.cons.injEq, true_and]
  generalize other_task_ids pp.curr_task_index task_num = l
  induction l with
  | nil => rfl
  | cons a l ih => simp [List.flatMap_cons, ih]

theorem task_index_hooks {σ : Type} (w : core_dump_write_config_t σ) (dl : Nat) :
    (prepare_calls w dl).filterMap Call.task_index = [] ∧
    (start_calls w).filterMap Call.task_index = [] ∧
    (end_calls w).filterMap Call.task_index = [] := by
  refine ⟨?_, ?_, ?_⟩
  · unfold prepare_calls; split <;> rfl
  · unfold start_calls; split <;> rfl
  · unfold end_calls; split <;> rfl

theorem task_index_head {σ : Type} (P : Port) (w : core_dump_write_config_t σ)
    (task_num : Nat) (pp : PrePass) (dl : Nat) :
    (prepare_calls w pp.data_len ++ body_calls P w task_num pp dl).filterMap Call.task_index =
      pp.curr_task_index ::
        (other_task_ids pp.curr_task_index task_num).map (fun (i : Nat) => (i : Int)) := by
  rw [List.filterMap_append, (task_index_hooks w pp.data_len).1]
  unfold body_calls
  rw [List.filterMap_append, (task_index_hooks w pp.data_len).2.1, List.filterMap_cons]
  simp only [Call.task_index, List.nil_append]
  exact task_index_record_calls P task_num pp

theorem task_index_tail {σ : Type} (P : Port) (w : core_dump_write_config_t σ) (pp : PrePass) :
    (tail_calls P w pp).filterMap Call.task_index = [] := by
  unfold tail_calls
  rw [List.filterMap_append, (task_index_hooks w 0).2.2]
  split
  · rfl
  · rfl

/-- With a sink that never fails, the task records go out for the fault index
first and then for the other ids in increasing order. -/
theorem task_index_all_ok {σ : Type} (P : Port) (w : core_dump_write_config_t σ) (h : AllOk w)
    (priv : σ) (task_num : Nat) (pp : PrePass) :
    (write_pass P w priv task_num pp).2.calls.filterMap Call.task_index =
      pp.curr_task_index ::
        (other_task_ids pp.curr_task_index task_num).map (fun (i : Nat) => (i : Int)) := by
  rcases write_pass_all_ok P w h priv task_num pp with ⟨_, _, h3⟩ | ⟨_, _, h3⟩
  · rw [h3]
    unfold ideal_calls
    rw [List.filterMap_append, task_index_head, task_index_tail, List.append_nil]
  · rw [h3, task_index_head]

theorem example_sink_all_ok : AllOk example_sink := by
  refine ⟨?_, ?_, ?_, ?_⟩
  · intro f hf s d
    simp only [example_sink, Option.some.injEq] at hf
    subst hf; rfl
  · intro f hf s
    simp only [example_sink, Option.some.injEq] at hf
    subst hf; rfl
  · intro s d n; rfl
  · intro f hf s
    simp only [example_sink, Option.some.injEq] at hf
    subst hf; rfl

/-- The writes between the header and `end`: the task records, then the
memory segment in interrupt context. -/
theorem ideal_calls_shape {σ : Type} (P : Port) (w : core_dump_write_config_t σ) (priv : σ)
    (task_num : Nat) (pp : PrePass) :
    ideal_calls P w priv task_num pp =
      (prepare_calls w pp.data_len ++ start_calls w) ++
        (Call.write (Payload.hdr (make_header P task_num (prepared_len w priv pp)))
            P.sizeof_core_dump_header_t ESP_OK ::
          (record_calls P task_num pp ++
            (if P.xPortInterruptedFromISRContext then seg_calls P pp.interrupted_task_stack
             else []))) ++
        end_calls w := by
  simp [ideal_calls, body_calls, tail_calls, List.append_assoc]

theorem middle_calls_write (P : Port) (task_num : Nat) (pp : PrePass) :
    ∀ c ∈ record_calls P task_num pp ++
        (if P.xPortInterruptedFromISRContext then seg_calls P pp.interrupted_task_stack
         else []),
      c.is_write = true := by
  intro c hc
  rcases List.mem_append.mp hc with h | h
  · simp only [record_calls, List.mem_append, List.mem_flatMap, task_calls, List.mem_cons,
      List.mem_singleton, List.not_mem_nil, or_false] at h
    rcases h with (h | h | h) | ⟨_, _, (h | h | h)⟩ <;> subst h <;> rfl
  · split at h
    · simp only [seg_calls, List.mem_cons, List.mem_singleton, List.not_mem_nil, or_false] at h
      rcases h with h | h <;> subst h <;> rfl
    · simp at h

/-- With the return codes erased, the calls of any run are an initial part of
the calls of the complete run. -/
theorem calls_prefix_ideal {σ : Type} (P : Port) (w : core_dump_write_config_t σ) (priv : σ)
    (task_num : Nat) (pp : PrePass) :
    List.IsPrefix ((write_pass P w priv task_num pp).2.calls.map (fun c => c.with_ret ESP_OK))
      (ideal_calls P w priv task_num pp) ∧
    ((write_pass P w priv task_num pp).1 = ESP_OK →
      (write_pass P w priv task_num pp).2.calls = ideal_calls P w priv task_num pp) := by
  rcases write_pass_cases P w priv task_num pp with ⟨_, _, h3⟩ | ⟨h1, pre, c, post, h2, h3⟩ |
    ⟨_, h1, h3⟩
  · rw [h3, map_with_ret_self _ (ideal_calls_ok P w priv task_num pp)]
    exact ⟨List.prefix_refl _, fun _ => rfl⟩
  · refine ⟨?_, fun h => absurd h h1⟩
    have hok := ideal_calls_ok P w priv task_num pp
    rw [h2] at hok
    have hpre : ∀ x ∈ pre, x.ret = ESP_OK := fun x hx => hok x (by simp [hx])
    have hc : c.ret = ESP_OK := hok c (by simp)
    rw [h3, List.map_append, map_with_ret_self pre hpre, h2]
    simp only [List.map_cons, List.map_nil, with_ret_with_ret, with_ret_self c hc]
    exact ⟨post, by simp⟩
  · refine ⟨?_, fun h => ?_⟩
    · rw [h3, map_with_ret_self _ (head_calls_ok P w priv task_num pp)]
      exact ⟨tail_calls P w pp, rfl⟩
    · rw [h1] at h; exact absurd h (by decide)

theorem write_pass_check_irrelevant {σ : Type} (P : Port)
    (g : Nat → core_dump_task_header_t → task_check)
    (w : core_dump_write_config_t σ) (priv : σ) (task_num : Nat) (pp : PrePass) :
    write_pass { P with esp_core_dump_check_task := g } w priv task_num pp =
      write_pass P w priv task_num pp := by
  rw [write_pass_eq, write_pass_eq]
  rfl

theorem write_pass_congr {σ : Type} (P : Port)
    (w : core_dump_write_config_t σ) (priv : σ) (task_num : Nat) (pp pp2 : PrePass)
    (h1 : pp.tasks = pp2.tasks) (h2 : pp.curr_task_index = pp2.curr_task_index)
    (h3 : pp.data_len = pp2.data_len)
    (h4 : pp.interrupted_task_stack = pp2.interrupted_task_stack) :
    write_pass P w priv task_num pp = write_pass P w priv task_num pp2 := by
  cases pp; cases pp2
  simp only at h1 h2 h3 h4
  subst h1 h2 h3 h4
  rfl

theorem verify_tasks_check_irrelevant (P : Port)
    (g : Nat → core_dump_task_header_t → task_check)
    (hg : ∀ f t, (g f t).is_current_task = (P.esp_core_dump_check_task f t).is_current_task)
    (frame : Nat) (tasks : Int → core_dump_task_header_t) (n bad : Nat) :
    (verify_tasks { P with esp_core_dump_check_task := g } frame tasks n bad).curr_task_index =
      (verify_tasks P frame tasks n bad).curr_task_index ∧
    (verify_tasks { P with esp_core_dump_check_task := g } frame tasks n bad).data_len =
      (verify_tasks P frame tasks n bad).data_len := by
  induction n with
  | zero => exact ⟨rfl, rfl⟩
  | succ n ih =>
    rw [verify_tasks_succ, verify_tasks_succ]
    refine ⟨?_, ?_⟩
    · simp only [verify_task, hg, ih.1]
    · simp only [verify_task, ih.2]
      rfl

theorem size_precompute_check_irrelevant (P : Port)
    (g : Nat → core_dump_task_header_t → task_check)
    (hg : ∀ f t, (g f t).is_current_task = (P.esp_core_dump_check_task f t).is_current_task)
    (frame : Nat) (tasks : Int → core_dump_task_header_t) (n bad : Nat) :
    (size_precompute { P with esp_core_dump_check_task := g } frame tasks n bad).tasks =
      (size_precompute P frame tasks n bad).tasks ∧
    (size_precompute { P with esp_core_dump_check_task := g } frame tasks n bad).curr_task_index =
      (size_precompute P frame tasks n bad).curr_task_index ∧
    (size_precompute { P with esp_core_dump_check_task := g } frame tasks n bad).data_len =
      (size_precompute P frame tasks n bad).data_len ∧
    (size_precompute { P with esp_core_dump_check_task := g } frame tasks n bad).interrupted_task_stack =
      (size_precompute P frame tasks n bad).interrupted_task_stack := by
  have h := verify_tasks_check_irrelevant P g hg frame tasks n bad
  unfold size_precompute
  simp only [Port.esp_core_dump_in_isr_context, h.1, h.2]
  split <;> exact ⟨rfl, rfl, rfl, rfl⟩

theorem head_calls_not_end {σ : Type} (P : Port) (w : core_dump_write_config_t σ)
    (task_num : Nat) (pp : PrePass) (dl : Nat) (r : esp_err_t) :
    Call.end_ r ∉ prepare_calls w pp.data_len ++ body_calls P w task_num pp dl := by
  intro hc
  simp only [body_calls, List.mem_append, List.mem_cons] at hc
  rcases hc with h | h | h | h
  · unfold prepare_calls at h
    split at h <;> simp at h
  · unfold start_calls at h
    split at h <;> simp at h
  · simp at h
  · have := middle_calls_write P task_num pp (Call.end_ r) (List.mem_append_left _ h)
    simp [Call.is_write] at this

/-- A run in which the memory segment is rejected and no hook call failed
returns `ESP_FAIL` right after the last task record. -/
theorem rejected_segment_run {σ : Type} (P : Port) (w : core_dump_write_config_t σ) (priv : σ)
    (task_num : Nat) (pp : PrePass) (hrej : seg_rejected P pp = true)
    (hok : ∀ c ∈ (write_pass P w priv task_num pp).2.calls, c.ret = ESP_OK) :
    (write_pass P w priv task_num pp).1 = ESP_FAIL ∧
    (write_pass P w priv task_num pp).2.calls =
      prepare_calls w pp.data_len ++ body_calls P w task_num pp (prepared_len w priv pp) := by
  rcases write_pass_cases P w priv task_num pp with ⟨_, h2, _⟩ | ⟨h1, pre, c, post, _, h3⟩ |
    ⟨_, h2, h3⟩
  · rw [hrej] at h2; exact absurd h2 (by decide)
  · exfalso
    have := hok (c.with_ret (write_pass P w priv task_num pp).1) (by rw [h3]; simp)
    rw [with_ret_ret] at this
    exact h1 this
  · exact ⟨h2, h3⟩

theorem fault_index_lt (P : Port) (frame : Nat) (tasks : Int → core_dump_task_header_t)
    (n bad : Nat) (hn : 0 < n) :
    ∃ c : Nat, c < n ∧ (size_precompute P frame tasks n bad).curr_task_index = (c : Int) := by
  rcases fault_index_cases P frame tasks n bad with ⟨h1, _, _⟩ | ⟨c, h1, h2, _⟩
  · exact ⟨0, hn, by rw [h1]; rfl⟩
  · exact ⟨c, h1, h2⟩

theorem seg_header_task_calls (P : Port) (tasks : Int → core_dump_task_header_t) (i : Int) :
    (task_calls P tasks i).filterMap Call.seg_header = [] := by
  simp [task_calls, Call.seg_header, List.filterMap_cons]

theorem seg_header_record_calls (P : Port) (task_num : Nat) (pp : PrePass) :
    (record_calls P task_num pp).filterMap Call.seg_header = [] := by
  unfold record_calls
  rw [List.filterMap_append, seg_header_task_calls, List.filterMap_flatMap]
  simp only [seg_header_task_calls, List.nil_append]
  generalize other_task_ids pp.curr_task_index task_num = l
  induction l with
  | nil => rfl
  | cons a l ih => simp [List.flatMap_cons, ih]

theorem seg_header_hooks {σ : Type} (w : core_dump_write_config_t σ) (dl : Nat) :
    (prepare_calls w dl).filterMap Call.seg_header = [] ∧
    (start_calls w).filterMap Call.seg_header = [] ∧
    (end_calls w).filterMap Call.seg_header = [] := by
  refine ⟨?_, ?_, ?_⟩
  · unfold prepare_calls; split <;> rfl
  · unfold start_calls; split <;> rfl
  · unfold end_calls; split <;> rfl

theorem seg_header_seg_calls (P : Port) (seg : core_dump_mem_seg_header_t) :
    (seg_calls P seg).filterMap Call.seg_header = [seg] := by
  simp [seg_calls, Call.seg_header, List.filterMap_cons]

theorem size_precompute_data_len (P : Port) (frame : Nat)
    (tasks : Int → core_dump_task_header_t) (n bad : Nat) :
    (size_precompute P frame tasks n bad).data_len =
      (records_len P tasks n +
        (if P.xPortInterruptedFromISRContext then
          P.sizeof_core_dump_mem_seg_header_t +
            esp_core_dump_get_stack_len (frame % U32) (P.esp_core_dump_get_isr_stack_end % U32)
         else 0) +
        P.sizeof_core_dump_header_t) % U32 := by
  unfold size_precompute
  simp only [Port.esp_core_dump_in_isr_context, verify_tasks_data_len]
  cases P.xPortInterruptedFromISRContext with
  | false =>
    simp only [Bool.false_eq_true, if_false, U32]
    omega
  | true =>
    simp only [if_true, U32]
    omega

theorem records_len_split (P : Port) (tasks : Int → core_dump_task_header_t) (c n : Nat)
    (h : c < n) :
    records_len P tasks n =
      record_len P (tasks (c : Int)) +
        ((other_task_ids (c : Int) n).map
          (fun (i : Nat) => record_len P (tasks (i : Int)))).sum := by
  unfold records_len
  rw [← ((fault_first_perm c n h).map (fun (i : Nat) => record_len P (tasks (i : Int)))).sum_eq]
  simp

theorem bytes_written_append (a b : List Call) :
    bytes_written (a ++ b) = bytes_written a + bytes_written b := by
  simp [bytes_written]

theorem bytes_written_task_calls (P : Port) (tasks : Int → core_dump_task_header_t) (i : Int) :
    bytes_written (task_calls P tasks i) = record_len P (tasks i) := by
  simp [bytes_written, task_calls, Call.len, record_len]
  omega

theorem bytes_written_record_calls (P : Port) (task_num : Nat) (pp : PrePass) :
    bytes_written (record_calls P task_num pp) =
      record_len P (pp.tasks pp.curr_task_index) +
        ((other_task_ids pp.curr_task_index task_num).map
          (fun (i : Nat) => record_len P (pp.tasks (i : Int)))).sum := by
  unfold record_calls
  rw [bytes_written_append, bytes_written_task_calls]
  congr 1
  generalize other_task_ids pp.curr_task_index task_num = l
  induction l with
  | nil => rfl
  | cons a l ih =>
    rw [List.flatMap_cons, bytes_written_append, bytes_written_task_calls, ih]
    simp

theorem bytes_written_hooks {σ : Type} (w : core_dump_write_config_t σ) (dl : Nat) :
    bytes_written (prepare_calls w dl) = 0 ∧ bytes_written (start_calls w) = 0 ∧
    bytes_written (end_calls w) = 0 := by
  refine ⟨?_, ?_, ?_⟩
  · unfold prepare_calls; split <;> rfl
  · unfold start_calls; split <;> rfl
  · unfold end_calls; split <;> rfl

theorem bytes_written_ideal {σ : Type} (P : Port) (w : core_dump_write_config_t σ) (priv : σ)
    (task_num : Nat) (pp : PrePass) :
    bytes_written (ideal_calls P w priv task_num pp) =
      P.sizeof_core_dump_header_t + bytes_written (record_calls P task_num pp) +
        (if P.xPortInterruptedFromISRContext then
          P.sizeof_core_dump_mem_seg_header_t + pp.interrupted_task_stack.size
         else 0) := by
  rw [ideal_calls_shape]
  simp only [bytes_written_append, (bytes_written_hooks w _).1, (bytes_written_hooks w 0).2.1,
    (bytes_written_hooks w 0).2.2]
  have hcons : ∀ (c : Call) (l : List Call), bytes_written (c :: l) = c.len + bytes_written l := by
    intro c l; simp [bytes_written]
  rw [hcons, bytes_written_append]
  cases P.xPortInterruptedFromISRContext with
  | false => simp [bytes_written, Call.len]
  | true => simp [bytes_written, seg_calls, Call.len]; omega

theorem mem_other_task_ids (c : Int) (n i : Nat) (h : i ∈ other_task_ids c n) :
    (i : Int) ≠ c := by
  simp only [other_task_ids, List.mem_filter, decide_eq_true_eq] at h
  exact h.2

/-- The bytes of the records as emitted and of the memory segment, header
included: the total the pre-pass should declare. -/
theorem emitted_len_declared (P : Port) (frame : Nat)
    (tasks : Int → core_dump_task_header_t) (n bad : Nat)
    (hflag : P.xPortInterruptedFromISRContext = true →
      ∃ j : Nat, j < n ∧ is_flagged P frame tasks j = true)
    (hstk : P.xPortInterruptedFromISRContext = true →
      ∀ t, (t = tasks (size_precompute P frame tasks n bad).curr_task_index ∨
          t = (size_precompute P frame tasks n bad).tasks
            (size_precompute P frame tasks n bad).curr_task_index) →
        task_stack_len P t = esp_core_dump_get_stack_len t.stack_start t.stack_end) :
    (size_precompute P frame tasks n bad).data_len =
      (P.sizeof_core_dump_header_t +
        records_len P (size_precompute P frame tasks n bad).tasks n +
        (if P.xPortInterruptedFromISRContext then
          P.sizeof_core_dump_mem_seg_header_t +
            (size_precompute P frame tasks n bad).interrupted_task_stack.size
         else 0)) % U32 := by
  rw [size_precompute_data_len]
  cases hisr : P.xPortInterruptedFromISRContext with
  | false =>
    rw [size_precompute_tasks_not_isr P frame tasks n bad hisr]
    simp only [Bool.false_eq_true, if_false, U32]
    omega
  | true =>
    rcases fault_index_cases P frame tasks n bad with ⟨_, _, h3⟩ | ⟨c, hc1, hc2, hc3, _, _⟩
    · obtain ⟨j, hj1, hj2⟩ := hflag hisr
      rw [h3 j hj1] at hj2; exact absurd hj2 (by decide)
    have htasks := size_precompute_tasks_isr P frame tasks n bad hisr
    have hsegv := size_precompute_seg_isr P frame tasks n bad hisr
    rw [hc3] at htasks hsegv
    have hs := hstk hisr
    rw [hc2] at hs
    have hs1 := hs (tasks c) (Or.inl rfl)
    have hs2 := hs _ (Or.inr rfl)
    have hpc : (size_precompute P frame tasks n bad).tasks (c : Int) =
        { tcb_addr := (tasks c).tcb_addr
          stack_start := frame % U32
          stack_end := P.esp_core_dump_get_isr_stack_end % U32 } := by
      rw [htasks]; simp
    rw [hpc] at hs2
    simp only at hs2
    have hothers : ((other_task_ids (c : Int) n).map
          (fun (i : Nat) => record_len P ((size_precompute P frame tasks n bad).tasks (i : Int)))) =
        ((other_task_ids (c : Int) n).map (fun (i : Nat) => record_len P (tasks (i : Int)))) := by
      apply List.map_congr_left
      intro i hi
      rw [htasks, Function.update_noteq (mem_other_task_ids _ _ _ hi)]
    rw [records_len_split P tasks c n hc1,
      records_len_split P (size_precompute P frame tasks n bad).tasks c n hc1, hothers, hpc, hsegv]
    simp only [record_len, hs1, hs2, if_true]
    generalize ((other_task_ids (c : Int) n).map
      (fun (i : Nat) => record_len P (tasks (i : Int)))).sum = S
    simp only [U32]
    omega

/-- On a snapshot that is not empty, a complete run writes the header, one
record for every task and, in interrupt context, the memory segment. -/
theorem bytes_written_complete {σ : Type} (P : Port) (frame : Nat)
    (w : core_dump_write_config_t σ) (priv : σ)
    (tasks : Int → core_dump_task_header_t) (n bad : Nat) (hn : 0 < n) :
    bytes_written (ideal_calls P w priv n (size_precompute P frame tasks n bad)) =
      P.sizeof_core_dump_header_t +
        records_len P (size_precompute P frame tasks n bad).tasks n +
        (if P.xPortInterruptedFromISRContext then
          P.sizeof_core_dump_mem_seg_header_t +
            (size_precompute P frame tasks n bad).interrupted_task_stack.size
         else 0) := by
  obtain ⟨c, hc1, hc2⟩ := fault_index_lt P frame tasks n bad hn
  rw [bytes_written_ideal, bytes_written_record_calls, hc2,
    records_len_split P (size_precompute P frame tasks n bad).tasks c n hc1]

theorem header_task_calls (P : Port) (tasks : Int → core_dump_task_header_t) (i : Int) :
    (task_calls P tasks i).filterMap Call.header = [] := by
  simp [task_calls, Call.header, List.filterMap_cons]

theorem header_record_calls (P : Port) (task_num : Nat) (pp : PrePass) :
    (record_calls P task_num pp).filterMap Call.header = [] := by
  unfold record_calls
  rw [List.filterMap_append, header_task_calls, List.filterMap_flatMap]
  simp only [header_task_calls, List.nil_append]
  generalize other_task_ids pp.curr_task_index task_num = l
  induction l with
  | nil => rfl
  | cons a l ih => simp [List.flatMap_cons, ih]

theorem header_hooks {σ : Type} (w : core_dump_write_config_t σ) (dl : Nat) :
    (prepare_calls w dl).filterMap Call.header = [] ∧
    (start_calls w).filterMap Call.header = [] ∧
    (end_calls w).filterMap Call.header = [] := by
  refine ⟨?_, ?_, ?_⟩
  · unfold prepare_calls; split <;> rfl
  · unfold start_calls; split <;> rfl
  · unfold end_calls; split <;> rfl

/-- A complete run writes one core dump header, with the length `prepare`
left in `data_len`. -/
theorem header_ideal {σ : Type} (P : Port) (w : core_dump_write_config_t σ) (priv : σ)
    (task_num : Nat) (pp : PrePass) :
    (ideal_calls P w priv task_num pp).filterMap Call.header =
      [make_header P task_num (prepared_len w priv pp)] := by
  rw [ideal_calls_shape]
  simp only [List.filterMap_append, List.filterMap_cons, Call.header,
    (header_hooks w _).1, (header_hooks w 0).2.1, (header_hooks w 0).2.2,
    header_record_calls, List.nil_append, List.append_nil]
  split <;> simp [seg_calls, Call.header, List.filterMap_cons]

theorem mem_calls_ideal {σ : Type} (P : Port) (w : core_dump_write_config_t σ) (priv : σ)
    (task_num : Nat) (pp : PrePass) (c : Call)
    (h : c ∈ (write_pass P w priv task_num pp).2.calls) :
    c.with_ret ESP_OK ∈ ideal_calls P w priv task_num pp := by
  apply (calls_prefix_ideal P w priv task_num pp).1.subset
  exact List.mem_map.mpr ⟨c, h, rfl⟩

theorem prepare_in_ideal {σ : Type} (P : Port) (w : core_dump_write_config_t σ) (priv : σ)
    (task_num : Nat) (pp : PrePass) (d : Nat) (r : esp_err_t)
    (h : Call.prepare d r ∈ ideal_calls P w priv task_num pp) : d = pp.data_len := by
  rw [ideal_calls_shape] at h
  simp only [List.mem_append, List.mem_cons] at h
  rcases h with ((h | h) | h | h) | h
  · unfold prepare_calls at h
    split at h
    · simp only [List.mem_singleton, Call.prepare.injEq] at h
      exact h.1
    · simp at h
  · unfold start_calls at h
    split at h <;> simp at h
  · simp at h
  · have := middle_calls_write P task_num pp _ (List.mem_append.mpr h)
    simp [Call.is_write] at this
  · unfold end_calls at h
    split at h <;> simp at h

theorem header_in_calls {σ : Type} (P : Port) (w : core_dump_write_config_t σ) (priv : σ)
    (task_num : Nat) (pp : PrePass) (hdr : core_dump_header_t)
    (h : hdr ∈ (write_pass P w priv task_num pp).2.calls.filterMap Call.header) :
    hdr = make_header P task_num (prepared_len w priv pp) := by
  obtain ⟨c, hc1, hc2⟩ := List.mem_filterMap.mp h
  have hmem := mem_calls_ideal P w priv task_num pp c hc1
  have hh : (c.with_ret ESP_OK).header = some hdr := by
    cases c with
    | write d n r => cases d <;> simp_all [Call.header, Call.with_ret]
    | prepare d r => simp [Call.header] at hc2
    | start r => simp [Call.header] at hc2
    | end_ r => simp [Call.header] at hc2
  have : hdr ∈ (ideal_calls P w priv task_num pp).filterMap Call.header :=
    List.mem_filterMap.mpr ⟨_, hmem, hh⟩
  rw [header_ideal] at this
  exact List.mem_singleton.mp this

theorem prepared_len_absent {σ : Type} (w : core_dump_write_config_t σ) (priv : σ)
    (pp : PrePass) (h : w.prepare = none) : prepared_len w priv pp = pp.data_len := by
  simp [prepared_len, sink_prepare, h]

/-! ## Lemmas on the checksum -/

theorem crc32_bit_lt (c : Nat) (h : c < 4294967296) : crc32_bit c < 4294967296 := by
  unfold crc32_bit
  have h2 : c / 2 < 2 ^ 32 := by omega
  split
  · exact Nat.xor_lt_two_pow h2 (by decide)
  · omega

theorem crc32_bit_top (c : Nat) (h : c < 4294967296) :
    (crc32_bit c).testBit 31 = decide (c % 2 = 1) := by
  unfold crc32_bit
  have h2 : (c / 2).testBit 31 = false := Nat.testBit_lt_two_pow (by omega)
  split
  · rename_i hc
    rw [Nat.testBit_xor, h2]
    simp [hc]
    decide
  · rename_i hc
    rw [h2]
    simp [hc]

theorem crc32_bit_inj (c1 c2 : Nat) (h1 : c1 < 4294967296) (h2 : c2 < 4294967296)
    (h : crc32_bit c1 = crc32_bit c2) : c1 = c2 := by
  have ht1 := crc32_bit_top c1 h1
  have ht2 := crc32_bit_top c2 h2
  rw [h] at ht1
  rw [ht1] at ht2
  have hpar : (c1 % 2 = 1) ↔ (c2 % 2 = 1) := by
    simpa using ht2
  unfold crc32_bit at h
  by_cases hc : c1 % 2 = 1
  · have hc2 := hpar.mp hc
    rw [if_pos hc, if_pos hc2] at h
    have := Nat.xor_left_injective h
    omega
  · have hc2 : ¬ c2 % 2 = 1 := fun x => hc (hpar.mpr x)
    rw [if_neg hc, if_neg hc2] at h
    omega

theorem crc32_bits_lt (k c : Nat) (h : c < 4294967296) :
    Nat.iterate crc32_bit k c < 4294967296 := by
  induction k generalizing c with
  | zero => exact h
  | succ k ih => exact ih _ (crc32_bit_lt c h)

theorem crc32_bits_inj (k c1 c2 : Nat) (h1 : c1 < 4294967296) (h2 : c2 < 4294967296)
    (h : Nat.iterate crc32_bit k c1 = Nat.iterate crc32_bit k c2) : c1 = c2 := by
  induction k generalizing c1 c2 with
  | zero => exact h
  | succ k ih =>
    exact crc32_bit_inj c1 c2 h1 h2 (ih _ _ (crc32_bit_lt c1 h1) (crc32_bit_lt c2 h2) h)

theorem crc32_byte_lt (c b : Nat) (h : c < 4294967296) : crc32_byte c b < 4294967296 := by
  unfold crc32_byte
  apply crc32_bits_lt
  exact Nat.xor_lt_two_pow (n := 32) h (by omega)

/-- One byte of the checksum keeps two different registers different. -/
theorem crc32_byte_inj_state (c1 c2 b : Nat) (h1 : c1 < 4294967296) (h2 : c2 < 4294967296)
    (h : crc32_byte c1 b = crc32_byte c2 b) : c1 = c2 := by
  unfold crc32_byte at h
  have hx := crc32_bits_inj 8 _ _ (Nat.xor_lt_two_pow (n := 32) h1 (by omega))
    (Nat.xor_lt_two_pow (n := 32) h2 (by omega)) h
  exact Nat.xor_left_injective hx

/-- From one register, two different bytes lead to two different registers. -/
theorem crc32_byte_inj_byte (c b1 b2 : Nat) (h : c < 4294967296)
    (hb : crc32_byte c b1 = crc32_byte c b2) : b1 % 256 = b2 % 256 := by
  unfold crc32_byte at hb
  have hx := crc32_bits_inj 8 _ _ (Nat.xor_lt_two_pow (n := 32) h (by omega))
    (Nat.xor_lt_two_pow (n := 32) h (by omega)) hb
  exact Nat.xor_right_injective hx

theorem crc32_state_lt (buf : Int → Nat) (c n : Nat) (h : c < 4294967296) :
    crc32_state buf c n < 4294967296 := by
  induction n with
  | zero => exact h
  | succ n ih => exact crc32_byte_lt _ _ ih

theorem crc32_state_congr (buf1 buf2 : Int → Nat) (c n : Nat)
    (h : ∀ i : Nat, i < n → buf1 (i : Int) = buf2 (i : Int)) :
    crc32_state buf1 c n = crc32_state buf2 c n := by
  induction n with
  | zero => rfl
  | succ n ih =>
    simp only [crc32_state]
    rw [ih (fun i hi => h i (Nat.lt_succ_of_lt hi)), h n (Nat.lt_succ_self n)]

/-- Two buffers that differ in the byte at `p` and agree elsewhere have
different checksum registers after any `n > p` bytes. -/
theorem crc32_state_detects (buf1 buf2 : Int → Nat) (c p n : Nat) (hc : c < 4294967296)
    (hp : p < n) (hdiff : buf1 (p : Int) % 256 ≠ buf2 (p : Int) % 256)
    (hsame : ∀ i : Nat, i ≠ p → buf1 (i : Int) = buf2 (i : Int)) :
    crc32_state buf1 c n ≠ crc32_state buf2 c n := by
  induction n with
  | zero => omega
  | succ n ih =>
    simp only [crc32_state]
    by_cases hpn : p = n
    · subst hpn
      rw [crc32_state_congr buf1 buf2 c p (fun i hi => hsame i (by omega))]
      intro h
      exact hdiff (crc32_byte_inj_byte _ _ _ (crc32_state_lt buf2 c p hc) h)
    · have hlt : p < n := by omega
      rw [hsame n (fun h => hpn h.symm)]
      intro h
      exact ih hlt (crc32_byte_inj_state _ _ _ (crc32_state_lt buf1 c n hc)
        (crc32_state_lt buf2 c n hc) h)

/-- The checksum tells apart two buffers that differ in exactly one of the
bytes it covers. -/
theorem crc32_le_model_detects (crc : Nat) (buf1 buf2 : Int → Nat) (p len : Nat)
    (hp : p < len) (hdiff : buf1 (p : Int) % 256 ≠ buf2 (p : Int) % 256)
    (hsame : ∀ i : Nat, i ≠ p → buf1 (i : Int) = buf2 (i : Int)) :
    crc32_le_model crc buf1 len ≠ crc32_le_model crc buf2 len := by
  unfold crc32_le_model
  intro h
  have hc : (crc % U32) ^^^ 4294967295 < 4294967296 :=
    Nat.xor_lt_two_pow (n := 32) (Nat.mod_lt _ (by decide)) (by decide)
  exact crc32_state_detects buf1 buf2 _ p len hc hp hdiff hsame (Nat.xor_left_injective h)

/-! ## Lemmas on the image verifier -/

theorem read_u32_lt (mem : Int → Nat) (off : Int) : read_u32 mem off < 4294967296 := by
  unfold read_u32
  omega

theorem read_u32_update (mem : Int → Nat) (off p : Int) (v : Nat)
    (h : p < off ∨ off + 3 < p) :
    read_u32 (Function.update mem p v) off = read_u32 mem off := by
  unfold read_u32
  rw [Function.update_noteq (by omega), Function.update_noteq (by omega),
    Function.update_noteq (by omega), Function.update_noteq (by omega)]

/-- The run of `esp_core_dump_image_get` when both pointers are set, the
partition exists and holds at least one word, the first mapping succeeds and
the declared size is in bounds. -/
theorem image_get_checked (F : Flash) (a s : Nat) (part : esp_partition_t)
    (hpart : F.esp_partition_find_first = some part) (hc : 4 ≤ part.size)
    (hm1 : (F.esp_partition_mmap 0 0 4).err = ESP_OK)
    (hd1 : 4 ≤ read_u32 F.data 0) (hd2 : read_u32 F.data 0 ≤ part.size) :
    esp_core_dump_image_get F (some a) (some s) =
      if (F.esp_partition_mmap 1 0 (read_u32 F.data 0)).err ≠ ESP_OK then
        { err := (F.esp_partition_mmap 1 0 (read_u32 F.data 0)).err
          out_addr := some a
          out_size := some (read_u32 F.data 0)
          maps := [MapCall.mmap 0 4 ESP_OK (F.esp_partition_mmap 0 0 4).handle,
            MapCall.munmap (F.esp_partition_mmap 0 0 4).handle,
            MapCall.mmap 0 (read_u32 F.data 0)
              (F.esp_partition_mmap 1 0 (read_u32 F.data 0)).err
              (F.esp_partition_mmap 1 0 (read_u32 F.data 0)).handle]
          checksum_len := none
          checksum_field := none }
      else
        { err := if (checksum_step F (read_u32 F.data 0)).2.2 then ESP_ERR_INVALID_CRC
            else ESP_OK
          out_addr := if (checksum_step F (read_u32 F.data 0)).2.2 then some a
            else some part.address
          out_size := some (read_u32 F.data 0)
          maps := [MapCall.mmap 0 4 ESP_OK (F.esp_partition_mmap 0 0 4).handle,
            MapCall.munmap (F.esp_partition_mmap 0 0 4).handle,
            MapCall.mmap 0 (read_u32 F.data 0) ESP_OK
              (F.esp_partition_mmap 1 0 (read_u32 F.data 0)).handle,
            MapCall.munmap (F.esp_partition_mmap 1 0 (read_u32 F.data 0)).handle]
          checksum_len := some (checksum_step F (read_u32 F.data 0)).1
          checksum_field := some (checksum_step F (read_u32 F.data 0)).2.1 } := by
  unfold esp_core_dump_image_get
  have hc' : ¬ part.size < 4 := by omega
  have hd : ¬ (read_u32 F.data 0 < 4 ∨ read_u32 F.data 0 > part.size) := by omega
  simp only [hpart, hc', hm1, hd, if_false, ne_eq, not_true_eq_false, reduceCtorEq, or_self]
  by_cases hm2 : (F.esp_partition_mmap 1 0 (read_u32 F.data 0)).err = ESP_OK
  · simp only [hm2, not_true_eq_false, if_false]
    split <;> rfl
  · simp only [hm2, not_false_eq_true, if_true]

theorem image_get_null (F : Flash) (oa os : Option Nat) (h : oa = none ∨ os = none) :
    esp_core_dump_image_get F oa os =
      { err := ESP_ERR_INVALID_ARG, out_addr := oa, out_size := os, maps := [],
        checksum_len := none, checksum_field := none } := by
  unfold esp_core_dump_image_get
  simp only [h, if_true]

theorem image_get_no_partition (F : Flash) (a s : Nat)
    (hpart : F.esp_partition_find_first = none) :
    esp_core_dump_image_get F (some a) (some s) =
      { err := ESP_ERR_NOT_FOUND, out_addr := some a, out_size := some s, maps := [],
        checksum_len := none, checksum_field := none } := by
  unfold esp_core_dump_image_get
  simp only [hpart, reduceCtorEq, or_self, if_false]

theorem image_get_small_partition (F : Flash) (a s : Nat) (part : esp_partition_t)
    (hpart : F.esp_partition_find_first = some part) (hc : part.size < 4) :
    esp_core_dump_image_get F (some a) (some s) =
      { err := ESP_ERR_INVALID_SIZE, out_addr := some a, out_size := some s, maps := [],
        checksum_len := none, checksum_field := none } := by
  unfold esp_core_dump_image_get
  simp only [hpart, hc, reduceCtorEq, or_self, if_false, if_true]

theorem image_get_first_mmap_fails (F : Flash) (a s : Nat) (part : esp_partition_t)
    (hpart : F.esp_partition_find_first = some part) (hc : 4 ≤ part.size)
    (hm1 : (F.esp_partition_mmap 0 0 4).err ≠ ESP_OK) :
    esp_core_dump_image_get F (some a) (some s) =
      { err := (F.esp_partition_mmap 0 0 4).err, out_addr := some a, out_size := some s,
        maps := [MapCall.mmap 0 4 (F.esp_partition_mmap 0 0 4).err
          (F.esp_partition_mmap 0 0 4).handle],
        checksum_len := none, checksum_field := none } := by
  unfold esp_core_dump_image_get
  have hc' : ¬ part.size < 4 := by omega
  simp only [hpart, hc', hm1, reduceCtorEq, or_self, if_false, ne_eq, not_false_eq_true, if_true]

theorem image_get_bad_size (F : Flash) (a s : Nat) (part : esp_partition_t)
    (hpart : F.esp_partition_find_first = some part) (hc : 4 ≤ part.size)
    (hm1 : (F.esp_partition_mmap 0 0 4).err = ESP_OK)
    (hd : read_u32 F.data 0 < 4 ∨ part.size < read_u32 F.data 0) :
    esp_core_dump_image_get F (some a) (some s) =
      { err := ESP_ERR_INVALID_SIZE, out_addr := some a, out_size := some (read_u32 F.data 0),
        maps := [MapCall.mmap 0 4 ESP_OK (F.esp_partition_mmap 0 0 4).handle,
          MapCall.munmap (F.esp_partition_mmap 0 0 4).handle],
        checksum_len := none, checksum_field := none } := by
  unfold esp_core_dump_image_get
  have hc' : ¬ part.size < 4 := by omega
  have hd' : read_u32 F.data 0 < 4 ∨ read_u32 F.data 0 > part.size := hd
  simp only [hpart, hc', hm1, hd', reduceCtorEq, or_self, if_false, ne_eq, not_true_eq_false,
    if_true]

/-- A call that returns `ESP_OK` passed every check. -/
theorem image_get_ok_inv (F : Flash) (oa os : Option Nat)
    (hok : (esp_core_dump_image_get F oa os).err = ESP_OK) :
    ∃ (a s : Nat) (part : esp_partition_t), oa = some a ∧ os = some s ∧
      F.esp_partition_find_first = some part ∧ 4 ≤ part.size ∧
      (F.esp_partition_mmap 0 0 4).err = ESP_OK ∧
      4 ≤ read_u32 F.data 0 ∧ read_u32 F.data 0 ≤ part.size ∧
      (F.esp_partition_mmap 1 0 (read_u32 F.data 0)).err = ESP_OK ∧
      (checksum_step F (read_u32 F.data 0)).2.2 = false := by
  cases oa with
  | none => rw [image_get_null F _ _ (Or.inl rfl)] at hok; simp only at hok; exact absurd hok (by decide)
  | some a =>
  cases os with
  | none => rw [image_get_null F _ _ (Or.inr rfl)] at hok; simp only at hok; exact absurd hok (by decide)
  | some s =>
  cases hpart : F.esp_partition_find_first with
  | none => rw [image_get_no_partition F a s hpart] at hok; simp only at hok; exact absurd hok (by decide)
  | some part =>
  by_cases hc : part.size < 4
  · rw [image_get_small_partition F a s part hpart hc] at hok; simp only at hok; exact absurd hok (by decide)
  have hc4 : 4 ≤ part.size := by omega
  by_cases hm1 : (F.esp_partition_mmap 0 0 4).err = ESP_OK
  swap
  · rw [image_get_first_mmap_fails F a s part hpart hc4 hm1] at hok; exact absurd hok hm1
  by_cases hd : read_u32 F.data 0 < 4 ∨ part.size < read_u32 F.data 0
  · rw [image_get_bad_size F a s part hpart hc4 hm1 hd] at hok; simp only at hok; exact absurd hok (by decide)
  have hd1 : 4 ≤ read_u32 F.data 0 := by omega
  have hd2 : read_u32 F.data 0 ≤ part.size := by omega
  rw [image_get_checked F a s part hpart hc4 hm1 hd1 hd2] at hok
  by_cases hm2 : (F.esp_partition_mmap 1 0 (read_u32 F.data 0)).err = ESP_OK
  swap
  · rw [if_pos hm2] at hok; exact absurd hok hm2
  rw [if_neg (not_not.mpr hm2)] at hok
  refine ⟨a, s, part, rfl, rfl, rfl, hc4, hm1, hd1, hd2, hm2, ?_⟩
  cases hcs : (checksum_step F (read_u32 F.data 0)).2.2 with
  | false => rfl
  | true =>
    simp only [hcs, if_true] at hok
    exact absurd hok (by decide)

theorem checksum_step_crc32 (F : Flash) (d : Nat) (hmode : F.checksum = checksum_mode.crc32)
    (hd : 4 ≤ d) (hd2 : d < 4294967296) :
    checksum_step F d =
      (d - 4, (d : Int) - 4,
        decide (read_u32 F.data ((d : Int) - 4) ≠ F.crc32_le 0 F.data (d - 4))) := by
  unfold checksum_step
  have hlen : (d % U32 + U32 - 4) % U32 = d - 4 := by
    simp only [U32]; omega
  simp only [hmode, hlen]

theorem memcmp_ne_iff (mem : Int → Nat) (off : Int) (out : Nat → Nat) (n : Nat) :
    memcmp_ne mem off out n = true ↔
      ∃ i : Nat, i < n ∧ mem (off + (i : Int)) % 256 ≠ out i % 256 := by
  unfold memcmp_ne
  simp only [List.any_eq_true, List.mem_range, decide_eq_true_eq]

theorem memcmp_ne_false_iff (mem : Int → Nat) (off : Int) (out : Nat → Nat) (n : Nat) :
    memcmp_ne mem off out n = false ↔
      ∀ i : Nat, i < n → mem (off + (i : Int)) % 256 = out i % 256 := by
  rw [← Bool.not_eq_true, memcmp_ne_iff]
  constructor
  · intro h i hi
    by_contra hne
    exact h ⟨i, hi, hne⟩
  · rintro h ⟨i, hi, hne⟩
    exact hne (h i hi)

theorem checksum_step_sha256 (F : Flash) (d : Nat) (hmode : F.checksum = checksum_mode.sha256)
    (hd : d < 4294967296) :
    checksum_step F d =
      ((d + U32 - F.COREDUMP_SHA256_LEN % U32) % U32, (d : Int) - (F.COREDUMP_SHA256_LEN : Int),
        memcmp_ne F.data ((d : Int) - (F.COREDUMP_SHA256_LEN : Int))
          (F.esp_core_dump_sha F.data ((d + U32 - F.COREDUMP_SHA256_LEN % U32) % U32))
          F.COREDUMP_SHA256_LEN) := by
  unfold checksum_step
  have hd' : d % U32 = d := Nat.mod_eq_of_lt hd
  simp only [hmode, hd']

/-- The verdict of the checksum step in CRC32 mode: the stored word and the
computed checksum differ. -/
theorem checksum_mismatch_crc32 (F : Flash) (d : Nat)
    (hmode : F.checksum = checksum_mode.crc32) (hd : 4 ≤ d) (hd2 : d < 4294967296) :
    (checksum_step F d).2.2 = true ↔
      read_u32 F.data ((d : Int) - 4) ≠ F.crc32_le 0 F.data (d - 4) := by
  rw [checksum_step_crc32 F d hmode hd hd2]
  simp only [decide_eq_true_eq]

/-- The verdict of the checksum step in SHA256 mode: some byte of the stored
digest differs from the computed digest. -/
theorem checksum_mismatch_sha256 (F : Flash) (d : Nat)
    (hmode : F.checksum = checksum_mode.sha256) (hd : d < 4294967296) :
    (checksum_step F d).2.2 = true ↔
      ∃ i : Nat, i < F.COREDUMP_SHA256_LEN ∧
        F.data ((d : Int) - (F.COREDUMP_SHA256_LEN : Int) + (i : Int)) % 256 ≠
          F.esp_core_dump_sha F.data ((d + U32 - F.COREDUMP_SHA256_LEN % U32) % U32) i % 256 := by
  rw [checksum_step_sha256 F d hmode hd]
  exact memcmp_ne_iff _ _ _ _

/-! ## Lemmas on the length helpers -/

theorem land_word_mask (x : Nat) (h : x < 4294967296) :
    Nat.land x 4294967292 = x / 4 * 4 := by
  show x &&& 4294967292 = x / 4 * 4
  apply Nat.eq_of_testBit_eq
  intro i
  have hm : (4294967292 : Nat) = (2 ^ 30 - 1) <<< 2 := by decide
  have hx : x / 4 * 4 = (x >>> 2) <<< 2 := by
    rw [Nat.shiftLeft_eq, Nat.shiftRight_eq_div_pow]
  rw [Nat.testBit_and, hm, hx, Nat.testBit_shiftLeft, Nat.testBit_shiftLeft,
    Nat.testBit_two_pow_sub_one, Nat.testBit_shiftRight]
  by_cases hi : 2 ≤ i
  · have h2 : 2 + (i - 2) = i := by omega
    rw [h2]
    by_cases hi2 : i - 2 < 30
    · simp [hi, hi2]
    · have hxi : x.testBit i = false := by
        apply Nat.testBit_lt_two_pow
        calc x < 2 ^ 32 := h
          _ ≤ 2 ^ i := Nat.pow_le_pow_right (by decide) (by omega)
      simp [hi, hi2, hxi]
  · simp [hi]

/-- Below the point where `len + 3` wraps, the padded length is the length
rounded up to a multiple of 4. -/
theorem get_stack_len_round (stack_start stack_end : Nat) (h1 : stack_start ≤ stack_end)
    (h2 : stack_end < 4294967296) (h3 : stack_end - stack_start ≤ 4294967292) :
    esp_core_dump_get_stack_len stack_start stack_end =
      (stack_end - stack_start + 3) / 4 * 4 := by
  unfold esp_core_dump_get_stack_len
  have hlen : (stack_end % U32 + U32 - stack_start % U32) % U32 = stack_end - stack_start := by
    simp only [U32]; omega
  simp only [hlen]
  have hsum : (stack_end - stack_start + 4 - 1) % U32 = stack_end - stack_start + 3 := by
    simp only [U32]; omega
  rw [hsum, land_word_mask _ (by omega)]

theorem get_tcb_len_round (P : Port) (h : P.COREDUMP_TCB_SIZE + 3 < 4294967296) :
    esp_core_dump_get_tcb_len P % 4 = 0 ∧
    P.COREDUMP_TCB_SIZE ≤ esp_core_dump_get_tcb_len P ∧
    esp_core_dump_get_tcb_len P < P.COREDUMP_TCB_SIZE + 4 := by
  unfold esp_core_dump_get_tcb_len
  simp only [U32]
  split <;> omega

/-! ## The claims -/

/-- C1, as stated, fails in two ways.  A `prepare` hook may change the length
it is handed through `&data_len`: with a sink that adds the 4 bytes of its
trailing checksum the header says 288 while the `write` calls carry 284
bytes.  And `data_len` is a 32-bit sum: with a task whose stack ends before it
starts the header says 208 while the `write` calls carry 4294967504 bytes. -/
theorem C1_counterexample :
    ((esp_core_dump_write_binary (example_port false) 4000 checksum_sink () 0
        example_tasks 2).err = ESP_OK ∧
      (esp_core_dump_write_binary (example_port false) 4000 checksum_sink () 0
        example_tasks 2).calls.filterMap Call.header =
        [{ data_len := 288, version := 1, tasks_num := 2, mem_segs_num := 0, tcb_sz := 12 }] ∧
      bytes_written (esp_core_dump_write_binary (example_port false) 4000 checksum_sink () 0
        example_tasks 2).calls = 284) ∧
    ((esp_core_dump_write_binary (example_port false) 4000 example_sink () 0
        example_tasks 3).err = ESP_OK ∧
      (esp_core_dump_write_binary (example_port false) 4000 example_sink () 0
        example_tasks 3).calls.filterMap Call.header =
        [{ data_len := 208, version := 1, tasks_num := 3, mem_segs_num := 0, tcb_sz := 12 }] ∧
      bytes_written (esp_core_dump_write_binary (example_port false) 4000 example_sink () 0
        example_tasks 3).calls = 4294967504) := by
  decide

/-- C1, amended: for a run that returns `ESP_OK` on a snapshot of at least one
task, in which, in interrupt context, some task was flagged and
`esp_core_dump_get_stack` agrees with the recorded stack bounds on the fault
task's record before and after retargeting: exactly one header is written; the
sum of the byte lengths passed to `write` over the whole run, reduced modulo
`2 ^ 32`, is the total the pre-pass computed and handed to `prepare`; the
header's `data_len` is the value `prepare` left in `data_len`; so when the
hook is absent or left the length unchanged, the header's `data_len` is that
sum modulo `2 ^ 32`, and the sum itself when it is below `2 ^ 32`. -/
theorem C1_declared_length_exact {σ : Type} (P : Port) (frame : Nat)
    (w : core_dump_write_config_t σ) (priv : σ) (bad_tasks_num : Nat)
    (tasks : Int → core_dump_task_header_t) (task_num : Nat)
    (hok : (esp_core_dump_write_binary P frame w priv bad_tasks_num tasks task_num).err = ESP_OK)
    (hn : 0 < task_num)
    (hflag : P.xPortInterruptedFromISRContext = true →
      ∃ j : Nat, j < task_num ∧ is_flagged P frame tasks j = true)
    (hstk : P.xPortInterruptedFromISRContext = true →
      ∀ t, (t = tasks (size_precompute P frame tasks task_num bad_tasks_num).curr_task_index ∨
          t = (size_precompute P frame tasks task_num bad_tasks_num).tasks
            (size_precompute P frame tasks task_num bad_tasks_num).curr_task_index) →
        task_stack_len P t = esp_core_dump_get_stack_len t.stack_start t.stack_end) :
    ∃ hdr : core_dump_header_t,
      (esp_core_dump_write_binary P frame w priv bad_tasks_num tasks task_num).calls.filterMap
        Call.header = [hdr] ∧
      bytes_written
          (esp_core_dump_write_binary P frame w priv bad_tasks_num tasks task_num).calls % U32 =
        (size_precompute P frame tasks task_num bad_tasks_num).data_len ∧
      hdr.data_len =
        prepared_len w priv (size_precompute P frame tasks task_num bad_tasks_num) ∧
      (prepared_len w priv (size_precompute P frame tasks task_num bad_tasks_num) =
          (size_precompute P frame tasks task_num bad_tasks_num).data_len →
        hdr.data_len =
          bytes_written
            (esp_core_dump_write_binary P frame w priv bad_tasks_num tasks task_num).calls
            % U32 ∧
        (bytes_written
            (esp_core_dump_write_binary P frame w priv bad_tasks_num tasks task_num).calls
            < U32 →
          hdr.data_len =
            bytes_written
              (esp_core_dump_write_binary P frame w priv bad_tasks_num tasks task_num).calls)) := by
  have hcalls : (esp_core_dump_write_binary P frame w priv bad_tasks_num tasks task_num).calls =
      ideal_calls P w priv task_num (size_precompute P frame tasks task_num bad_tasks_num) :=
    (calls_prefix_ideal P w priv task_num _).2 hok
  have hlen : bytes_written
      (esp_core_dump_write_binary P frame w priv bad_tasks_num tasks task_num).calls % U32 =
      (size_precompute P frame tasks task_num bad_tasks_num).data_len := by
    rw [hcalls, bytes_written_complete P frame w priv tasks task_num bad_tasks_num hn]
    exact (emitted_len_declared P frame tasks task_num bad_tasks_num hflag hstk).symm
  refine ⟨make_header P task_num
    (prepared_len w priv (size_precompute P frame tasks task_num bad_tasks_num)), ?_, hlen, rfl,
    ?_⟩
  · rw [hcalls, header_ideal]
  · intro hprep
    have h1 : (make_header P task_num
        (prepared_len w priv (size_precompute P frame tasks task_num bad_tasks_num))).data_len =
        bytes_written
          (esp_core_dump_write_binary P frame w priv bad_tasks_num tasks task_num).calls
          % U32 := by
      rw [hlen]; exact hprep
    refine ⟨h1, ?_⟩
    intro hlt
    rw [h1, Nat.mod_eq_of_lt hlt]

/-- C1, witnessed in interrupt context on two tasks whose entry 1 is flagged,
with a sink whose `prepare` hook leaves the length unchanged: the header says
1292 and the `write` calls carry 1292 bytes. -/
theorem C1_declared_length_exact_witness :
    (esp_core_dump_write_binary (example_port true) 4000 example_sink () 0
      example_tasks 2).err = ESP_OK ∧
    0 < 2 ∧
    (∃ j : Nat, j < 2 ∧ is_flagged (example_port true) 4000 example_tasks j = true) ∧
    (∀ t, (t = example_tasks
            (size_precompute (example_port true) 4000 example_tasks 2 0).curr_task_index ∨
          t = (size_precompute (example_port true) 4000 example_tasks 2 0).tasks
            (size_precompute (example_port true) 4000 example_tasks 2 0).curr_task_index) →
        task_stack_len (example_port true) t =
          esp_core_dump_get_stack_len t.stack_start t.stack_end) ∧
    bytes_written (esp_core_dump_write_binary (example_port true) 4000 example_sink () 0
      example_tasks 2).calls = 1292 ∧
    ∃ hdr : core_dump_header_t,
      (esp_core_dump_write_binary (example_port true) 4000 example_sink () 0
        example_tasks 2).calls.filterMap Call.header = [hdr] ∧
      bytes_written (esp_core_dump_write_binary (example_port true) 4000 example_sink () 0
          example_tasks 2).calls % U32 =
        (size_precompute (example_port true) 4000 example_tasks 2 0).data_len ∧
      hdr.data_len =
        prepared_len example_sink ()
          (size_precompute (example_port true) 4000 example_tasks 2 0) ∧
      (prepared_len example_sink ()
            (size_precompute (example_port true) 4000 example_tasks 2 0) =
          (size_precompute (example_port true) 4000 example_tasks 2 0).data_len →
        hdr.data_len =
          bytes_written (esp_core_dump_write_binary (example_port true) 4000 example_sink () 0
            example_tasks 2).calls % U32 ∧
        (bytes_written (esp_core_dump_write_binary (example_port true) 4000 example_sink () 0
            example_tasks 2).calls < U32 →
          hdr.data_len =
            bytes_written (esp_core_dump_write_binary (example_port true) 4000 example_sink ()
              0 example_tasks 2).calls)) :=
  ⟨by decide, by decide, ⟨1, by decide, by decide⟩,
    fun t ht => by rcases ht with h | h <;> subst h <;> decide,
    by decide,
    C1_declared_length_exact (example_port true) 4000 example_sink () 0 example_tasks 2
      (by decide) (by decide) (fun _ => ⟨1, by decide, by decide⟩)
      (fun _ t ht => by rcases ht with h | h <;> subst h <;> decide)⟩

/-- C2, as stated, fails: the value the pre-pass computes and hands to
`prepare` is the stated sum, 284 here, but `prepare` receives `&data_len` and
may change it; with a sink that adds the 4 bytes of its trailing checksum
`hdr.data_len` is 288. -/
theorem C2_counterexample :
    (size_precompute (example_port false) 4000 example_tasks 2 0).data_len = 284 ∧
    ((example_port false).sizeof_core_dump_header_t +
      records_len (example_port false) example_tasks 2) % U32 = 284 ∧
    (esp_core_dump_write_binary (example_port false) 4000 checksum_sink () 0
      example_tasks 2).calls.take 3 =
      [ Call.prepare 284 ESP_OK,
        Call.start ESP_OK,
        Call.write (Payload.hdr
          { data_len := 288, version := 1, tasks_num := 2, mem_segs_num := 0, tcb_sz := 12 })
          20 ESP_OK ] := by
  decide

/-- C2, amended: when, in interrupt context, some task was flagged and
`esp_core_dump_get_stack` agrees with the recorded stack bounds on the fault
task's record before and after retargeting, the total the pre-pass computes is
`sizeof(core_dump_header_t)` plus, over all `task_num` records as emitted, the
task header size, the TCB length and the padded stack length, plus, in
interrupt context, `sizeof(core_dump_mem_seg_header_t)` and the padded length
of the fault task's original stack, all modulo `2 ^ 32`; that total is what
every `prepare` call receives; `hdr.data_len` is the value `prepare` left in
`data_len`, which is the total when the hook is absent. -/
theorem C2_precomputed_total {σ : Type} (P : Port) (frame : Nat)
    (w : core_dump_write_config_t σ) (priv : σ) (bad_tasks_num : Nat)
    (tasks : Int → core_dump_task_header_t) (task_num : Nat)
    (hflag : P.xPortInterruptedFromISRContext = true →
      ∃ j : Nat, j < task_num ∧ is_flagged P frame tasks j = true)
    (hstk : P.xPortInterruptedFromISRContext = true →
      ∀ t, (t = tasks (size_precompute P frame tasks task_num bad_tasks_num).curr_task_index ∨
          t = (size_precompute P frame tasks task_num bad_tasks_num).tasks
            (size_precompute P frame tasks task_num bad_tasks_num).curr_task_index) →
        task_stack_len P t = esp_core_dump_get_stack_len t.stack_start t.stack_end) :
    (size_precompute P frame tasks task_num bad_tasks_num).data_len =
      (P.sizeof_core_dump_header_t +
        ((List.range task_num).map (fun (i : Nat) =>
          P.sizeof_core_dump_task_header_t + esp_core_dump_get_tcb_len P +
            task_stack_len P
              ((esp_core_dump_write_binary P frame w priv bad_tasks_num tasks task_num).tasks
                (i : Int)))).sum +
        (if P.xPortInterruptedFromISRContext then
          P.sizeof_core_dump_mem_seg_header_t +
            esp_core_dump_get_stack_len
              (tasks (size_precompute P frame tasks task_num bad_tasks_num).curr_task_index).stack_start
              (tasks (size_precompute P frame tasks task_num bad_tasks_num).curr_task_index).stack_end
         else 0)) % U32 ∧
    (∀ d r, Call.prepare d r ∈
        (esp_core_dump_write_binary P frame w priv bad_tasks_num tasks task_num).calls →
      d = (size_precompute P frame tasks task_num bad_tasks_num).data_len) ∧
    (∀ hdr ∈
        (esp_core_dump_write_binary P frame w priv bad_tasks_num tasks task_num).calls.filterMap
          Call.header,
      hdr.data_len =
        prepared_len w priv (size_precompute P frame tasks task_num bad_tasks_num)) ∧
    (w.prepare = none →
      prepared_len w priv (size_precompute P frame tasks task_num bad_tasks_num) =
        (size_precompute P frame tasks task_num bad_tasks_num).data_len) := by
  refine ⟨?_, ?_, ?_, prepared_len_absent w priv _⟩
  · rw [emitted_len_declared P frame tasks task_num bad_tasks_num hflag hstk]
    have hsz : P.xPortInterruptedFromISRContext = true →
        (size_precompute P frame tasks task_num bad_tasks_num).interrupted_task_stack.size =
          esp_core_dump_get_stack_len
            (tasks (size_precompute P frame tasks task_num bad_tasks_num).curr_task_index).stack_start
            (tasks (size_precompute P frame tasks task_num bad_tasks_num).curr_task_index).stack_end := by
      intro hisr
      rcases fault_index_cases P frame tasks task_num bad_tasks_num with ⟨_, _, h3⟩ |
        ⟨c, _, hc2, hc3, _, _⟩
      · obtain ⟨j, hj1, hj2⟩ := hflag hisr
        rw [h3 j hj1] at hj2; exact absurd hj2 (by decide)
      · rw [size_precompute_seg_isr P frame tasks task_num bad_tasks_num hisr, hc3, hc2]
    cases hisr : P.xPortInterruptedFromISRContext with
    | false => rfl
    | true =>
      simp only [if_true]
      rw [hsz hisr]
      rfl
  · intro d r hd
    have := mem_calls_ideal P w priv task_num _ _ hd
    exact prepare_in_ideal P w priv task_num _ d ESP_OK this
  · intro hdr hh
    rw [header_in_calls P w priv task_num _ hdr hh]
    rfl

/-- C2, witnessed in interrupt context on two tasks whose entry 1 is flagged,
with a sink whose `prepare` hook changes the length: the pre-pass total is
1292. -/
theorem C2_precomputed_total_witness :
    (∃ j : Nat, j < 2 ∧ is_flagged (example_port true) 4000 example_tasks j = true) ∧
    (∀ t, (t = example_tasks
            (size_precompute (example_port true) 4000 example_tasks 2 0).curr_task_index ∨
          t = (size_precompute (example_port true) 4000 example_tasks 2 0).tasks
            (size_precompute (example_port true) 4000 example_tasks 2 0).curr_task_index) →
        task_stack_len (example_port true) t =
          esp_core_dump_get_stack_len t.stack_start t.stack_end) ∧
    (size_precompute (example_port true) 4000 example_tasks 2 0).data_len = 1292 ∧
    ((size_precompute (example_port true) 4000 example_tasks 2 0).data_len =
      ((example_port true).sizeof_core_dump_header_t +
        ((List.range 2).map (fun (i : Nat) =>
          (example_port true).sizeof_core_dump_task_header_t +
            esp_core_dump_get_tcb_len (example_port true) +
            task_stack_len (example_port true)
              ((esp_core_dump_write_binary (example_port true) 4000 checksum_sink () 0
                example_tasks 2).tasks (i : Int)))).sum +
        (if (example_port true).xPortInterruptedFromISRContext then
          (example_port true).sizeof_core_dump_mem_seg_header_t +
            esp_core_dump_get_stack_len
              (example_tasks
                (size_precompute (example_port true) 4000 example_tasks 2 0).curr_task_index).stack_start
              (example_tasks
                (size_precompute (example_port true) 4000 example_tasks 2 0).curr_task_index).stack_end
         else 0)) % U32 ∧
    (∀ d r, Call.prepare d r ∈
        (esp_core_dump_write_binary (example_port true) 4000 checksum_sink () 0
          example_tasks 2).calls →
      d = (size_precompute (example_port true) 4000 example_tasks 2 0).data_len) ∧
    (∀ hdr ∈
        (esp_core_dump_write_binary (example_port true) 4000 checksum_sink () 0
          example_tasks 2).calls.filterMap Call.header,
      hdr.data_len =
        prepared_len checksum_sink () (size_precompute (example_port true) 4000 example_tasks 2 0)) ∧
    (checksum_sink.prepare = none →
      prepared_len checksum_sink () (size_precompute (example_port true) 4000 example_tasks 2 0) =
        (size_precompute (example_port true) 4000 example_tasks 2 0).data_len)) :=
  ⟨⟨1, by decide, by decide⟩,
    fun t ht => by rcases ht with h | h <;> subst h <;> decide,
    by decide,
    C2_precomputed_total (example_port true) 4000 checksum_sink () 0 example_tasks 2
      (fun _ => ⟨1, by decide, by decide⟩)
      (fun _ t ht => by rcases ht with h | h <;> subst h <;> decide)⟩

/-- C3: with a sink whose calls all succeed, the first task record written
after the header (task header, TCB block, stack bytes) is the record at one
index `i` of the task array; `i` is a flagged index of the snapshot when some
task was flagged as the current task, and `i = 0` when none was; the record
carries the TCB address of the snapshot's task `i`, and outside interrupt
context it is the snapshot's record unchanged. -/
theorem C3_fault_task_record_first {σ : Type} (P : Port) (frame : Nat)
    (w : core_dump_write_config_t σ) (priv : σ) (bad_tasks_num : Nat)
    (tasks : Int → core_dump_task_header_t) (task_num : Nat) (hw : AllOk w) :
    ∃ (i : Int) (hdr : core_dump_header_t) (pre rest : List Call),
      (esp_core_dump_write_binary P frame w priv bad_tasks_num tasks task_num).calls =
        pre ++ Call.write (Payload.hdr hdr) P.sizeof_core_dump_header_t ESP_OK ::
          (task_calls P
            (esp_core_dump_write_binary P frame w priv bad_tasks_num tasks task_num).tasks i
            ++ rest) ∧
      (∀ c ∈ pre, c.is_write = false) ∧
      ((∃ j : Nat, j < task_num ∧ is_flagged P frame tasks j = true) →
        ∃ c : Nat, c < task_num ∧ i = (c : Int) ∧ is_flagged P frame tasks c = true) ∧
      ((∀ j : Nat, j < task_num → is_flagged P frame tasks j = false) → i = 0) ∧
      ((esp_core_dump_write_binary P frame w priv bad_tasks_num tasks task_num).tasks i).tcb_addr
        = (tasks i).tcb_addr ∧
      (P.xPortInterruptedFromISRContext = false →
        (esp_core_dump_write_binary P frame w priv bad_tasks_num tasks task_num).tasks i
          = tasks i) := by
  obtain ⟨rest, hrest⟩ := calls_begin P w hw priv task_num
    (size_precompute P frame tasks task_num bad_tasks_num)
  refine ⟨(size_precompute P frame tasks task_num bad_tasks_num).curr_task_index, _, _, rest,
    hrest, hooks_not_write w _, ?_, ?_, fault_record_tcb P frame tasks task_num bad_tasks_num, ?_⟩
  · rintro ⟨j, hj1, hj2⟩
    rcases fault_index_cases P frame tasks task_num bad_tasks_num with ⟨_, _, h3⟩ |
      ⟨c, h1, h2, _, h3, _⟩
    · rw [h3 j hj1] at hj2; exact absurd hj2 (by decide)
    · exact ⟨c, h1, h2, h3⟩
  · intro hnone
    rcases fault_index_cases P frame tasks task_num bad_tasks_num with ⟨h1, _, _⟩ |
      ⟨c, h1, _, _, h3, _⟩
    · exact h1
    · rw [hnone c h1] at h3; exact absurd h3 (by decide)
  · intro hisr
    show (size_precompute P frame tasks task_num bad_tasks_num).tasks _ = _
    rw [size_precompute_tasks_not_isr P frame tasks task_num bad_tasks_num hisr]

/-- C3, witnessed outside interrupt context on a three-task array whose entry 1 is
flagged. -/
theorem C3_fault_task_record_first_witness :
    AllOk example_sink ∧
    ∃ (i : Int) (hdr : core_dump_header_t) (pre rest : List Call),
      (esp_core_dump_write_binary (example_port false) 4000 example_sink () 0
          example_tasks 3).calls =
        pre ++ Call.write (Payload.hdr hdr) (example_port false).sizeof_core_dump_header_t
            ESP_OK ::
          (task_calls (example_port false)
            (esp_core_dump_write_binary (example_port false) 4000 example_sink () 0
              example_tasks 3).tasks i
            ++ rest) ∧
      (∀ c ∈ pre, c.is_write = false) ∧
      ((∃ j : Nat, j < 3 ∧ is_flagged (example_port false) 4000 example_tasks j = true) →
        ∃ c : Nat, c < 3 ∧ i = (c : Int) ∧
          is_flagged (example_port false) 4000 example_tasks c = true) ∧
      ((∀ j : Nat, j < 3 → is_flagged (example_port false) 4000 example_tasks j = false) → i = 0) ∧
      ((esp_core_dump_write_binary (example_port false) 4000 example_sink () 0
          example_tasks 3).tasks i).tcb_addr = (example_tasks i).tcb_addr ∧
      ((example_port false).xPortInterruptedFromISRContext = false →
        (esp_core_dump_write_binary (example_port false) 4000 example_sink () 0
          example_tasks 3).tasks i = example_tasks i) :=
  ⟨example_sink_all_ok,
    C3_fault_task_record_first (example_port false) 4000 example_sink () 0 example_tasks 3
      example_sink_all_ok⟩

/-- C4: on an empty snapshot (`task_num = 0`) the header announces no task,
yet the writer emits one task record, that of the stale entry `tasks[0]`. -/
theorem C4_empty_snapshot_emits_a_record :
    (esp_core_dump_write_binary (example_port false) 4000 example_sink () 0
        example_tasks 0).err = ESP_OK ∧
    (esp_core_dump_write_binary (example_port false) 4000 example_sink () 0
        example_tasks 0).calls =
      [ Call.prepare 20 ESP_OK,
        Call.start ESP_OK,
        Call.write (Payload.hdr
          { data_len := 20, version := 1, tasks_num := 0, mem_segs_num := 0, tcb_sz := 12 })
          20 ESP_OK,
        Call.write (Payload.task 0 { tcb_addr := 5, stack_start := 100, stack_end := 205 })
          12 ESP_OK,
        Call.write (Payload.mem 5) 12 ESP_OK,
        Call.write (Payload.mem 100) 108 ESP_OK,
        Call.end_ ESP_OK ] := by
  decide

/-- C5, as stated, fails in two ways.  The flagged task's stack runs from 300
to 405, 105 bytes, and the one memory segment header written has size 108, the
length rounded up to a multiple of 4.  And when the saved stack (8192 bytes
here) fails `esp_core_dump_mem_seg_is_sane`, no memory segment header is
written at all, although every sink call succeeded. -/
theorem C5_counterexample :
    (is_flagged (example_port true) 4000 example_tasks 1 = true ∧
      (example_tasks 1).stack_end - (example_tasks 1).stack_start = 105 ∧
      (esp_core_dump_write_binary (example_port true) 4000 example_sink () 0
        example_tasks 2).err = ESP_OK ∧
      (esp_core_dump_write_binary (example_port true) 4000 example_sink () 0
        example_tasks 2).calls.filterMap Call.seg_header = [{ start := 300, size := 108 }]) ∧
    (is_flagged (example_port true) 4000 wide_tasks 0 = true ∧
      (∀ c ∈ (esp_core_dump_write_binary (example_port true) 4000 example_sink () 0
        wide_tasks 1).calls, c.ret = ESP_OK) ∧
      (esp_core_dump_write_binary (example_port true) 4000 example_sink () 0
        wide_tasks 1).calls.filterMap Call.seg_header = []) := by
  decide

/-- C5, amended: in interrupt context, with a sink that never fails, some task
flagged as current and a saved task stack that passes
`esp_core_dump_mem_seg_is_sane`, the run succeeds and its calls are the optional
hooks, the header, the record of the highest flagged index `c` with
`stack_start = frame` and `stack_end = esp_core_dump_get_isr_stack_end()`, the
records of the other tasks, one memory segment (header, then bytes) with
`start` the original `stack_start` of task `c` and `size` the word-padded
32-bit length `esp_core_dump_get_stack_len` of its original stack, then `end`;
no other memory segment header is written. -/
theorem C5_interrupted_stack_segment {σ : Type} (P : Port) (frame : Nat)
    (w : core_dump_write_config_t σ) (priv : σ) (bad_tasks_num : Nat)
    (tasks : Int → core_dump_task_header_t) (task_num : Nat)
    (hw : AllOk w) (hisr : P.xPortInterruptedFromISRContext = true)
    (hflag : ∃ j : Nat, j < task_num ∧ is_flagged P frame tasks j = true)
    (hseg : P.esp_core_dump_mem_seg_is_sane
        (size_precompute P frame tasks task_num bad_tasks_num).interrupted_task_stack.start
        (size_precompute P frame tasks task_num bad_tasks_num).interrupted_task_stack.size
        = true) :
    ∃ (c : Nat) (dl : Nat) (hdr : core_dump_header_t),
      c < task_num ∧ is_flagged P frame tasks c = true ∧
      (∀ j : Nat, c < j → j < task_num → is_flagged P frame tasks j = false) ∧
      (esp_core_dump_write_binary P frame w priv bad_tasks_num tasks task_num).tasks c =
        { tcb_addr := (tasks c).tcb_addr
          stack_start := frame % U32
          stack_end := P.esp_core_dump_get_isr_stack_end % U32 } ∧
      (esp_core_dump_write_binary P frame w priv bad_tasks_num tasks task_num).err = ESP_OK ∧
      hdr.mem_segs_num = 1 ∧
      (esp_core_dump_write_binary P frame w priv bad_tasks_num tasks task_num).calls =
        (prepare_calls w dl ++ start_calls w) ++
          Call.write (Payload.hdr hdr) P.sizeof_core_dump_header_t ESP_OK ::
            (task_calls P
                (esp_core_dump_write_binary P frame w priv bad_tasks_num tasks task_num).tasks c
              ++ (other_task_ids c task_num).flatMap (fun (task_id : Nat) =>
                task_calls P
                  (esp_core_dump_write_binary P frame w priv bad_tasks_num tasks task_num).tasks
                  (task_id : Int))) ++
          seg_calls P
            { start := (tasks c).stack_start
              size := esp_core_dump_get_stack_len (tasks c).stack_start (tasks c).stack_end } ++
          end_calls w ∧
      (esp_core_dump_write_binary P frame w priv bad_tasks_num tasks task_num).calls.filterMap
          Call.seg_header =
        [{ start := (tasks c).stack_start
           size := esp_core_dump_get_stack_len (tasks c).stack_start (tasks c).stack_end }] := by
  rcases fault_index_cases P frame tasks task_num bad_tasks_num with ⟨_, _, h3⟩ |
    ⟨c, hc1, hc2, hc3, hc4, hc5⟩
  · obtain ⟨j, hj1, hj2⟩ := hflag
    rw [h3 j hj1] at hj2; exact absurd hj2 (by decide)
  have htasks := size_precompute_tasks_isr P frame tasks task_num bad_tasks_num hisr
  have hsegv := size_precompute_seg_isr P frame tasks task_num bad_tasks_num hisr
  rw [hc3] at htasks hsegv
  have hrej : seg_rejected P (size_precompute P frame tasks task_num bad_tasks_num) = false := by
    simp [seg_rejected, hseg]
  have hcalls : (esp_core_dump_write_binary P frame w priv bad_tasks_num tasks task_num).calls =
      ideal_calls P w priv task_num (size_precompute P frame tasks task_num bad_tasks_num) := by
    rcases write_pass_all_ok P w hw priv task_num
      (size_precompute P frame tasks task_num bad_tasks_num) with ⟨_, _, h⟩ | ⟨h1, _, _⟩
    · exact h
    · rw [hrej] at h1; exact absurd h1 (by decide)
  have herr : (esp_core_dump_write_binary P frame w priv bad_tasks_num tasks task_num).err =
      ESP_OK := by
    rcases write_pass_all_ok P w hw priv task_num
      (size_precompute P frame tasks task_num bad_tasks_num) with ⟨_, h, _⟩ | ⟨h1, _, _⟩
    · exact h
    · rw [hrej] at h1; exact absurd h1 (by decide)
  refine ⟨c, (size_precompute P frame tasks task_num bad_tasks_num).data_len,
    make_header P task_num
      (prepared_len w priv (size_precompute P frame tasks task_num bad_tasks_num)),
    hc1, hc4, hc5, ?_, herr, ?_, ?_, ?_⟩
  · show (size_precompute P frame tasks task_num bad_tasks_num).tasks c = _
    rw [htasks]; simp
  · simp [make_header, hisr]
  · rw [hcalls]
    show ideal_calls P w priv task_num _ =
      (prepare_calls w _ ++ start_calls w) ++ _ :: (task_calls P
        (size_precompute P frame tasks task_num bad_tasks_num).tasks c ++ _) ++ _ ++ _
    simp only [ideal_calls, body_calls, tail_calls, record_calls, hisr, if_true, hc2, hsegv,
      List.append_assoc, List.cons_append]
    rfl
  · rw [hcalls, ideal_calls_shape]
    simp only [List.filterMap_append, List.filterMap_cons, Call.seg_header,
      (seg_header_hooks w _).1, (seg_header_hooks w 0).2.1, (seg_header_hooks w 0).2.2,
      seg_header_record_calls, hisr, if_true, seg_header_seg_calls, hsegv, List.nil_append,
      List.append_nil]

/-- C5, witnessed in interrupt context on two tasks whose entry 1 is flagged. -/
theorem C5_interrupted_stack_segment_witness :
    AllOk example_sink ∧
    (example_port true).xPortInterruptedFromISRContext = true ∧
    (∃ j : Nat, j < 2 ∧ is_flagged (example_port true) 4000 example_tasks j = true) ∧
    (example_port true).esp_core_dump_mem_seg_is_sane
      (size_precompute (example_port true) 4000 example_tasks 2 0).interrupted_task_stack.start
      (size_precompute (example_port true) 4000 example_tasks 2 0).interrupted_task_stack.size
      = true ∧
    ∃ (c : Nat) (dl : Nat) (hdr : core_dump_header_t),
      c < 2 ∧ is_flagged (example_port true) 4000 example_tasks c = true ∧
      (∀ j : Nat, c < j → j < 2 → is_flagged (example_port true) 4000 example_tasks j = false) ∧
      (esp_core_dump_write_binary (example_port true) 4000 example_sink () 0
          example_tasks 2).tasks c =
        { tcb_addr := (example_tasks c).tcb_addr
          stack_start := 4000 % U32
          stack_end := (example_port true).esp_core_dump_get_isr_stack_end % U32 } ∧
      (esp_core_dump_write_binary (example_port true) 4000 example_sink () 0
          example_tasks 2).err = ESP_OK ∧
      hdr.mem_segs_num = 1 ∧
      (esp_core_dump_write_binary (example_port true) 4000 example_sink () 0
          example_tasks 2).calls =
        (prepare_calls example_sink dl ++ start_calls example_sink) ++
          Call.write (Payload.hdr hdr) (example_port true).sizeof_core_dump_header_t ESP_OK ::
            (task_calls (example_port true)
                (esp_core_dump_write_binary (example_port true) 4000 example_sink () 0
                  example_tasks 2).tasks c
              ++ (other_task_ids c 2).flatMap (fun (task_id : Nat) =>
                task_calls (example_port true)
                  (esp_core_dump_write_binary (example_port true) 4000 example_sink () 0
                    example_tasks 2).tasks
                  (task_id : Int))) ++
          seg_calls (example_port true)
            { start := (example_tasks c).stack_start
              size := esp_core_dump_get_stack_len (example_tasks c).stack_start
                (example_tasks c).stack_end } ++
          end_calls example_sink ∧
      (esp_core_dump_write_binary (example_port true) 4000 example_sink () 0
          example_tasks 2).calls.filterMap Call.seg_header =
        [{ start := (example_tasks c).stack_start
           size := esp_core_dump_get_stack_len (example_tasks c).stack_start
             (example_tasks c).stack_end }] :=
  ⟨example_sink_all_ok, rfl, ⟨1, by decide, by decide⟩, by decide,
    C5_interrupted_stack_segment (example_port true) 4000 example_sink () 0 example_tasks 2
      example_sink_all_ok rfl ⟨1, by decide, by decide⟩ (by decide)⟩

/-- C6, as stated, fails: in interrupt context, with a sink that never fails
and no task failing its check, the writer returns `ESP_FAIL` when the saved
task stack is rejected as a memory segment; and with five tasks of which only
index 2 is bad, a counter that holds `2^32 - 1` on entry is left at 0, which is
not one higher. -/
theorem C6_counterexample :
    AllOk example_sink ∧
    (bad_count (example_port true) 4000 wide_tasks 1 = 0 ∧
      (esp_core_dump_write_binary (example_port true) 4000 example_sink () 0
        wide_tasks 1).err = ESP_FAIL ∧
      ESP_FAIL ≠ ESP_OK) ∧
    (bad_count (example_port true) 4000 five_tasks 5 = 1 ∧
      (esp_core_dump_write_binary (example_port true) 4000 example_sink () 4294967295
        five_tasks 5).err = ESP_OK ∧
      (esp_core_dump_write_binary (example_port true) 4000 example_sink () 4294967295
        five_tasks 5).bad_tasks_num = 0 ∧
      (0 : Nat) ≠ 4294967295 + 1) :=
  ⟨example_sink_all_ok, ⟨by decide, by decide, by decide⟩,
    ⟨by decide, by decide, by decide, by decide⟩⟩

/-- C6, amended: for a snapshot of `task_num ≥ 1` tasks of which `bad_count`
fail the sanity check, with a sink that never fails and, in interrupt context,
a saved task stack that passes `esp_core_dump_mem_seg_is_sane`, the writer
returns `ESP_OK`, emits one record for every task of the snapshot, and leaves
the 32-bit counter `bad_tasks_num` at its value on entry plus `bad_count`,
modulo `2^32`: exactly `bad_count` higher than on entry when that sum is below
`2^32`. -/
theorem C6_bad_tasks_counted {σ : Type} (P : Port) (frame : Nat)
    (w : core_dump_write_config_t σ) (priv : σ) (bad_tasks_num : Nat)
    (tasks : Int → core_dump_task_header_t) (task_num : Nat)
    (hw : AllOk w) (hn : 0 < task_num) (hbad : bad_tasks_num < U32)
    (hseg : P.xPortInterruptedFromISRContext = true →
      P.esp_core_dump_mem_seg_is_sane
        (size_precompute P frame tasks task_num bad_tasks_num).interrupted_task_stack.start
        (size_precompute P frame tasks task_num bad_tasks_num).interrupted_task_stack.size
        = true) :
    (esp_core_dump_write_binary P frame w priv bad_tasks_num tasks task_num).err = ESP_OK ∧
    List.Perm
      ((esp_core_dump_write_binary P frame w priv bad_tasks_num tasks task_num).calls.filterMap
        Call.task_index)
      ((List.range task_num).map (fun (i : Nat) => (i : Int))) ∧
    (esp_core_dump_write_binary P frame w priv bad_tasks_num tasks task_num).bad_tasks_num =
      (bad_tasks_num + bad_count P frame tasks task_num) % U32 ∧
    (bad_tasks_num + bad_count P frame tasks task_num < U32 →
      (esp_core_dump_write_binary P frame w priv bad_tasks_num tasks task_num).bad_tasks_num =
        bad_tasks_num + bad_count P frame tasks task_num) := by
  have hrej : seg_rejected P (size_precompute P frame tasks task_num bad_tasks_num) = false := by
    unfold seg_rejected
    cases hisr : P.xPortInterruptedFromISRContext with
    | false => rfl
    | true => simp [hseg hisr]
  have hcount :
      (esp_core_dump_write_binary P frame w priv bad_tasks_num tasks task_num).bad_tasks_num =
        (bad_tasks_num + bad_count P frame tasks task_num) % U32 :=
    size_precompute_bad P frame tasks task_num bad_tasks_num hbad
  refine ⟨?_, ?_, hcount, fun hlt => by rw [hcount, Nat.mod_eq_of_lt hlt]⟩
  · rcases write_pass_all_ok P w hw priv task_num
      (size_precompute P frame tasks task_num bad_tasks_num) with ⟨_, h2, _⟩ | ⟨h1, _, _⟩
    · exact h2
    · rw [hrej] at h1; exact absurd h1 (by decide)
  · show List.Perm ((write_pass P w priv task_num _).2.calls.filterMap Call.task_index) _
    rw [task_index_all_ok P w hw]
    obtain ⟨c, hc1, hc2⟩ := fault_index_lt P frame tasks task_num bad_tasks_num hn
    rw [hc2]
    exact (fault_first_perm c task_num hc1).map (fun (i : Nat) => (i : Int))

/-- C6, witnessed in interrupt context on five tasks of which only index 2 is
bad, from a counter that holds 7 on entry. -/
theorem C6_bad_tasks_counted_witness :
    AllOk example_sink ∧ 0 < 5 ∧ 7 < U32 ∧
    bad_count (example_port true) 4000 five_tasks 5 = 1 ∧
    (esp_core_dump_write_binary (example_port true) 4000 example_sink () 7
      five_tasks 5).err = ESP_OK ∧
    List.Perm
      ((esp_core_dump_write_binary (example_port true) 4000 example_sink () 7
        five_tasks 5).calls.filterMap Call.task_index)
      ((List.range 5).map (fun (i : Nat) => (i : Int))) ∧
    (esp_core_dump_write_binary (example_port true) 4000 example_sink () 7
      five_tasks 5).bad_tasks_num =
        (7 + bad_count (example_port true) 4000 five_tasks 5) % U32 ∧
    (7 + bad_count (example_port true) 4000 five_tasks 5 < U32 →
      (esp_core_dump_write_binary (example_port true) 4000 example_sink () 7
        five_tasks 5).bad_tasks_num = 7 + bad_count (example_port true) 4000 five_tasks 5) :=
  ⟨example_sink_all_ok, by decide, by decide, by decide,
    C6_bad_tasks_counted (example_port true) 4000 example_sink () 7 five_tasks 5
      example_sink_all_ok (by decide) (by decide) (fun _ => by decide)⟩

/-- C7: in interrupt context with no task flagged (one task, capacity not
exceeded) the writer indexes `tasks` with `COREDUMP_CURR_TASK_NOT_FOUND`,
which is below the array. -/
theorem C7_sentinel_used_as_index :
    (esp_core_dump_write_binary (example_port true) 4000 example_sink () 0
        unflagged_tasks 1).idx = [0, COREDUMP_CURR_TASK_NOT_FOUND, 0] ∧
    COREDUMP_CURR_TASK_NOT_FOUND < 0 := by
  decide

/-- C8: if a recorded sink call (`prepare`, `start`, a `write` or `end`)
returned a code other than `ESP_OK`, then no call follows it in the run and
the writer returns exactly that code. -/
theorem C8_first_failure_returned {σ : Type} (P : Port) (frame : Nat)
    (w : core_dump_write_config_t σ) (priv : σ) (bad_tasks_num : Nat)
    (tasks : Int → core_dump_task_header_t) (task_num : Nat)
    (pre : List Call) (c : Call) (post : List Call)
    (hcalls : (esp_core_dump_write_binary P frame w priv bad_tasks_num tasks task_num).calls =
      pre ++ c :: post)
    (hfail : c.ret ≠ ESP_OK) :
    post = [] ∧
    (esp_core_dump_write_binary P frame w priv bad_tasks_num tasks task_num).err = c.ret :=
  calls_fail_last P w priv task_num (size_precompute P frame tasks task_num bad_tasks_num)
    pre c post hcalls hfail

/-- C8, witnessed on a sink that fails its third `write` (the TCB block of the
first record) with code 261. -/
theorem C8_first_failure_returned_witness :
    (esp_core_dump_write_binary (example_port false) 4000 failing_sink 0 0
        example_tasks 2).calls =
      [ Call.prepare 284 ESP_OK,
        Call.start ESP_OK,
        Call.write (Payload.hdr
          { data_len := 284, version := 1, tasks_num := 2, mem_segs_num := 0, tcb_sz := 12 })
          20 ESP_OK,
        Call.write (Payload.task 1 { tcb_addr := 7, stack_start := 300, stack_end := 405 })
          12 ESP_OK ] ++ Call.write (Payload.mem 7) 12 261 :: [] ∧
    (Call.write (Payload.mem 7) 12 261).ret ≠ ESP_OK ∧
    ([] : List Call) = [] ∧
    (esp_core_dump_write_binary (example_port false) 4000 failing_sink 0 0
        example_tasks 2).err = (Call.write (Payload.mem 7) 12 261).ret :=
  ⟨by decide, by decide,
    C8_first_failure_returned (example_port false) 4000 failing_sink 0 0 example_tasks 2
      [ Call.prepare 284 ESP_OK,
        Call.start ESP_OK,
        Call.write (Payload.hdr
          { data_len := 284, version := 1, tasks_num := 2, mem_segs_num := 0, tcb_sz := 12 })
          20 ESP_OK,
        Call.write (Payload.task 1 { tcb_addr := 7, stack_start := 300, stack_end := 405 })
          12 ESP_OK ]
      (Call.write (Payload.mem 7) 12 261) [] (by decide) (by decide)⟩

/-- C9: (a) on a segment that fails `esp_core_dump_mem_seg_is_sane`,
`esp_core_dump_save_mem_segment` returns `ESP_FAIL` and makes no sink call;
(b) in interrupt context, when the saved task stack fails that check and every
sink call of the run succeeded, `esp_core_dump_write_binary` returns
`ESP_FAIL`, its last call is the last write of the task records, and it never
calls `end`; (c) replacing the per-task check by one that reports other
validity results (and flags the same tasks as current) changes neither the
return code nor the sink calls. -/
theorem C9_rejected_segment_is_fatal {σ : Type} (P : Port) (frame : Nat)
    (w : core_dump_write_config_t σ) (priv : σ) (bad_tasks_num : Nat)
    (tasks : Int → core_dump_task_header_t) (task_num : Nat)
    (g : Nat → core_dump_task_header_t → task_check)
    (hg : ∀ f t, (g f t).is_current_task = (P.esp_core_dump_check_task f t).is_current_task) :
    (∀ (st : SinkState σ) (seg : core_dump_mem_seg_header_t),
      P.esp_core_dump_mem_seg_is_sane seg.start seg.size = false →
      esp_core_dump_save_mem_segment P w st seg = (ESP_FAIL, st)) ∧
    (P.xPortInterruptedFromISRContext = true →
      P.esp_core_dump_mem_seg_is_sane
        (size_precompute P frame tasks task_num bad_tasks_num).interrupted_task_stack.start
        (size_precompute P frame tasks task_num bad_tasks_num).interrupted_task_stack.size
        = false →
      (∀ c ∈ (esp_core_dump_write_binary P frame w priv bad_tasks_num tasks task_num).calls,
        c.ret = ESP_OK) →
      (esp_core_dump_write_binary P frame w priv bad_tasks_num tasks task_num).err = ESP_FAIL ∧
      (∃ (dl : Nat) (hdr : core_dump_header_t),
        (esp_core_dump_write_binary P frame w priv bad_tasks_num tasks task_num).calls =
          (prepare_calls w dl ++ start_calls w) ++
            Call.write (Payload.hdr hdr) P.sizeof_core_dump_header_t ESP_OK ::
              record_calls P task_num (size_precompute P frame tasks task_num bad_tasks_num)) ∧
      (∀ r, Call.end_ r ∉
        (esp_core_dump_write_binary P frame w priv bad_tasks_num tasks task_num).calls)) ∧
    ((esp_core_dump_write_binary { P with esp_core_dump_check_task := g } frame w priv
        bad_tasks_num tasks task_num).err =
      (esp_core_dump_write_binary P frame w priv bad_tasks_num tasks task_num).err ∧
     (esp_core_dump_write_binary { P with esp_core_dump_check_task := g } frame w priv
        bad_tasks_num tasks task_num).calls =
      (esp_core_dump_write_binary P frame w priv bad_tasks_num tasks task_num).calls) := by
  refine ⟨?_, ?_, ?_⟩
  · intro st seg hseg
    simp [esp_core_dump_save_mem_segment, hseg]
  · intro hisr hseg hok
    have hrej : seg_rejected P (size_precompute P frame tasks task_num bad_tasks_num) = true := by
      simp [seg_rejected, hisr, hseg]
    obtain ⟨h1, h2⟩ := rejected_segment_run P w priv task_num _ hrej hok
    refine ⟨h1, ⟨(size_precompute P frame tasks task_num bad_tasks_num).data_len,
      make_header P task_num
        (prepared_len w priv (size_precompute P frame tasks task_num bad_tasks_num)), ?_⟩, ?_⟩
    · show (write_pass P w priv task_num _).2.calls = _
      rw [h2]
      simp only [body_calls, List.append_assoc]
    · intro r
      show Call.end_ r ∉ (write_pass P w priv task_num _).2.calls
      rw [h2]
      exact head_calls_not_end P w task_num _ _ r
  · have hpp := size_precompute_check_irrelevant P g hg frame tasks task_num bad_tasks_num
    have hw : write_pass { P with esp_core_dump_check_task := g } w priv task_num
        (size_precompute { P with esp_core_dump_check_task := g } frame tasks task_num
          bad_tasks_num) =
        write_pass P w priv task_num (size_precompute P frame tasks task_num bad_tasks_num) := by
      rw [write_pass_check_irrelevant]
      exact write_pass_congr P w priv task_num _ _ hpp.1 hpp.2.1 hpp.2.2.1 hpp.2.2.2
    constructor
    · show (write_pass _ w priv task_num _).1 = (write_pass P w priv task_num _).1
      rw [hw]
    · show (write_pass _ w priv task_num _).2.calls = (write_pass P w priv task_num _).2.calls
      rw [hw]

/-- C9, witnessed in interrupt context on a current task whose 8192-byte stack
is rejected as a memory segment, with a task check that reports every task
invalid in place of the port's. -/
theorem C9_rejected_segment_is_fatal_witness :
    (∀ f t, (strict_check f t).is_current_task =
      ((example_port true).esp_core_dump_check_task f t).is_current_task) ∧
    (esp_core_dump_write_binary (example_port true) 4000 example_sink () 0
      wide_tasks 1).err = ESP_FAIL ∧
    (∀ r, Call.end_ r ∉
      (esp_core_dump_write_binary (example_port true) 4000 example_sink () 0
        wide_tasks 1).calls) ∧
    (esp_core_dump_write_binary
      { example_port true with esp_core_dump_check_task := strict_check } 4000 example_sink ()
      0 wide_tasks 1).err =
    (esp_core_dump_write_binary (example_port true) 4000 example_sink () 0
      wide_tasks 1).err :=
  ⟨fun _ _ => rfl,
    ((C9_rejected_segment_is_fatal (example_port true) 4000 example_sink () 0 wide_tasks 1
      strict_check (fun _ _ => rfl)).2.1 rfl (by decide) (by decide)).1,
    ((C9_rejected_segment_is_fatal (example_port true) 4000 example_sink () 0 wide_tasks 1
      strict_check (fun _ _ => rfl)).2.1 rfl (by decide) (by decide)).2.2,
    (C9_rejected_segment_is_fatal (example_port true) 4000 example_sink () 0 wide_tasks 1
      strict_check (fun _ _ => rfl)).2.2.1⟩

/-- C10: with the return codes erased, the sink calls of any run are an initial
part of: `prepare` (only if the hook is present), `start` (only if present),
the `write` of the core dump header, further `write` calls, `end` (only if
present); a run that returns `ESP_OK` made exactly these calls, each present
optional hook once. -/
theorem C10_call_order {σ : Type} (P : Port) (frame : Nat)
    (w : core_dump_write_config_t σ) (priv : σ) (bad_tasks_num : Nat)
    (tasks : Int → core_dump_task_header_t) (task_num : Nat) :
    ∃ (data_len : Nat) (hdr : core_dump_header_t) (ws : List Call),
      (∀ c ∈ ws, c.is_write = true) ∧
      List.IsPrefix
        ((esp_core_dump_write_binary P frame w priv bad_tasks_num tasks task_num).calls.map
          (fun c => c.with_ret ESP_OK))
        ((prepare_calls w data_len ++ start_calls w) ++
          (Call.write (Payload.hdr hdr) P.sizeof_core_dump_header_t ESP_OK :: ws) ++
          end_calls w) ∧
      ((esp_core_dump_write_binary P frame w priv bad_tasks_num tasks task_num).err = ESP_OK →
        (esp_core_dump_write_binary P frame w priv bad_tasks_num tasks task_num).calls =
          (prepare_calls w data_len ++ start_calls w) ++
            (Call.write (Payload.hdr hdr) P.sizeof_core_dump_header_t ESP_OK :: ws) ++
            end_calls w) := by
  refine ⟨(size_precompute P frame tasks task_num bad_tasks_num).data_len,
    make_header P task_num
      (prepared_len w priv (size_precompute P frame tasks task_num bad_tasks_num)),
    _, middle_calls_write P task_num (size_precompute P frame tasks task_num bad_tasks_num), ?_⟩
  rw [← ideal_calls_shape P w priv task_num
    (size_precompute P frame tasks task_num bad_tasks_num)]
  exact calls_prefix_ideal P w priv task_num
    (size_precompute P frame tasks task_num bad_tasks_num)

/-- C11: for a core dump partition of capacity at least 4 whose first word,
read through a first mapping that succeeded, declares a size below 4 or above
the capacity, `esp_core_dump_image_get` returns `ESP_ERR_INVALID_SIZE`; the
only mapping call is the one of 4 bytes, and it has been unmapped. -/
theorem C11_bad_declared_size_rejected (F : Flash) (a s : Nat) (part : esp_partition_t)
    (hpart : F.esp_partition_find_first = some part) (hc : 4 ≤ part.size)
    (hm1 : (F.esp_partition_mmap 0 0 4).err = ESP_OK)
    (hd : read_u32 F.data 0 < 4 ∨ part.size < read_u32 F.data 0) :
    (esp_core_dump_image_get F (some a) (some s)).err = ESP_ERR_INVALID_SIZE ∧
    (esp_core_dump_image_get F (some a) (some s)).maps =
      [MapCall.mmap 0 4 ESP_OK (F.esp_partition_mmap 0 0 4).handle,
        MapCall.munmap (F.esp_partition_mmap 0 0 4).handle] := by
  rw [image_get_bad_size F a s part hpart hc hm1 hd]
  exact ⟨rfl, rfl⟩

/-- C11, witnessed on a partition of 64 bytes whose first word declares 3 bytes. -/
theorem C11_bad_declared_size_rejected_witness :
    (example_flash checksum_mode.crc32 64 (declared_only 3)).esp_partition_find_first =
      some { address := 1114112, size := 64 } ∧
    4 ≤ (64 : Nat) ∧
    ((example_flash checksum_mode.crc32 64 (declared_only 3)).esp_partition_mmap 0 0 4).err =
      ESP_OK ∧
    (read_u32 (example_flash checksum_mode.crc32 64 (declared_only 3)).data 0 < 4 ∨
      64 < read_u32 (example_flash checksum_mode.crc32 64 (declared_only 3)).data 0) ∧
    (esp_core_dump_image_get (example_flash checksum_mode.crc32 64 (declared_only 3))
      (some 11) (some 22)).err = ESP_ERR_INVALID_SIZE ∧
    (esp_core_dump_image_get (example_flash checksum_mode.crc32 64 (declared_only 3))
      (some 11) (some 22)).maps =
      [MapCall.mmap 0 4 ESP_OK
          ((example_flash checksum_mode.crc32 64 (declared_only 3)).esp_partition_mmap
            0 0 4).handle,
        MapCall.munmap
          ((example_flash checksum_mode.crc32 64 (declared_only 3)).esp_partition_mmap
            0 0 4).handle] :=
  ⟨rfl, by decide, rfl, by decide,
    C11_bad_declared_size_rejected (example_flash checksum_mode.crc32 64 (declared_only 3))
      11 22 { address := 1114112, size := 64 } rfl (by decide) rfl (by decide)⟩

/-- C12: in CRC32 mode, for a partition whose declared size `d` is at least 4
and at most the capacity and whose two mappings succeed,
`esp_core_dump_image_get` returns `ESP_OK` with `*out_addr` the partition's
address and `*out_size = d` when the 32-bit word in the last 4 bytes of the
first `d` bytes equals `crc32_le(0, ...)` over the first `d - 4` bytes, and
`ESP_ERR_INVALID_CRC` when it does not; so it returns `ESP_OK` exactly when
the two are equal. -/
theorem C12_crc32_verdict (F : Flash) (a s : Nat) (part : esp_partition_t)
    (hmode : F.checksum = checksum_mode.crc32)
    (hpart : F.esp_partition_find_first = some part) (hc : 4 ≤ part.size)
    (hm1 : (F.esp_partition_mmap 0 0 4).err = ESP_OK)
    (hd1 : 4 ≤ read_u32 F.data 0) (hd2 : read_u32 F.data 0 ≤ part.size)
    (hm2 : (F.esp_partition_mmap 1 0 (read_u32 F.data 0)).err = ESP_OK) :
    (read_u32 F.data ((read_u32 F.data 0 : Int) - 4) =
        F.crc32_le 0 F.data (read_u32 F.data 0 - 4) →
      (esp_core_dump_image_get F (some a) (some s)).err = ESP_OK ∧
      (esp_core_dump_image_get F (some a) (some s)).out_addr = some part.address ∧
      (esp_core_dump_image_get F (some a) (some s)).out_size = some (read_u32 F.data 0)) ∧
    (read_u32 F.data ((read_u32 F.data 0 : Int) - 4) ≠
        F.crc32_le 0 F.data (read_u32 F.data 0 - 4) →
      (esp_core_dump_image_get F (some a) (some s)).err = ESP_ERR_INVALID_CRC) ∧
    ((esp_core_dump_image_get F (some a) (some s)).err = ESP_OK ↔
      read_u32 F.data ((read_u32 F.data 0 : Int) - 4) =
        F.crc32_le 0 F.data (read_u32 F.data 0 - 4)) := by
  rw [image_get_checked F a s part hpart hc hm1 hd1 hd2, if_neg (not_not.mpr hm2),
    checksum_step_crc32 F _ hmode hd1 (read_u32_lt F.data 0)]
  by_cases h : read_u32 F.data ((read_u32 F.data 0 : Int) - 4) =
      F.crc32_le 0 F.data (read_u32 F.data 0 - 4)
  · simp [h]
  · have hne : ESP_ERR_INVALID_CRC ≠ ESP_OK := by decide
    simp [h, hne]

set_option maxRecDepth 100000 in
/-- C12, witnessed on a 12-byte image with a matching CRC-32 in a partition of
64 bytes. -/
theorem C12_crc32_verdict_witness :
    (example_flash checksum_mode.crc32 64 example_image).checksum = checksum_mode.crc32 ∧
    (example_flash checksum_mode.crc32 64 example_image).esp_partition_find_first =
      some { address := 1114112, size := 64 } ∧
    4 ≤ read_u32 (example_flash checksum_mode.crc32 64 example_image).data 0 ∧
    read_u32 (example_flash checksum_mode.crc32 64 example_image).data 0 ≤ 64 ∧
    read_u32 example_image 8 = crc32_le_model 0 example_image 8 ∧
    (esp_core_dump_image_get (example_flash checksum_mode.crc32 64 example_image)
      (some 11) (some 22)).err = ESP_OK ∧
    (esp_core_dump_image_get (example_flash checksum_mode.crc32 64 example_image)
      (some 11) (some 22)).out_addr = some 1114112 ∧
    (esp_core_dump_image_get (example_flash checksum_mode.crc32 64 example_image)
      (some 11) (some 22)).out_size = some 12 :=
  ⟨rfl, rfl, by decide, by decide, by decide,
    (C12_crc32_verdict (example_flash checksum_mode.crc32 64 example_image) 11 22
      { address := 1114112, size := 64 } rfl rfl (by decide) rfl (by decide) (by decide)
      rfl).1 (by decide)⟩

/-- C13: in digest mode a declared size of 16 passes the size validation
(`4 ≤ 16 ≤ 64`), yet with `COREDUMP_SHA256_LEN = 32` the length handed to
`esp_core_dump_sha`, `16 - 32` in `size_t` arithmetic, wraps to `4294967280`
and the stored digest is looked up 16 bytes before the mapping. -/
theorem C13_digest_length_underflows :
    (esp_core_dump_image_get (example_flash checksum_mode.sha256 64 (declared_only 16))
      (some 11) (some 22)).out_size = some 16 ∧
    (esp_core_dump_image_get (example_flash checksum_mode.sha256 64 (declared_only 16))
      (some 11) (some 22)).checksum_len = some 4294967280 ∧
    (esp_core_dump_image_get (example_flash checksum_mode.sha256 64 (declared_only 16))
      (some 11) (some 22)).checksum_field = some (-16) ∧
    (esp_core_dump_image_get (example_flash checksum_mode.sha256 64 (declared_only 16))
      (some 11) (some 22)).maps =
      [MapCall.mmap 0 4 ESP_OK 1, MapCall.munmap 1, MapCall.mmap 0 16 ESP_OK 2,
        MapCall.munmap 2] := by
  decide

/-- C14: on every path through `esp_core_dump_image_get` the mapping calls keep
the discipline: a mapping is requested only while none is held, every mapping
that was established is unmapped, with its own handle, and none is held at
return.  The calls are one of: none; a first mapping of 4 bytes that failed;
that mapping and its release; these two and a second mapping that failed;
these two, the second mapping and its release. -/
theorem C14_mappings_released (F : Flash) (out_addr out_size : Option Nat) :
    map_discipline none (esp_core_dump_image_get F out_addr out_size).maps = true ∧
    ((esp_core_dump_image_get F out_addr out_size).maps = [] ∨
     (∃ e h, e ≠ ESP_OK ∧
        (esp_core_dump_image_get F out_addr out_size).maps = [MapCall.mmap 0 4 e h]) ∨
     (∃ h, (esp_core_dump_image_get F out_addr out_size).maps =
        [MapCall.mmap 0 4 ESP_OK h, MapCall.munmap h]) ∨
     (∃ h d e h2, e ≠ ESP_OK ∧
        (esp_core_dump_image_get F out_addr out_size).maps =
          [MapCall.mmap 0 4 ESP_OK h, MapCall.munmap h, MapCall.mmap 0 d e h2]) ∨
     (∃ h d h2, (esp_core_dump_image_get F out_addr out_size).maps =
        [MapCall.mmap 0 4 ESP_OK h, MapCall.munmap h, MapCall.mmap 0 d ESP_OK h2,
          MapCall.munmap h2])) := by
  cases out_addr with
  | none => rw [image_get_null F _ _ (Or.inl rfl)]; exact ⟨rfl, Or.inl rfl⟩
  | some a =>
  cases out_size with
  | none => rw [image_get_null F _ _ (Or.inr rfl)]; exact ⟨rfl, Or.inl rfl⟩
  | some s =>
  cases hpart : F.esp_partition_find_first with
  | none => rw [image_get_no_partition F a s hpart]; exact ⟨rfl, Or.inl rfl⟩
  | some part =>
  by_cases hc : part.size < 4
  · rw [image_get_small_partition F a s part hpart hc]; exact ⟨rfl, Or.inl rfl⟩
  have hc4 : 4 ≤ part.size := by omega
  by_cases hm1 : (F.esp_partition_mmap 0 0 4).err = ESP_OK
  swap
  · rw [image_get_first_mmap_fails F a s part hpart hc4 hm1]
    refine ⟨?_, Or.inr (Or.inl ⟨_, _, hm1, rfl⟩)⟩
    simp [map_discipline, hm1]
  by_cases hd : read_u32 F.data 0 < 4 ∨ part.size < read_u32 F.data 0
  · rw [image_get_bad_size F a s part hpart hc4 hm1 hd]
    refine ⟨?_, Or.inr (Or.inr (Or.inl ⟨_, rfl⟩))⟩
    simp [map_discipline]
  have hd1 : 4 ≤ read_u32 F.data 0 := by omega
  have hd2 : read_u32 F.data 0 ≤ part.size := by omega
  rw [image_get_checked F a s part hpart hc4 hm1 hd1 hd2]
  by_cases hm2 : (F.esp_partition_mmap 1 0 (read_u32 F.data 0)).err = ESP_OK
  · rw [if_neg (not_not.mpr hm2)]
    refine ⟨?_, Or.inr (Or.inr (Or.inr (Or.inr ⟨_, _, _, rfl⟩)))⟩
    simp [map_discipline]
  · rw [if_pos hm2]
    refine ⟨?_, Or.inr (Or.inr (Or.inr (Or.inl ⟨_, _, _, _, hm2, rfl⟩)))⟩
    simp [map_discipline, hm2]

set_option maxRecDepth 100000 in
/-- C15, as stated, fails: the codes are not distinct for each check.  With
both pointers set and a partition of 64 bytes, a first mapping that fails with
the value of `ESP_ERR_INVALID_CRC` makes the call return `ESP_ERR_INVALID_CRC`
though no checksum was computed, the code a corrupted image gets from the
checksum comparison; and a first mapping that fails with the value of
`ESP_ERR_INVALID_ARG` makes it return the code of a `NULL` pointer. -/
theorem C15_counterexample :
    ((esp_core_dump_image_get (failing_map_flash ESP_ERR_INVALID_CRC) (some 0) (some 0)).err =
        ESP_ERR_INVALID_CRC ∧
      (esp_core_dump_image_get (failing_map_flash ESP_ERR_INVALID_CRC) (some 0) (some 0)).maps =
        [MapCall.mmap 0 4 ESP_ERR_INVALID_CRC 0] ∧
      (esp_core_dump_image_get (failing_map_flash ESP_ERR_INVALID_CRC) (some 0)
        (some 0)).checksum_len = none) ∧
    ((esp_core_dump_image_get
        (example_flash checksum_mode.crc32 64 (Function.update example_image 5 0))
        (some 0) (some 0)).err = ESP_ERR_INVALID_CRC ∧
      (esp_core_dump_image_get
        (example_flash checksum_mode.crc32 64 (Function.update example_image 5 0))
        (some 0) (some 0)).checksum_len = some 8) ∧
    ((esp_core_dump_image_get (failing_map_flash ESP_ERR_INVALID_ARG) (some 0) (some 0)).err =
        ESP_ERR_INVALID_ARG ∧
      (esp_core_dump_image_get (failing_map_flash ESP_ERR_INVALID_ARG) (some 0) (some 0)).maps =
        [MapCall.mmap 0 4 ESP_ERR_INVALID_ARG 0] ∧
      (esp_core_dump_image_get (failing_map_flash ESP_ERR_INVALID_ARG) none (some 0)).err =
        ESP_ERR_INVALID_ARG ∧
      (esp_core_dump_image_get (failing_map_flash ESP_ERR_INVALID_ARG) none (some 0)).maps =
        []) :=
  ⟨⟨by decide, by decide, by decide⟩, ⟨by decide, by decide⟩,
    ⟨by decide, by decide, by decide, by decide⟩⟩

/-- C15, amended: `esp_core_dump_image_get` reports the first failing check, in
this order: `ESP_ERR_INVALID_ARG` if either output pointer is `NULL` (no
mapping is requested); else `ESP_ERR_NOT_FOUND` if there is no core dump
partition; else `ESP_ERR_INVALID_SIZE` if the partition is smaller than one
word, or if the declared size, once read through the first mapping, is below 4
or above the capacity; else the code of the mapping that failed, the first or,
for a declared size in bounds, the second, returned as `esp_partition_mmap`
gave it; else `ESP_ERR_INVALID_CRC` if the stored checksum differs from the
computed one (in CRC32 mode the word at `d - 4` against `crc32_le` of the
first `d - 4` bytes, in SHA256 mode some byte of the `COREDUMP_SHA256_LEN`
bytes at `d - COREDUMP_SHA256_LEN` against the digest `esp_core_dump_sha`
computed); else `ESP_OK`.  The five fixed codes are pairwise distinct, a
failed mapping has a code other than `ESP_OK`, and `ESP_OK` is returned only if
every check passed. -/
theorem C15_first_failing_check (F : Flash) (out_addr out_size : Option Nat) :
    (ESP_ERR_INVALID_ARG ≠ ESP_ERR_NOT_FOUND ∧ ESP_ERR_INVALID_ARG ≠ ESP_ERR_INVALID_SIZE ∧
      ESP_ERR_INVALID_ARG ≠ ESP_ERR_INVALID_CRC ∧ ESP_ERR_INVALID_ARG ≠ ESP_OK ∧
      ESP_ERR_NOT_FOUND ≠ ESP_ERR_INVALID_SIZE ∧ ESP_ERR_NOT_FOUND ≠ ESP_ERR_INVALID_CRC ∧
      ESP_ERR_NOT_FOUND ≠ ESP_OK ∧ ESP_ERR_INVALID_SIZE ≠ ESP_ERR_INVALID_CRC ∧
      ESP_ERR_INVALID_SIZE ≠ ESP_OK ∧ ESP_ERR_INVALID_CRC ≠ ESP_OK) ∧
    ((out_addr = none ∨ out_size = none) →
      (esp_core_dump_image_get F out_addr out_size).err = ESP_ERR_INVALID_ARG ∧
      (esp_core_dump_image_get F out_addr out_size).maps = []) ∧
    (out_addr ≠ none → out_size ≠ none → F.esp_partition_find_first = none →
      (esp_core_dump_image_get F out_addr out_size).err = ESP_ERR_NOT_FOUND) ∧
    (∀ part : esp_partition_t, out_addr ≠ none → out_size ≠ none →
      F.esp_partition_find_first = some part →
      ((part.size < 4 ∨
          ((F.esp_partition_mmap 0 0 4).err = ESP_OK ∧
            (read_u32 F.data 0 < 4 ∨ part.size < read_u32 F.data 0))) →
        (esp_core_dump_image_get F out_addr out_size).err = ESP_ERR_INVALID_SIZE) ∧
      (4 ≤ part.size → (F.esp_partition_mmap 0 0 4).err ≠ ESP_OK →
        (esp_core_dump_image_get F out_addr out_size).err = (F.esp_partition_mmap 0 0 4).err) ∧
      (4 ≤ part.size → (F.esp_partition_mmap 0 0 4).err = ESP_OK →
        4 ≤ read_u32 F.data 0 → read_u32 F.data 0 ≤ part.size →
        ((F.esp_partition_mmap 1 0 (read_u32 F.data 0)).err ≠ ESP_OK →
          (esp_core_dump_image_get F out_addr out_size).err =
            (F.esp_partition_mmap 1 0 (read_u32 F.data 0)).err) ∧
        ((F.esp_partition_mmap 1 0 (read_u32 F.data 0)).err = ESP_OK →
          (F.checksum = checksum_mode.crc32 →
            (read_u32 F.data ((read_u32 F.data 0 : Int) - 4) ≠
                F.crc32_le 0 F.data (read_u32 F.data 0 - 4) →
              (esp_core_dump_image_get F out_addr out_size).err = ESP_ERR_INVALID_CRC) ∧
            (read_u32 F.data ((read_u32 F.data 0 : Int) - 4) =
                F.crc32_le 0 F.data (read_u32 F.data 0 - 4) →
              (esp_core_dump_image_get F out_addr out_size).err = ESP_OK)) ∧
          (F.checksum = checksum_mode.sha256 →
            ((∃ i : Nat, i < F.COREDUMP_SHA256_LEN ∧
                F.data ((read_u32 F.data 0 : Int) - (F.COREDUMP_SHA256_LEN : Int) + (i : Int))
                    % 256 ≠
                  F.esp_core_dump_sha F.data
                    ((read_u32 F.data 0 + U32 - F.COREDUMP_SHA256_LEN % U32) % U32) i % 256) →
              (esp_core_dump_image_get F out_addr out_size).err = ESP_ERR_INVALID_CRC) ∧
            ((∀ i : Nat, i < F.COREDUMP_SHA256_LEN →
                F.data ((read_u32 F.data 0 : Int) - (F.COREDUMP_SHA256_LEN : Int) + (i : Int))
                    % 256 =
                  F.esp_core_dump_sha F.data
                    ((read_u32 F.data 0 + U32 - F.COREDUMP_SHA256_LEN % U32) % U32) i % 256) →
              (esp_core_dump_image_get F out_addr out_size).err = ESP_OK))))) ∧
    ((esp_core_dump_image_get F out_addr out_size).err = ESP_OK →
      out_addr ≠ none ∧ out_size ≠ none ∧
      ∃ part : esp_partition_t, F.esp_partition_find_first = some part ∧ 4 ≤ part.size ∧
        (F.esp_partition_mmap 0 0 4).err = ESP_OK ∧
        4 ≤ read_u32 F.data 0 ∧ read_u32 F.data 0 ≤ part.size ∧
        (F.esp_partition_mmap 1 0 (read_u32 F.data 0)).err = ESP_OK ∧
        (F.checksum = checksum_mode.crc32 →
          read_u32 F.data ((read_u32 F.data 0 : Int) - 4) =
            F.crc32_le 0 F.data (read_u32 F.data 0 - 4)) ∧
        (F.checksum = checksum_mode.sha256 →
          ∀ i : Nat, i < F.COREDUMP_SHA256_LEN →
            F.data ((read_u32 F.data 0 : Int) - (F.COREDUMP_SHA256_LEN : Int) + (i : Int))
                % 256 =
              F.esp_core_dump_sha F.data
                ((read_u32 F.data 0 + U32 - F.COREDUMP_SHA256_LEN % U32) % U32) i % 256)) := by
  have hlt := read_u32_lt F.data 0
  refine ⟨by decide, ?_, ?_, ?_, ?_⟩
  · intro h
    rw [image_get_null F _ _ h]
    exact ⟨rfl, rfl⟩
  · intro ha hs hpart
    obtain ⟨a, rfl⟩ := Option.ne_none_iff_exists'.mp ha
    obtain ⟨s, rfl⟩ := Option.ne_none_iff_exists'.mp hs
    rw [image_get_no_partition F a s hpart]
  · intro part ha hs hpart
    obtain ⟨a, rfl⟩ := Option.ne_none_iff_exists'.mp ha
    obtain ⟨s, rfl⟩ := Option.ne_none_iff_exists'.mp hs
    refine ⟨?_, ?_, ?_⟩
    · intro h
      by_cases hc : part.size < 4
      · rw [image_get_small_partition F a s part hpart hc]
      · rcases h with h | ⟨hm1, hd⟩
        · exact absurd h hc
        · rw [image_get_bad_size F a s part hpart (by omega) hm1 hd]
    · intro hc hm1
      rw [image_get_first_mmap_fails F a s part hpart hc hm1]
    · intro hc hm1 hd1 hd2
      rw [image_get_checked F a s part hpart hc hm1 hd1 hd2]
      refine ⟨?_, ?_⟩
      · intro hm2
        rw [if_pos hm2]
      · intro hm2
        rw [if_neg (not_not.mpr hm2)]
        refine ⟨fun hmode => ⟨?_, ?_⟩, fun hmode => ⟨?_, ?_⟩⟩
        · intro hne
          have hcs := (checksum_mismatch_crc32 F _ hmode hd1 hlt).mpr hne
          simp only [hcs, if_true]
        · intro heq
          have hcs : (checksum_step F (read_u32 F.data 0)).2.2 = false := by
            rw [← Bool.not_eq_true, checksum_mismatch_crc32 F _ hmode hd1 hlt]
            exact not_not.mpr heq
          simp only [hcs, Bool.false_eq_true, if_false]
        · intro hne
          have hcs := (checksum_mismatch_sha256 F _ hmode hlt).mpr hne
          simp only [hcs, if_true]
        · intro heq
          have hcs : (checksum_step F (read_u32 F.data 0)).2.2 = false := by
            rw [← Bool.not_eq_true, checksum_mismatch_sha256 F _ hmode hlt]
            rintro ⟨i, hi, hne⟩
            exact hne (heq i hi)
          simp only [hcs, Bool.false_eq_true, if_false]
  · intro hok
    obtain ⟨a, s, part, ha, hs, hpart, hc, hm1, hd1, hd2, hm2, hcs⟩ :=
      image_get_ok_inv F out_addr out_size hok
    subst ha hs
    refine ⟨by simp, by simp, part, hpart, hc, hm1, hd1, hd2, hm2, ?_, ?_⟩
    · intro hmode
      by_contra hne
      rw [(checksum_mismatch_crc32 F _ hmode hd1 hlt).mpr hne] at hcs
      exact absurd hcs (by decide)
    · intro hmode i hi
      by_contra hne
      rw [(checksum_mismatch_sha256 F _ hmode hlt).mpr ⟨i, hi, hne⟩] at hcs
      exact absurd hcs (by decide)

/-- C16: in CRC32 mode, with `crc32_le` the 32-bit cyclic checksum, when an
image verifies (`ESP_OK`) and one byte at a position `p` with
`4 ≤ p < d - 4` (inside the checksum input, outside the size word) is replaced
by a different value, `esp_core_dump_image_get` returns
`ESP_ERR_INVALID_CRC`. -/
theorem C16_single_byte_change_detected (F : Flash) (out_addr out_size : Option Nat)
    (p v : Nat) (hmode : F.checksum = checksum_mode.crc32)
    (hcrc : F.crc32_le = crc32_le_model)
    (hok : (esp_core_dump_image_get F out_addr out_size).err = ESP_OK)
    (hp1 : 4 ≤ p) (hp2 : p + 4 < read_u32 F.data 0)
    (hv : v % 256 ≠ F.data (p : Int) % 256) :
    (esp_core_dump_image_get { F with data := Function.update F.data (p : Int) v }
      out_addr out_size).err = ESP_ERR_INVALID_CRC := by
  obtain ⟨a, s, part, ha, hs, hpart, hc, hm1, hd1, hd2, hm2, hcs⟩ :=
    image_get_ok_inv F out_addr out_size hok
  subst ha hs
  have hd0 : read_u32 (Function.update F.data (p : Int) v) 0 = read_u32 F.data 0 :=
    read_u32_update F.data 0 p v (by omega)
  have htail : read_u32 (Function.update F.data (p : Int) v) ((read_u32 F.data 0 : Int) - 4) =
      read_u32 F.data ((read_u32 F.data 0 : Int) - 4) :=
    read_u32_update F.data _ p v (by omega)
  rw [checksum_step_crc32 F _ hmode hd1 (read_u32_lt F.data 0)] at hcs
  simp only [decide_eq_false_iff_not, not_not, hcrc] at hcs
  have hdet : crc32_le_model 0 (Function.update F.data (p : Int) v) (read_u32 F.data 0 - 4) ≠
      crc32_le_model 0 F.data (read_u32 F.data 0 - 4) := by
    apply crc32_le_model_detects 0 _ _ p _ (by omega)
    · rw [Function.update_same]; exact hv
    · intro i hi
      rw [Function.update_noteq (by exact_mod_cast hi)]
  rw [image_get_checked { F with data := Function.update F.data (p : Int) v } a s part hpart hc
    hm1 (by rw [hd0]; exact hd1) (by rw [hd0]; exact hd2)]
  simp only [hd0]
  rw [if_neg (not_not.mpr hm2),
    checksum_step_crc32 { F with data := Function.update F.data (p : Int) v } _ hmode hd1
      (read_u32_lt F.data 0)]
  simp only [htail, hcrc, hcs]
  rw [if_pos]
  simp only [decide_eq_true_eq]
  exact fun h => hdet h.symm

set_option maxRecDepth 100000 in
/-- C16, witnessed on the 12-byte image: replacing the byte `32` at position 5
by `00` turns `ESP_OK` into `ESP_ERR_INVALID_CRC`. -/
theorem C16_single_byte_change_detected_witness :
    (esp_core_dump_image_get (example_flash checksum_mode.crc32 64 example_image)
      (some 11) (some 22)).err = ESP_OK ∧
    4 ≤ 5 ∧ 5 + 4 < read_u32 (example_flash checksum_mode.crc32 64 example_image).data 0 ∧
    0 % 256 ≠ (example_flash checksum_mode.crc32 64 example_image).data ((5 : Nat) : Int) % 256 ∧
    (esp_core_dump_image_get
      { example_flash checksum_mode.crc32 64 example_image with
        data := Function.update (example_flash checksum_mode.crc32 64 example_image).data
          ((5 : Nat) : Int) 0 }
      (some 11) (some 22)).err = ESP_ERR_INVALID_CRC :=
  ⟨by decide, by decide, by decide, by decide,
    C16_single_byte_change_detected (example_flash checksum_mode.crc32 64 example_image)
      (some 11) (some 22) 5 0 rfl rfl (by decide) (by decide) (by decide) (by decide)⟩

/-- C17, as stated, fails: in interrupt context the header carries
`mem_segs_num = 1`, but when the saved task stack fails
`esp_core_dump_mem_seg_is_sane` no memory segment is emitted after the tasks
(the run stops with `ESP_FAIL`). -/
theorem C17_counterexample :
    (esp_core_dump_write_binary (example_port true) 4000 example_sink () 0
      wide_tasks 1).calls.filterMap Call.header =
      [{ data_len := 9244, version := 1, tasks_num := 1, mem_segs_num := 1, tcb_sz := 12 }] ∧
    (esp_core_dump_write_binary (example_port true) 4000 example_sink () 0
      wide_tasks 1).calls.filterMap Call.seg_header = [] ∧
    (∀ c ∈ (esp_core_dump_write_binary (example_port true) 4000 example_sink () 0
      wide_tasks 1).calls, c.ret = ESP_OK) := by
  decide

/-- C17, amended: a header written by `esp_core_dump_write_binary` has
`version = COREDUMP_VERSION`, `tasks_num` the count of the snapshot, `tcb_sz`
the smallest multiple of 4 that is at least `COREDUMP_TCB_SIZE` (which fits 32
bits with its padding), and `mem_segs_num` 0 or 1; `mem_segs_num` is 1 exactly
when the interrupt-context query is true, which is exactly when the size
pre-pass added a memory segment header and the interrupt stack to the total;
and in a run that returns `ESP_OK` the memory segment is written, after the
task records and before `end`, exactly when `mem_segs_num` is 1. -/
theorem C17_header_fields {σ : Type} (P : Port) (frame : Nat)
    (w : core_dump_write_config_t σ) (priv : σ) (bad_tasks_num : Nat)
    (tasks : Int → core_dump_task_header_t) (task_num : Nat) (hdr : core_dump_header_t)
    (hh : hdr ∈
      (esp_core_dump_write_binary P frame w priv bad_tasks_num tasks task_num).calls.filterMap
        Call.header)
    (htcb : P.COREDUMP_TCB_SIZE + 3 < 4294967296) :
    hdr.version = P.COREDUMP_VERSION ∧ hdr.tasks_num = task_num ∧
    (hdr.tcb_sz % 4 = 0 ∧ P.COREDUMP_TCB_SIZE ≤ hdr.tcb_sz ∧
      hdr.tcb_sz < P.COREDUMP_TCB_SIZE + 4) ∧
    (hdr.mem_segs_num = 0 ∨ hdr.mem_segs_num = 1) ∧
    (hdr.mem_segs_num = 1 ↔ P.esp_core_dump_in_isr_context = true) ∧
    (size_precompute P frame tasks task_num bad_tasks_num).data_len =
      (records_len P tasks task_num +
        (if hdr.mem_segs_num = 1 then
          P.sizeof_core_dump_mem_seg_header_t +
            esp_core_dump_get_stack_len (frame % U32) (P.esp_core_dump_get_isr_stack_end % U32)
         else 0) +
        P.sizeof_core_dump_header_t) % U32 ∧
    ((esp_core_dump_write_binary P frame w priv bad_tasks_num tasks task_num).err = ESP_OK →
      (esp_core_dump_write_binary P frame w priv bad_tasks_num tasks task_num).calls =
        (prepare_calls w (size_precompute P frame tasks task_num bad_tasks_num).data_len ++
            start_calls w) ++
          (Call.write (Payload.hdr hdr) P.sizeof_core_dump_header_t ESP_OK ::
            (record_calls P task_num (size_precompute P frame tasks task_num bad_tasks_num) ++
              (if hdr.mem_segs_num = 1 then
                seg_calls P
                  (size_precompute P frame tasks task_num bad_tasks_num).interrupted_task_stack
               else []))) ++
          end_calls w) := by
  have hhdr := header_in_calls P w priv task_num
    (size_precompute P frame tasks task_num bad_tasks_num) hdr hh
  subst hhdr
  have hseg : ((make_header P task_num (prepared_len w priv
      (size_precompute P frame tasks task_num bad_tasks_num))).mem_segs_num = 1) ↔
      P.xPortInterruptedFromISRContext = true := by
    simp only [make_header]
    cases P.xPortInterruptedFromISRContext <;> simp
  refine ⟨rfl, rfl, get_tcb_len_round P htcb, ?_, hseg, ?_, ?_⟩
  · simp only [make_header]
    cases P.xPortInterruptedFromISRContext <;> simp
  · rw [size_precompute_data_len]
    cases hisr : P.xPortInterruptedFromISRContext <;> simp [make_header, hisr]
  · intro hok
    have hcalls := (calls_prefix_ideal P w priv task_num
      (size_precompute P frame tasks task_num bad_tasks_num)).2 hok
    show (write_pass P w priv task_num _).2.calls = _
    rw [hcalls, ideal_calls_shape]
    cases hisr : P.xPortInterruptedFromISRContext <;> simp [make_header, hisr]

/-- C17, witnessed on the header of a run in interrupt context over two
tasks. -/
theorem C17_header_fields_witness :
    ({ data_len := 1292, version := 1, tasks_num := 2, mem_segs_num := 1, tcb_sz := 12 } :
        core_dump_header_t) ∈
      (esp_core_dump_write_binary (example_port true) 4000 example_sink () 0
        example_tasks 2).calls.filterMap Call.header ∧
    (example_port true).COREDUMP_TCB_SIZE + 3 < 4294967296 ∧
    (1 : Nat) = (example_port true).COREDUMP_VERSION ∧ (2 : Nat) = 2 ∧
    ((12 : Nat) % 4 = 0 ∧ (example_port true).COREDUMP_TCB_SIZE ≤ 12 ∧
      12 < (example_port true).COREDUMP_TCB_SIZE + 4) :=
  ⟨by decide, by decide,
    (C17_header_fields (example_port true) 4000 example_sink () 0 example_tasks 2
      { data_len := 1292, version := 1, tasks_num := 2, mem_segs_num := 1, tcb_sz := 12 }
      (by decide) (by decide)).1,
    (C17_header_fields (example_port true) 4000 example_sink () 0 example_tasks 2
      { data_len := 1292, version := 1, tasks_num := 2, mem_segs_num := 1, tcb_sz := 12 }
      (by decide) (by decide)).2.1,
    (C17_header_fields (example_port true) 4000 example_sink () 0 example_tasks 2
      { data_len := 1292, version := 1, tasks_num := 2, mem_segs_num := 1, tcb_sz := 12 }
      (by decide) (by decide)).2.2.1⟩

/-- C18, as stated, fails: for `stack_start = 0` and `stack_end = 4294967295`
the sum `len + 3` wraps in 32 bits and the padded length is 0, below the stack
length. -/
theorem C18_counterexample :
    (0 : Nat) ≤ 4294967295 ∧ (4294967295 : Nat) < 4294967296 ∧
    esp_core_dump_get_stack_len 0 4294967295 = 0 ∧
    ¬ (4294967295 - 0 ≤ esp_core_dump_get_stack_len 0 4294967295) := by
  decide

/-- C18, amended: for 32-bit `stack_start ≤ stack_end` with
`stack_end - stack_start ≤ 2 ^ 32 - 4`, `esp_core_dump_get_stack_len` is the
stack length rounded up to the word size: a multiple of 4, at least
`stack_end - stack_start`, and less than 4 above it. -/
theorem C18_stack_len_rounded_up (stack_start stack_end : Nat)
    (h1 : stack_start ≤ stack_end) (h2 : stack_end < 4294967296)
    (h3 : stack_end - stack_start ≤ 4294967292) :
    esp_core_dump_get_stack_len stack_start stack_end % 4 = 0 ∧
    stack_end - stack_start ≤ esp_core_dump_get_stack_len stack_start stack_end ∧
    esp_core_dump_get_stack_len stack_start stack_end < stack_end - stack_start + 4 := by
  rw [get_stack_len_round stack_start stack_end h1 h2 h3]
  omega

/-- C18, witnessed on a stack of 105 bytes, padded to 108. -/
theorem C18_stack_len_rounded_up_witness :
    (300 : Nat) ≤ 405 ∧ (405 : Nat) < 4294967296 ∧ 405 - 300 ≤ 4294967292 ∧
    esp_core_dump_get_stack_len 300 405 = 108 ∧
    esp_core_dump_get_stack_len 300 405 % 4 = 0 ∧
    405 - 300 ≤ esp_core_dump_get_stack_len 300 405 ∧
    esp_core_dump_get_stack_len 300 405 < 405 - 300 + 4 :=
  ⟨by decide, by decide, by decide, by decide,
    C18_stack_len_rounded_up 300 405 (by decide) (by decide) (by decide)⟩

/-- C19, as stated, fails: on a partition smaller than one word the function
returns `ESP_ERR_INVALID_SIZE` before any mapping, and `*out_size` still holds
the caller's value. -/
theorem C19_counterexample :
    (esp_core_dump_image_get (example_flash checksum_mode.crc32 2 example_image)
      (some 11) (some 22)).err = ESP_ERR_INVALID_SIZE ∧
    (esp_core_dump_image_get (example_flash checksum_mode.crc32 2 example_image)
      (some 11) (some 22)).out_size = some 22 ∧
    (esp_core_dump_image_get (example_flash checksum_mode.crc32 2 example_image)
      (some 11) (some 22)).out_addr = some 11 ∧
    (esp_core_dump_image_get (example_flash checksum_mode.crc32 2 example_image)
      (some 11) (some 22)).maps = [] := by
  decide

/-- C19, amended: `*out_addr` is written, with the partition's address, only
when the function returns `ESP_OK`.  `*out_size` is written, with the raw
declared size, exactly when the first mapping succeeded: so it is overwritten
on `ESP_ERR_INVALID_SIZE` for a declared size out of bounds, on a failed
second mapping and on `ESP_ERR_INVALID_CRC`; with a `NULL` pointer, without a
partition, with a partition smaller than one word (also
`ESP_ERR_INVALID_SIZE`) and on a failed first mapping neither output is
modified. -/
theorem C19_outputs_written (F : Flash) (out_addr out_size : Option Nat) :
    ((out_addr = none ∨ out_size = none) →
      (esp_core_dump_image_get F out_addr out_size).out_addr = out_addr ∧
      (esp_core_dump_image_get F out_addr out_size).out_size = out_size) ∧
    ((esp_core_dump_image_get F out_addr out_size).err ≠ ESP_OK →
      (esp_core_dump_image_get F out_addr out_size).out_addr = out_addr) ∧
    ((esp_core_dump_image_get F out_addr out_size).err = ESP_OK →
      ∃ part : esp_partition_t, F.esp_partition_find_first = some part ∧
        (esp_core_dump_image_get F out_addr out_size).out_addr = some part.address ∧
        (esp_core_dump_image_get F out_addr out_size).out_size = some (read_u32 F.data 0)) ∧
    (F.esp_partition_find_first = none →
      (esp_core_dump_image_get F out_addr out_size).out_size = out_size) ∧
    (∀ part : esp_partition_t, F.esp_partition_find_first = some part →
      ((part.size < 4 ∨ (F.esp_partition_mmap 0 0 4).err ≠ ESP_OK) →
        (esp_core_dump_image_get F out_addr out_size).out_size = out_size) ∧
      (out_addr ≠ none → out_size ≠ none → 4 ≤ part.size →
        (F.esp_partition_mmap 0 0 4).err = ESP_OK →
        (esp_core_dump_image_get F out_addr out_size).out_size =
          some (read_u32 F.data 0))) := by
  by_cases hnull : out_addr = none ∨ out_size = none
  · rw [image_get_null F _ _ hnull]
    have hne : ESP_ERR_INVALID_ARG ≠ ESP_OK := by decide
    refine ⟨fun _ => ⟨rfl, rfl⟩, fun _ => rfl, fun h => absurd h hne, fun _ => rfl, ?_⟩
    intro part _
    refine ⟨fun _ => rfl, ?_⟩
    intro ha hs
    rcases hnull with h | h
    · exact absurd h ha
    · exact absurd h hs
  have ha : out_addr ≠ none := fun h => hnull (Or.inl h)
  have hs : out_size ≠ none := fun h => hnull (Or.inr h)
  obtain ⟨a, rfl⟩ := Option.ne_none_iff_exists'.mp ha
  obtain ⟨s, rfl⟩ := Option.ne_none_iff_exists'.mp hs
  refine ⟨fun h => absurd h hnull, ?_, ?_, ?_, ?_⟩
  · intro herr
    cases hpart : F.esp_partition_find_first with
    | none => rw [image_get_no_partition F a s hpart]
    | some part =>
    by_cases hc : part.size < 4
    · rw [image_get_small_partition F a s part hpart hc]
    by_cases hm1 : (F.esp_partition_mmap 0 0 4).err = ESP_OK
    swap
    · rw [image_get_first_mmap_fails F a s part hpart (by omega) hm1]
    by_cases hd : read_u32 F.data 0 < 4 ∨ part.size < read_u32 F.data 0
    · rw [image_get_bad_size F a s part hpart (by omega) hm1 hd]
    rw [image_get_checked F a s part hpart (by omega) hm1 (by omega) (by omega)] at herr ⊢
    by_cases hm2 : (F.esp_partition_mmap 1 0 (read_u32 F.data 0)).err = ESP_OK
    · rw [if_neg (not_not.mpr hm2)] at herr ⊢
      cases hcs : (checksum_step F (read_u32 F.data 0)).2.2 with
      | true => simp only [if_true]
      | false =>
        simp only [hcs, Bool.false_eq_true, if_false] at herr
        exact absurd rfl herr
    · rw [if_pos hm2]
  · intro hok
    obtain ⟨a2, s2, part, ha2, hs2, hpart, hc, hm1, hd1, hd2, hm2, hcs⟩ :=
      image_get_ok_inv F _ _ hok
    refine ⟨part, hpart, ?_, ?_⟩
    · rw [image_get_checked F a s part hpart hc hm1 hd1 hd2, if_neg (not_not.mpr hm2)]
      simp only [hcs, Bool.false_eq_true, if_false]
    · rw [image_get_checked F a s part hpart hc hm1 hd1 hd2, if_neg (not_not.mpr hm2)]
  · intro hpart
    rw [image_get_no_partition F a s hpart]
  · intro part hpart
    refine ⟨?_, ?_⟩
    · intro h
      by_cases hc : part.size < 4
      · rw [image_get_small_partition F a s part hpart hc]
      · rcases h with h | h
        · exact absurd h hc
        · rw [image_get_first_mmap_fails F a s part hpart (by omega) h]
    · intro _ _ hc hm1
      by_cases hd : read_u32 F.data 0 < 4 ∨ part.size < read_u32 F.data 0
      · rw [image_get_bad_size F a s part hpart hc hm1 hd]
      · rw [image_get_checked F a s part hpart hc hm1 (by omega) (by omega)]
        split <;> rfl

/-- C20: when `esp_core_dump_check_task` flags tasks of the snapshot as
current (one or several), with a sink that never fails, the flagged task with
the highest snapshot index `c` is the fault task: its record is written first
after the header, every other task, flagged or not, follows in increasing
snapshot order, and in interrupt context the record at `c` is the one
retargeted to the interrupt stack while every other record is left as the
snapshot gave it. -/
theorem C20_highest_flagged_is_fault_task {σ : Type} (P : Port) (frame : Nat)
    (w : core_dump_write_config_t σ) (priv : σ) (bad_tasks_num : Nat)
    (tasks : Int → core_dump_task_header_t) (task_num : Nat) (hw : AllOk w)
    (hflag : ∃ j : Nat, j < task_num ∧ is_flagged P frame tasks j = true) :
    ∃ c : Nat, c < task_num ∧ is_flagged P frame tasks c = true ∧
      (∀ j : Nat, j < task_num → is_flagged P frame tasks j = true → j ≤ c) ∧
      (esp_core_dump_write_binary P frame w priv bad_tasks_num tasks task_num).calls.filterMap
          Call.task_index =
        (c : Int) :: ((List.range task_num).erase c).map (fun (i : Nat) => (i : Int)) ∧
      (∃ (hdr : core_dump_header_t) (pre rest : List Call),
        (∀ x ∈ pre, x.is_write = false) ∧
        (esp_core_dump_write_binary P frame w priv bad_tasks_num tasks task_num).calls =
          pre ++ Call.write (Payload.hdr hdr) P.sizeof_core_dump_header_t ESP_OK ::
            (task_calls P
              (esp_core_dump_write_binary P frame w priv bad_tasks_num tasks task_num).tasks
              (c : Int) ++ rest)) ∧
      (P.xPortInterruptedFromISRContext = true →
        (esp_core_dump_write_binary P frame w priv bad_tasks_num tasks task_num).tasks (c : Int) =
          { tcb_addr := (tasks (c : Int)).tcb_addr
            stack_start := frame % U32
            stack_end := P.esp_core_dump_get_isr_stack_end % U32 }) ∧
      (∀ j : Int, j ≠ (c : Int) →
        (esp_core_dump_write_binary P frame w priv bad_tasks_num tasks task_num).tasks j =
          tasks j) := by
  rcases fault_index_cases P frame tasks task_num bad_tasks_num with ⟨_, _, h3⟩ |
    ⟨c, hc1, hc2, hc3, hc4, hc5⟩
  · obtain ⟨j, hj1, hj2⟩ := hflag
    rw [h3 j hj1] at hj2; exact absurd hj2 (by decide)
  refine ⟨c, hc1, hc4, ?_, ?_, ?_, ?_, ?_⟩
  · intro j hj1 hj2
    by_contra hlt
    have := hc5 j (by omega) hj1
    rw [this] at hj2
    exact absurd hj2 (by decide)
  · show (write_pass P w priv task_num _).2.calls.filterMap Call.task_index = _
    rw [task_index_all_ok P w hw, hc2, other_task_ids_eq_erase]
  · obtain ⟨rest, hrest⟩ := calls_begin P w hw priv task_num
      (size_precompute P frame tasks task_num bad_tasks_num)
    rw [hc2] at hrest
    exact ⟨_, _, rest, hooks_not_write w _, hrest⟩
  · intro hisr
    show (size_precompute P frame tasks task_num bad_tasks_num).tasks (c : Int) = _
    rw [size_precompute_tasks_isr P frame tasks task_num bad_tasks_num hisr, hc3]
    simp
  · intro j hj
    show (size_precompute P frame tasks task_num bad_tasks_num).tasks j = _
    cases hisr : P.xPortInterruptedFromISRContext with
    | false => rw [size_precompute_tasks_not_isr P frame tasks task_num bad_tasks_num hisr]
    | true =>
      rw [size_precompute_tasks_isr P frame tasks task_num bad_tasks_num hisr, hc3,
        Function.update_noteq hj]

/-- C20, witnessed in interrupt context on three tasks of which entries 0 and 2
are both flagged: the records go out in the order 2, 0, 1. -/
theorem C20_highest_flagged_is_fault_task_witness :
    AllOk example_sink ∧
    is_flagged (example_port true) 4000 twice_flagged_tasks 0 = true ∧
    is_flagged (example_port true) 4000 twice_flagged_tasks 2 = true ∧
    (esp_core_dump_write_binary (example_port true) 4000 example_sink () 0
      twice_flagged_tasks 3).calls.filterMap Call.task_index = [2, 0, 1] ∧
    ∃ c : Nat, c < 3 ∧ is_flagged (example_port true) 4000 twice_flagged_tasks c = true ∧
      (∀ j : Nat, j < 3 → is_flagged (example_port true) 4000 twice_flagged_tasks j = true →
        j ≤ c) ∧
      (esp_core_dump_write_binary (example_port true) 4000 example_sink () 0
          twice_flagged_tasks 3).calls.filterMap Call.task_index =
        (c : Int) :: ((List.range 3).erase c).map (fun (i : Nat) => (i : Int)) ∧
      (∃ (hdr : core_dump_header_t) (pre rest : List Call),
        (∀ x ∈ pre, x.is_write = false) ∧
        (esp_core_dump_write_binary (example_port true) 4000 example_sink () 0
            twice_flagged_tasks 3).calls =
          pre ++ Call.write (Payload.hdr hdr) (example_port true).sizeof_core_dump_header_t
              ESP_OK ::
            (task_calls (example_port true)
              (esp_core_dump_write_binary (example_port true) 4000 example_sink () 0
                twice_flagged_tasks 3).tasks
              (c : Int) ++ rest)) ∧
      ((example_port true).xPortInterruptedFromISRContext = true →
        (esp_core_dump_write_binary (example_port true) 4000 example_sink () 0
            twice_flagged_tasks 3).tasks (c : Int) =
          { tcb_addr := (twice_flagged_tasks (c : Int)).tcb_addr
            stack_start := 4000 % U32
            stack_end := (example_port true).esp_core_dump_get_isr_stack_end % U32 }) ∧
      (∀ j : Int, j ≠ (c : Int) →
        (esp_core_dump_write_binary (example_port true) 4000 example_sink () 0
            twice_flagged_tasks 3).tasks j = twice_flagged_tasks j) :=
  ⟨example_sink_all_ok, by decide, by decide, by decide,
    C20_highest_flagged_is_fault_task (example_port true) 4000 example_sink () 0
      twice_flagged_tasks 3 example_sink_all_ok ⟨0, by decide, by decide⟩⟩

end CoreDump
